import Mathlib

/-!
# BlueZ adapter core (`src/adapter.c`): a shallow embedding

The adapter object of the daemon is embedded as a record, every D-Bus method
handler and callback of `src/adapter.c` as a pure function from the adapter
state to a result carrying the returned value, the new adapter state and the
ordered list of the externally visible actions the C function performs
(HCI commands, D-Bus replies and signals, timers, watches, storage writes).
The answers of the world outside the file (controller, storage, agent, GLib,
helpers that live in other files of the daemon) are read from an `Env` record,
over which every theorem quantifies.
-/

namespace BlueZ

/-! ## Constants -/

/-- Modelled from the spec: the header `hcid.h` that defines the `MODE_*`
values is not among the sources; the spec orders the modes
Off, Connectable, Discoverable, Limited ("at or above the requested level"). -/
def MODE_OFF : Nat := 0x00
/-- Modelled from the spec: see `MODE_OFF`. -/
def MODE_CONNECTABLE : Nat := 0x01
/-- Modelled from the spec: see `MODE_OFF`. -/
def MODE_DISCOVERABLE : Nat := 0x02
/-- Modelled from the spec: see `MODE_OFF`. -/
def MODE_LIMITED : Nat := 0x03
/-- Modelled from the spec: see `MODE_OFF`; the value `str2mode` returns for a
string that names no mode. -/
def MODE_UNKNOWN : Nat := 0xff

/-- Modelled from the spec: `hci.h` is not among the sources; the scan-enable
bitmask with its "inquiry-scan" and "page-scan" bits, at the values of the
HCI `Write_Scan_Enable` command. -/
def SCAN_DISABLED : Nat := 0x00
/-- Modelled from the spec: see `SCAN_DISABLED`; the inquiry-scan bit. -/
def SCAN_INQUIRY : Nat := 0x01
/-- Modelled from the spec: see `SCAN_DISABLED`; the page-scan bit. -/
def SCAN_PAGE : Nat := 0x02

/-- Modelled from the spec: `hcid.h` is not among the sources; the two
"off-policies" of `hcid.offmode` ("device up/down per configured off-policy"). -/
def HCID_OFFMODE_DEVDOWN : Nat := 0
/-- Modelled from the spec: see `HCID_OFFMODE_DEVDOWN`. -/
def HCID_OFFMODE_NOSCAN : Nat := 1

/-- Modelled from the spec: `adapter.h` is not among the sources; the values of
`discov_type` ("discovery type = none", standard and periodic inquiry, and the
resolve-names action). -/
def DISCOVER_TYPE_NONE : Nat := 0x00
/-- Modelled from the spec: see `DISCOVER_TYPE_NONE`. -/
def STD_INQUIRY : Nat := 0x01
/-- Modelled from the spec: see `DISCOVER_TYPE_NONE`. -/
def PERIODIC_INQUIRY : Nat := 0x02
/-- Modelled from the spec: see `DISCOVER_TYPE_NONE`. -/
def RESOLVE_NAME : Nat := 0x10

/-- The I/O capabilities, defined at the top of `src/adapter.c`. -/
def IO_CAPABILITY_DISPLAYONLY : Nat := 0x00
def IO_CAPABILITY_DISPLAYYESNO : Nat := 0x01
def IO_CAPABILITY_KEYBOARDONLY : Nat := 0x02
def IO_CAPABILITY_NOINPUTOUTPUT : Nat := 0x03
def IO_CAPABILITY_INVALID : Nat := 0xFF

/-- Opcode group and command fields of the HCI commands the file sends; they
come from `hci.h`, which is not among the sources, and appear in the model
only as labels of the commands sent. -/
def OGF_LINK_CTL : Nat := 0x01
def OGF_HOST_CTL : Nat := 0x03
def OCF_INQUIRY : Nat := 0x0001
def OCF_PERIODIC_INQUIRY : Nat := 0x0003
def OCF_PIN_CODE_NEG_REPLY : Nat := 0x000E
def OCF_AUTH_REQUESTED : Nat := 0x0011
def OCF_USER_CONFIRM_NEG_REPLY : Nat := 0x002D
def OCF_USER_PASSKEY_NEG_REPLY : Nat := 0x002F
def OCF_SET_EVENT_MASK : Nat := 0x0001
def OCF_WRITE_SCAN_ENABLE : Nat := 0x001A

/-- HCI status codes (`hci.h`, not among the sources), at the values of the
HCI specification. -/
def HCI_AUTHENTICATION_FAILURE : Nat := 0x05
def HCI_OE_USER_ENDED_CONNECTION : Nat := 0x13

/-- Values of `errno` the file names (`errno.h` of the C library). -/
def ENODEV : Int := 19
def EINVAL : Int := 22
def ENETDOWN : Int := 100
def EALREADY : Int := 114

/-- Modelled from the spec: the error-name prefix `ERROR_INTERFACE` comes from
a header that is not among the sources (the spec writes `org.*.AlreadyExists`). -/
def ERROR_INTERFACE : String := "org.bluez.Error"
/-- Modelled from the spec: interface name of the adapter object's signals. -/
def ADAPTER_INTERFACE : String := "org.bluez.Adapter"
/-- Modelled from the spec: interface name of the device object's signals. -/
def DEVICE_INTERFACE : String := "org.bluez.Device"

/-! ## D-Bus messages -/

/-- A Bluetooth device address (`bdaddr_t`, six bytes) as a number. -/
abbrev bdaddr_t := Nat

/-- The all-zero address `BDADDR_ANY`. -/
def BDADDR_ANY : bdaddr_t := 0

/-- An argument of a D-Bus message. -/
inductive DBusArg where
  | string (s : String)
  | object_path (s : String)
  | uint32 (n : Nat)
  | boolean (b : Bool)
  | variant (v : DBusArg)
  | dict_entry (key : String) (value : DBusArg)
  deriving DecidableEq, Repr

/-- A D-Bus method call as the handlers see it: the unique name of the sender,
the object path and the arguments; the interface field may be missing, the
member is the name of the method called. -/
structure DBusMessage where
  sender : String
  path : String
  args : List DBusArg
  interface : Option String := none
  member : String := ""
  deriving DecidableEq, Repr

/-- The text of an error reply: a literal of the source, or `strerror(err)`. -/
inductive ErrText where
  | lit (s : String)
  | strerror (err : Int)
  deriving DecidableEq, Repr

/-- A reply message built for a method call: `dbus_message_new_method_return`
(with the arguments appended), an error (`g_dbus_create_error`,
`dbus_message_new_error`), or the reply `new_authentication_return` builds
from an HCI status. -/
inductive Reply where
  | method_return (msg : DBusMessage) (args : List DBusArg)
  | error (msg : DBusMessage) (name : String) (text : ErrText)
  | authentication_return (msg : DBusMessage) (status : Nat)
  deriving DecidableEq, Repr

/-- The error of an agent's answer (`DBusError`), set or not. -/
structure DBusError where
  is_set : Bool
  name : String
  message : String
  deriving DecidableEq, Repr

/-! ## The adapter and the records it owns -/

/-- A confirmation authority (`struct agent`, opaque to the file): the bus name
and object path it was created with and its I/O capability, the arguments of
`agent_create`. -/
structure agent where
  name : String
  path : String
  capability : Nat
  deriving DecidableEq, Repr

/-- The fields of `struct btd_device` (opaque to the file) that the file
reaches through `device_get_address`, `device_get_path`,
`device_is_temporary`, `device_is_busy` and `device_get_agent`. -/
structure btd_device where
  address : String
  path : String
  temporary : Bool
  busy : Bool
  agent : Option agent
  deriving DecidableEq, Repr

/-- Kinds of authentication request (`auth_type_t`). -/
inductive auth_type_t where
  | AUTH_TYPE_PINCODE
  | AUTH_TYPE_PASSKEY
  | AUTH_TYPE_CONFIRM
  | AUTH_TYPE_NOTIFY
  deriving DecidableEq, Repr

/-- An outstanding authentication request (`struct pending_auth_info`,
declared in `adapter.h`, which is not among the sources): the fields the file
uses. -/
structure pending_auth_info where
  type : auth_type_t
  bdaddr : bdaddr_t
  replied : Bool
  agent : Option agent
  deriving DecidableEq, Repr

/-- A cached connection (`struct active_conn_info` of `adapter.h`). -/
structure active_conn_info where
  bdaddr : bdaddr_t
  handle : Nat
  deriving DecidableEq, Repr

/-- State of the name of a found device (`name_status_t`). -/
inductive name_status_t where
  | NAME_ANY
  | NAME_NOT_REQUIRED
  | NAME_REQUIRED
  | NAME_REQUESTED
  | NAME_SENT
  deriving DecidableEq, Repr

/-- A found device (`struct remote_dev_info` of `adapter.h`): the fields the
file uses. -/
structure remote_dev_info where
  bdaddr : bdaddr_t
  name_status : name_status_t
  deriving DecidableEq, Repr

/-- One client's claim on a minimum mode (`struct mode_req`); `msg` is the
RequestMode call, `id` the disconnect watch. -/
structure mode_req where
  msg : DBusMessage
  mode : Nat
  id : Nat
  deriving DecidableEq, Repr

/-- The bonding in flight (`struct bonding_request_info` of `adapter.h`, which
is not among the sources): the fields the file uses; `chan` is the channel of
the raw L2CAP socket (field `io`), `msg` the call that asked for the bonding
(its sender is the requestor). -/
structure bonding_request_info where
  msg : DBusMessage
  bdaddr : bdaddr_t
  chan : Int
  io_id : Nat
  listener_id : Nat
  hci_status : Nat
  cancel : Int
  auth_active : Int
  deriving DecidableEq, Repr

/-- Controller identity and features (`struct hci_dev`). The field `name` is a
buffer of 248 bytes: the model keeps its bytes before the first zero byte. -/
structure hci_dev where
  ignore : Int
  features : List Nat
  cls : List Nat
  name : List Nat
  hci_rev : Nat
  lmp_ver : Nat
  lmp_subver : Nat
  manufacturer : Nat
  ssp_mode : Nat
  deriving DecidableEq, Repr

/-- The adapter (`struct adapter` of `adapter.h`, which is not among the
sources): the fields `src/adapter.c` uses. Pointers that may be `NULL` are
options, `GSList`s are lists, `int` flags are integers, `guint` handles are
naturals with 0 for "none". -/
structure adapter where
  dev_id : Nat
  up : Int
  path : String
  address : String
  discov_timeout_id : Nat
  discov_timeout : Nat
  scan_mode : Nat
  mode : Nat
  global_mode : Nat
  pinq_idle : Int
  discov_type : Nat
  pdiscov_resolve_names : Int
  pdiscov_active : Int
  discov_active : Int
  found_devices : List remote_dev_info
  oor_devices : List String
  pdiscov_requestor : Option String
  discov_requestor : Option String
  discovery_cancel : Option DBusMessage
  agent : Option agent
  active_conn : List active_conn_info
  bonding : Option bonding_request_info
  auth_reqs : List pending_auth_info
  devices : List btd_device
  sessions : List mode_req
  pdiscov_listener : Nat
  discov_listener : Nat
  dev : hci_dev
  deriving DecidableEq, Repr

/-! ## Observable actions -/

/-- Parameter block of an HCI command. -/
inductive HciParam where
  | bytes (l : List Nat)
  | bdaddr (b : bdaddr_t)
  | handle (h : Nat)
  | inquiry (lap : List Nat) (length num_rsp : Nat)
  | periodic_inquiry (lap : List Nat) (max_period min_period length num_rsp : Nat)
  deriving DecidableEq, Repr

/-- What a function of the file does to the world, in the order it does it. -/
inductive Effect where
  | hci_open_dev (dev_id : Nat)
  | hci_close_dev
  | hci_send_req (ogf ocf : Nat) (cparam : HciParam)
  | hci_send_cmd (ogf ocf : Nat) (param : HciParam)
  | hci_read_remote_name_cancel (b : bdaddr_t)
  | hci_delete_stored_link_key (b : bdaddr_t)
  | hci_disconnect (handle : Nat)
  | hci_write_local_name (name : String)
  | hci_write_ext_inquiry_response
  | hci_write_inquiry_mode (mode : Nat)
  | hci_write_simple_pairing_mode (mode : Nat)
  | hci_read (what : String)
  | ioctl_HCIDEVUP
  | ioctl_HCIDEVDOWN
  | ioctl_HCIGETAUTHINFO
  | ioctl_HCIGETCONNLIST
  | set_limited_discoverable (limited : Bool)
  | l2raw_connect (src : String) (dst : bdaddr_t)
  | close (sk : Int)
  | g_io_channel_close (chan : Int)
  | g_io_add_watch (chan : Int) (with_out : Bool)
  | g_source_remove (id : Nat)
  | g_timeout_add (interval : Nat)
  | g_dbus_add_disconnect_watch (name : String)
  | g_dbus_remove_watch (id : Nat)
  | send (r : Reply)
  | emit_signal (path interface name : String) (args : List DBusArg)
  | emit_property_changed (path interface name : String) (value : DBusArg)
  | write_device_mode (mode : String)
  | write_discoverable_timeout (timeout : Nat)
  | write_local_name (name : String)
  | delete_entry (file key : String)
  | textfile_casedel (file key : String)
  | agent_create (name path : String) (capability : Nat)
  | agent_destroy (ag : agent)
  | agent_cancel (ag : agent)
  | agent_confirm_mode_change (ag : agent) (mode : String) (req : mode_req)
  | device_create (address : String)
  | device_remove (d : btd_device)
  | device_probe_drivers (d : btd_device)
  | dbus_connection_unref
  | dbus_message_unref (msg : DBusMessage)
  deriving DecidableEq, Repr

/-- What a function returns together with the adapter it leaves and the
actions it performed, oldest first. -/
structure Ret (α : Type) where
  val : α
  adapter : adapter
  out : List Effect

/-! ## The world outside the file -/

/-- Answers of everything the file calls but does not define: library
functions, storage, the controller, GLib and the helpers of other files of
the daemon. One record describes the answers given during one call of a
handler; integer results are the C return values (negative for failure). -/
structure Env where
  /-- the pure helpers `str2ba`, `ba2str`, `check_address`, `bt_error` -/
  str2ba : String → bdaddr_t
  ba2str : bdaddr_t → String
  check_address : String → Int
  bt_error : Nat → Int
  /-- the configured off-policy `hcid.offmode` -/
  offmode : Nat
  /-- the result of `textfile_caseget` on the adapter's `linkkeys` file -/
  linkkey : String → Option String
  /-- the mode string `read_on_mode` finds, `none` when the read fails -/
  read_on_mode : Option String
  /-- the name `read_local_name` finds, `none` when there is none -/
  read_local_name : Option String
  /-- the calls `hci_open_dev` and `hci_read_remote_name_cancel` inside
  `pending_remote_name_cancel` -/
  rnc_open_dev : Int
  rnc_cancel : Int
  rnc_errno : Int
  /-- the `hci_open_dev` of the handler itself and the `errno` it leaves -/
  hci_open_dev : Int
  open_errno : Int
  /-- the `hci_send_req` of the handler: return value, `errno`, status byte of
  the controller's answer -/
  hci_send_req : Int
  errno : Int
  status : Nat
  /-- the calls `ioctl(dd, HCIDEVUP)` and `ioctl(dd, HCIDEVDOWN)` with their `errno` -/
  ioctl_up : Int
  ioctl_up_errno : Int
  ioctl_down : Int
  ioctl_down_errno : Int
  /-- the result of `set_limited_discoverable` (another file of the daemon) -/
  set_limited_discoverable : Int
  /-- the socket `l2raw_connect` returns, negative on failure -/
  l2raw_connect : Int
  /-- the device `device_create` (device registry) returns, `none` for `NULL` -/
  device_create : String → Option btd_device
  /-- the agent `agent_create` returns -/
  agent_create : String → String → Nat → Option agent
  /-- identifiers handed out by GLib and gdbus -/
  g_io_add_watch : Nat
  g_dbus_add_disconnect_watch : Nat
  g_timeout_add : Nat
  /-- the result of `agent_confirm_mode_change` -/
  agent_confirm_mode_change : Int
  /-- calls inside `remove_bonding` -/
  rb_open_dev : Int
  rb_casedel : Int
  rb_errno : Int
  rb_disconnect : Int
  /-- the functions `cancel_discovery` and `cancel_periodic_discovery` (another file of the
  daemon): return value, adapter left behind, actions performed -/
  cancel_discovery : adapter → Ret Int
  cancel_periodic_discovery : adapter → Ret Int
  /-- the results of `g_utf8_validate` and of `hci_write_local_name` in
  `set_name` and `adapter_set_name` -/
  utf8_validate : String → Bool
  hci_write_local_name : Int
  /-- the two `getsockopt` calls of `create_bonding_conn_complete`: the return
  value of the first and the socket error it reads, the return value of the
  second and the connection handle it reads, and the `errno` a failed one
  leaves -/
  cbc_getsockopt_error : Int
  cbc_so_error : Int
  cbc_getsockopt_conninfo : Int
  cbc_hci_handle : Nat
  cbc_errno : Int
  /-- answers read by `adapter_start`, `adapter_setup` and `adapter_up` -/
  hci_devinfo : Int
  devinfo_errno : Int
  di_raw : Bool
  di_inquiry : Bool
  di_bdaddr : bdaddr_t
  di_features : List Nat
  rba_open_dev : Int
  rba_read : Int
  rba_errno : Int
  read_local_version : Int
  ver : Nat × Nat × Nat × Nat
  read_local_features : Int
  features : List Nat
  read_class_of_dev : Int
  cls : List Nat
  hci_read_local_name : Int
  name : String
  ioctl_getauthinfo : Int
  getauthinfo_errno : Int
  read_simple_pairing_mode : Int
  ssp_mode : Nat
  start_errno : Int
  write_inquiry_mode : Int
  get_discoverable_timeout : Nat
  get_startup_scan : Nat
  get_startup_mode : Nat
  ioctl_getconnlist : Int
  conn_list : List active_conn_info
  stored_profiles : List String
  stored_linkkeys : List String

/-! ## Error replies -/

def invalid_args (msg : DBusMessage) : Reply :=
  .error msg (ERROR_INTERFACE ++ ".InvalidArguments") (.lit "Invalid arguments in method call")

def not_available (msg : DBusMessage) : Reply :=
  .error msg (ERROR_INTERFACE ++ ".NotAvailable") (.lit "Not Available")

def adapter_not_ready (msg : DBusMessage) : Reply :=
  .error msg (ERROR_INTERFACE ++ ".NotReady") (.lit "Adapter is not ready")

def no_such_adapter (msg : DBusMessage) : Reply :=
  .error msg (ERROR_INTERFACE ++ ".NoSuchAdapter") (.lit "No such adapter")

def failed_strerror (msg : DBusMessage) (err : Int) : Reply :=
  .error msg (ERROR_INTERFACE ++ ".Failed") (.strerror err)

def in_progress (msg : DBusMessage) (str : String) : Reply :=
  .error msg (ERROR_INTERFACE ++ ".InProgress") (.lit str)

def not_in_progress (msg : DBusMessage) (str : String) : Reply :=
  .error msg (ERROR_INTERFACE ++ ".NotInProgress") (.lit str)

def not_authorized (msg : DBusMessage) : Reply :=
  .error msg (ERROR_INTERFACE ++ ".NotAuthorized") (.lit "Not authorized")

/-- The function `error_failed`: builds the `Failed` error and sends it. -/
def error_failed (msg : DBusMessage) (desc : ErrText) : List Effect :=
  [.send (.error msg (ERROR_INTERFACE ++ ".Failed") desc)]

def error_failed_errno (msg : DBusMessage) (err : Int) : List Effect :=
  error_failed msg (.strerror err)

def error_connection_attempt_failed (msg : DBusMessage) (err : Int) : List Effect :=
  [.send (.error msg (ERROR_INTERFACE ++ ".ConnectionAttemptFailed")
    (if err > 0 then .strerror err else .lit "Connection attempt failed"))]

/-! ## Library helpers -/

/-- The comparison `bacmp`: zero exactly when the two addresses are equal. -/
def bacmp (a b : bdaddr_t) : Int :=
  if a = b then 0 else if a < b then -1 else 1

/-- The test `strcasecmp(a, b) == 0`: equality up to the case of ASCII letters. -/
def strcasecmp_eq (a b : String) : Bool :=
  a.data.map Char.toLower == b.data.map Char.toLower

/-- The bytes of one character in UTF-8, the encoding of the strings D-Bus
hands over and of the names in storage. -/
def utf8_char (c : Char) : List Nat :=
  let v := c.toNat
  if v < 0x80 then [v]
  else if v < 0x800 then [0xc0 + v / 0x40, 0x80 + v % 0x40]
  else if v < 0x10000 then [0xe0 + v / 0x1000, 0x80 + v / 0x40 % 0x40, 0x80 + v % 0x40]
  else
    [0xf0 + v / 0x40000, 0x80 + v / 0x1000 % 0x40, 0x80 + v / 0x40 % 0x40, 0x80 + v % 0x40]

/-- The bytes a `char *` points at, up to the closing zero byte. -/
def utf8_bytes (s : String) : List Nat :=
  s.data.flatMap utf8_char

/-- GLib's `g_slist_find_custom`: the first element on which the comparison gives 0. -/
def g_slist_find_custom {α β : Type} (list : List α) (data : β) (cmp : α → β → Int) :
    Option α :=
  list.find? (fun x => cmp x data == 0)

/-! ## Pending authentication requests -/

def auth_req_cmp (pb1 : pending_auth_info) (bda : Option bdaddr_t) : Int :=
  match bda with
  | some b => bacmp pb1.bdaddr b
  | none => -1

def adapter_find_auth_request (a : adapter) (dba : bdaddr_t) : Option pending_auth_info :=
  g_slist_find_custom a.auth_reqs (some dba) auth_req_cmp

/-- Marks replied the first entry of the list that `auth_req_cmp` accepts. -/
def mark_replied (dba : bdaddr_t) : List pending_auth_info → List pending_auth_info
  | [] => []
  | x :: xs =>
    if auth_req_cmp x (some dba) == 0 then { x with replied := true } :: xs
    else x :: mark_replied dba xs

def adapter_auth_request_replied (a : adapter) (dba : bdaddr_t) : adapter :=
  match g_slist_find_custom a.auth_reqs (some dba) auth_req_cmp with
  | none => a
  | some _ => { a with auth_reqs := mark_replied dba a.auth_reqs }

def adapter_remove_auth_request (a : adapter) (dba : bdaddr_t) : adapter :=
  match g_slist_find_custom a.auth_reqs (some dba) auth_req_cmp with
  | none => a
  | some auth => { a with auth_reqs := a.auth_reqs.erase auth }

def adapter_new_auth_request (a : adapter) (dba : bdaddr_t) (type : auth_type_t) :
    Ret pending_auth_info :=
  let info : pending_auth_info := { type := type, bdaddr := dba, replied := false, agent := none }
  let a1 := { a with auth_reqs := a.auth_reqs ++ [info] }
  let a2 :=
    match a1.bonding with
    | some b => if bacmp dba b.bdaddr = 0 then { a1 with bonding := some { b with auth_active := 1 } } else a1
    | none => a1
  ⟨info, a2, []⟩

/-- Modelled from the spec: `found_device_cmp` lives in another file of the
daemon; with the match record `pending_remote_name_cancel` builds (address
`BDADDR_ANY`, status `NAME_REQUESTED`) it accepts the found devices whose
name lookup is pending ("cancels any pending remote-name lookup"). -/
def found_device_cmp (d1 d2 : remote_dev_info) : Int :=
  if d2.bdaddr ≠ BDADDR_ANY ∧ bacmp d1.bdaddr d2.bdaddr ≠ 0 then bacmp d1.bdaddr d2.bdaddr
  else if d2.name_status ≠ .NAME_ANY ∧ d1.name_status ≠ d2.name_status then 1
  else 0

def pending_remote_name_cancel (env : Env) (a : adapter) : Ret Int :=
  let match_ : remote_dev_info := { bdaddr := BDADDR_ANY, name_status := .NAME_REQUESTED }
  match g_slist_find_custom a.found_devices match_ found_device_cmp with
  | none => ⟨0, a, []⟩
  | some dev =>
    if env.rnc_open_dev < 0 then ⟨-ENODEV, a, [.hci_open_dev a.dev_id]⟩
    else
      let err : Int := if env.rnc_cancel < 0 then -env.rnc_errno else 0
      ⟨err, { a with found_devices := [] },
        [.hci_open_dev a.dev_id, .hci_read_remote_name_cancel dev.bdaddr, .hci_close_dev]⟩

/-! ## Devices -/

/-- Modelled from the spec: `device_address_cmp` belongs to the device
registry, which is not among the sources ("find a device" by address); it
compares the device's address with the given one, ignoring case. -/
def device_address_cmp (d : btd_device) (address : String) : Int :=
  if strcasecmp_eq d.address address then 0 else 1

/-- Devices are handled through pointers; the position in `adapter->devices`
stands for the pointer. -/
def adapter_find_device (a : adapter) (dest : String) : Option Nat :=
  a.devices.findIdx? (fun d => device_address_cmp d dest == 0)

def adapter_create_device (env : Env) (a : adapter) (address : String) : Ret (Option Nat) :=
  match env.device_create address with
  | none => ⟨none, a, [.device_create address]⟩
  | some device =>
    ⟨some a.devices.length,
      { a with devices := a.devices ++ [{ device with temporary := true }] },
      [.device_create address]⟩

def adapter_get_device (env : Env) (a : adapter) (address : String) : Ret (Option Nat) :=
  match adapter_find_device a address with
  | some device => ⟨some device, a, []⟩
  | none => adapter_create_device env a address

/-- The comparison `active_conn_find_by_bdaddr` (another file): compares the addresses. -/
def active_conn_find_by_bdaddr (c : active_conn_info) (b : bdaddr_t) : Int :=
  bacmp c.bdaddr b

def remove_bonding (env : Env) (msg : Option DBusMessage) (address : String) (a : adapter) :
    Ret (Option Reply) :=
  let dst := env.str2ba address
  let o1 : List Effect := [.hci_open_dev a.dev_id]
  match (if env.rb_open_dev < 0 then msg else none) with
  | some m => ⟨some (no_such_adapter m), a, o1⟩
  | none =>
    let paired := (env.linkkey address).isSome
    match (if !paired then msg else none) with
    | some m =>
      ⟨some (.error m (ERROR_INTERFACE ++ ".DoesNotExist") (.lit "Bonding does not exist")), a,
        o1 ++ [.hci_close_dev]⟩
    | none =>
      let o2 := o1 ++ [.textfile_casedel "linkkeys" address]
      match (if env.rb_casedel < 0 then msg else none) with
      | some m => ⟨some (failed_strerror m env.rb_errno), a, o2 ++ [.hci_close_dev]⟩
      | none =>
        let o3 := o2 ++ [.hci_delete_stored_link_key dst]
        let l := g_slist_find_custom a.active_conn dst active_conn_find_by_bdaddr
        let o4 := o3 ++ (match l with
          | some con => [Effect.hci_disconnect con.handle]
          | none => [])
        match (if l.isSome ∧ env.rb_disconnect < 0 then msg else none) with
        | some m => ⟨some (failed_strerror m env.rb_errno), a, o4 ++ [.hci_close_dev]⟩
        | none =>
          let o5 := o4 ++ [.hci_close_dev]
          let o6 := o5 ++ (match (adapter_find_device a address).bind (fun i => a.devices.get? i) with
            | some device =>
              if paired then
                [Effect.emit_property_changed device.path DEVICE_INTERFACE "Paired" (.boolean false)]
              else []
            | none => [])
          match msg with
          | none => ⟨none, a, o6⟩
          | some m => ⟨some (.method_return m []), a, o6⟩

/-- The device is given by its position in `adapter->devices`. -/
def adapter_remove_device (env : Env) (a : adapter) (device : Nat) : Ret Unit :=
  match a.devices.get? device with
  | none => ⟨(), a, []⟩
  | some d =>
    let o1 : List Effect := [.delete_entry "profiles" d.address]
    let r := remove_bonding env none d.address a
    let o2 := o1 ++ r.out ++
      (if !d.temporary then
        [Effect.emit_signal a.path ADAPTER_INTERFACE "DeviceRemoved" [.object_path d.path]]
       else [])
    let o3 := o2 ++ (match d.agent with
      | some ag => [Effect.agent_destroy ag]
      | none => [])
    let d1 := { d with agent := none }
    ⟨(), { r.adapter with devices := r.adapter.devices.eraseIdx device },
      o3 ++ [.device_remove d1]⟩

/-- Called only while a bonding is in flight; the bonding is passed along. -/
def remove_pending_device (env : Env) (b : bonding_request_info) (a : adapter) : Ret Unit :=
  let address := env.ba2str b.bdaddr
  match adapter_find_device a address with
  | none => ⟨(), a, []⟩
  | some device =>
    match a.devices.get? device with
    | none => ⟨(), a, []⟩
    | some d =>
      if d.temporary then adapter_remove_device env a device else ⟨(), a, []⟩

/-! ## Bonding -/

def bonding_request_new (env : Env) (msg : DBusMessage) (a : adapter) (address : String)
    (agent_path : String) (capability : Nat) : Ret (Option bonding_request_info) :=
  let name := msg.sender
  let r := adapter_get_device env a address
  match r.val with
  | none => ⟨none, r.adapter, r.out⟩
  | some device =>
    let ag := env.agent_create name agent_path capability
    let a1 := { r.adapter with
      devices := r.adapter.devices.modify (fun d => { d with agent := ag }) device }
    ⟨some { msg := msg, bdaddr := env.str2ba address, chan := 0, io_id := 0, listener_id := 0,
            hci_status := 0, cancel := 0, auth_active := 0 },
      a1, r.out ++ [.agent_create name agent_path capability]⟩

def create_bonding (env : Env) (msg : DBusMessage) (address : String) (agent_path : String)
    (capability : Nat) (a : adapter) : Ret (Option Reply) :=
  let bdaddr := env.str2ba address
  if a.discov_active ≠ 0 then ⟨some (in_progress msg "Discover in progress"), a, []⟩
  else
    let c := pending_remote_name_cancel env a
    let a := c.adapter
    if a.bonding.isSome then ⟨some (in_progress msg "Bonding in progress"), a, c.out⟩
    else if (adapter_find_auth_request a bdaddr).isSome then
      ⟨some (in_progress msg "Bonding in progress"), a, c.out⟩
    else if (env.linkkey address).isSome then
      ⟨some (.error msg (ERROR_INTERFACE ++ ".AlreadyExists") (.lit "Bonding already exists")),
        a, c.out⟩
    else
      let o1 := c.out ++ [.l2raw_connect a.address bdaddr]
      let sk := env.l2raw_connect
      if sk < 0 then
        ⟨some (.error msg (ERROR_INTERFACE ++ ".ConnectionAttemptFailed")
          (.lit "Connection attempt failed")), a, o1⟩
      else
        let n := bonding_request_new env msg a address agent_path capability
        match n.val with
        | none => ⟨none, n.adapter, o1 ++ n.out ++ [.close sk]⟩
        | some bonding =>
          let bonding := { bonding with
            chan := sk, io_id := env.g_io_add_watch,
            listener_id := env.g_dbus_add_disconnect_watch }
          ⟨none, { n.adapter with bonding := some bonding },
            o1 ++ n.out ++ [.g_io_add_watch sk true, .g_dbus_add_disconnect_watch msg.sender]⟩

def parse_io_capability (capability : String) : Nat :=
  if capability = "" then IO_CAPABILITY_DISPLAYYESNO
  else if capability = "DisplayOnly" then IO_CAPABILITY_DISPLAYONLY
  else if capability = "DisplayYesNo" then IO_CAPABILITY_DISPLAYYESNO
  else if capability = "KeyboardOnly" then IO_CAPABILITY_KEYBOARDONLY
  else if capability = "NoInputOutput" then IO_CAPABILITY_NOINPUTOUTPUT
  else IO_CAPABILITY_INVALID

def create_paired_device (env : Env) (msg : DBusMessage) (a : adapter) : Ret (Option Reply) :=
  /- `dbus_message_get_args` reads the leading arguments and ignores what follows -/
  match msg.args with
  | .string address :: .object_path agent_path :: .string capability :: _ =>
    if env.check_address address < 0 then ⟨some (invalid_args msg), a, []⟩
    else
      let cap := parse_io_capability capability
      if cap = IO_CAPABILITY_INVALID then ⟨some (invalid_args msg), a, []⟩
      else create_bonding env msg address agent_path cap a
  | _ => ⟨some (invalid_args msg), a, []⟩

/-! ## Modes -/

def mode2str (mode : Nat) : String :=
  if mode = MODE_OFF then "off"
  else if mode = MODE_CONNECTABLE then "connectable"
  else if mode = MODE_DISCOVERABLE then "discoverable"
  else if mode = MODE_LIMITED then "limited"
  else "unknown"

/-- The functions `str2mode` and `on_mode` call each other: `str2mode` on the
string "on" asks `on_mode`, which feeds the stored mode string back to
`str2mode`. The first argument bounds the depth of the calls; `none` is a run
that needs more. -/
def str2mode : Nat → Env → String → Option Nat
  | 0, _, _ => none
  | fuel + 1, env, mode =>
    if strcasecmp_eq "off" mode then some MODE_OFF
    else if strcasecmp_eq "connectable" mode then some MODE_CONNECTABLE
    else if strcasecmp_eq "discoverable" mode then some MODE_DISCOVERABLE
    else if strcasecmp_eq "limited" mode then some MODE_LIMITED
    else if strcasecmp_eq "on" mode then
      /- `on_mode` -/
      match env.read_on_mode with
      | none => some MODE_CONNECTABLE
      | some stored => str2mode fuel env stored
    else some MODE_UNKNOWN

def on_mode (fuel : Nat) (env : Env) : Option Nat :=
  match env.read_on_mode with
  | none => some MODE_CONNECTABLE
  | some stored => str2mode fuel env stored

/-- The label `done` of `set_mode`. -/
def set_mode_done (msg : DBusMessage) (new_mode : Nat) (a : adapter) (out : List Effect) :
    Ret (Option Reply) :=
  ⟨some (.method_return msg []), { a with mode := new_mode },
    out ++ [.write_device_mode (mode2str new_mode), .hci_close_dev]⟩

/-- The part of `set_mode` after the device up/down handling. -/
def set_mode_scan (env : Env) (msg : DBusMessage) (new_mode scan_enable : Nat) (a : adapter)
    (out : List Effect) : Ret (Option Reply) :=
  let current_scan := a.scan_mode
  let limited := decide (new_mode = MODE_LIMITED)
  let o1 := out ++ [.set_limited_discoverable limited]
  if env.set_limited_discoverable < 0 then
    ⟨some (failed_strerror msg (-env.set_limited_discoverable)), a, o1 ++ [.hci_close_dev]⟩
  else if current_scan ≠ scan_enable then
    let o2 := o1 ++ [.hci_send_req OGF_HOST_CTL OCF_WRITE_SCAN_ENABLE (.bytes [scan_enable])]
    if env.hci_send_req < 0 then
      ⟨some (failed_strerror msg env.errno), a, o2 ++ [.hci_close_dev]⟩
    else if env.status ≠ 0 then
      ⟨some (failed_strerror msg (env.bt_error env.status)), a, o2 ++ [.hci_close_dev]⟩
    else set_mode_done msg new_mode a o2
  else if scan_enable &&& SCAN_INQUIRY ≠ 0 ∧ new_mode ≠ a.mode then
    let o2 := o1 ++ (if a.discov_timeout_id ≠ 0 then [Effect.g_source_remove a.discov_timeout_id] else [])
    if a.sessions = [] ∧ a.discov_timeout = 0 then
      set_mode_done msg new_mode { a with discov_timeout_id := env.g_timeout_add }
        (o2 ++ [.g_timeout_add (a.discov_timeout * 1000 % 2 ^ 32)])
    else set_mode_done msg new_mode a o2
  else set_mode_done msg new_mode a o1

def set_mode (env : Env) (msg : DBusMessage) (new_mode : Nat) (a : adapter) :
    Ret (Option Reply) :=
  let scan : Option Nat :=
    if new_mode = MODE_OFF then some SCAN_DISABLED
    else if new_mode = MODE_CONNECTABLE then some SCAN_PAGE
    else if new_mode = MODE_DISCOVERABLE ∨ new_mode = MODE_LIMITED then
      some (SCAN_PAGE ||| SCAN_INQUIRY)
    else none
  match scan with
  | none => ⟨some (invalid_args msg), a, []⟩
  | some scan_enable =>
    let o0 : List Effect := [.hci_open_dev a.dev_id]
    if env.hci_open_dev < 0 then ⟨some (no_such_adapter msg), a, o0⟩
    else if a.up = 0 ∧ (env.offmode = HCID_OFFMODE_NOSCAN ∨
        (env.offmode = HCID_OFFMODE_DEVDOWN ∧ scan_enable ≠ SCAN_DISABLED)) then
      let o1 := o0 ++ [.ioctl_HCIDEVUP]
      if env.ioctl_up = 0 then set_mode_done msg new_mode a o1
      else if env.ioctl_up_errno ≠ EALREADY then
        ⟨some (failed_strerror msg env.ioctl_up_errno), a, o1 ++ [.hci_close_dev]⟩
      else
        /- here `adapter->up` is 0, so the HCIDEVDOWN branch is not taken -/
        set_mode_scan env msg new_mode scan_enable a o1
    else if a.up ≠ 0 ∧ scan_enable = SCAN_DISABLED ∧ env.offmode = HCID_OFFMODE_DEVDOWN then
      let o1 := o0 ++ [.ioctl_HCIDEVDOWN]
      if env.ioctl_down < 0 then
        ⟨some (failed_strerror msg env.ioctl_down_errno), a, o1 ++ [.hci_close_dev]⟩
      else set_mode_done msg new_mode a o1
    else set_mode_scan env msg new_mode scan_enable a o0

/-- The comparison `find_session(req, msg)`: `strcmp` of the two senders, 0 when equal. -/
def find_session (req : mode_req) (msg : DBusMessage) : Int :=
  if req.msg.sender = msg.sender then 0 else 1

/-- The label `cleanup` of `confirm_mode_cb`. -/
def confirm_mode_cb_cleanup (req : mode_req) : List Effect :=
  if req.id ≠ 0 then [.g_dbus_remove_watch req.id] else []

def confirm_mode_cb (env : Env) (err : Option DBusError) (req : mode_req) (a : adapter) :
    Ret Unit :=
  match (match err with
    | some e => if e.is_set then some e else none
    | none => none) with
  | some e =>
    ⟨(), a, [.send (.error req.msg e.name (.lit e.message))] ++ confirm_mode_cb_cleanup req⟩
  | none =>
    let r := set_mode env req.msg req.mode a
    let o1 := r.out ++ (match r.val with
      | some reply => [Effect.send reply]
      | none => [])
    if (g_slist_find_custom r.adapter.sessions req.msg find_session).isNone then
      ⟨(), r.adapter, o1 ++ confirm_mode_cb_cleanup req⟩
    else ⟨(), r.adapter, o1⟩

def set_discoverable_timeout (env : Env) (msg : DBusMessage) (timeout : Nat) (a : adapter) :
    Ret (Option Reply) :=
  let o1 : List Effect :=
    if a.discov_timeout_id ≠ 0 then [.g_source_remove a.discov_timeout_id] else []
  let a1 := if a.discov_timeout_id ≠ 0 then { a with discov_timeout_id := 0 } else a
  let o2 := o1 ++
    (if timeout ≠ 0 ∧ a1.scan_mode &&& SCAN_INQUIRY ≠ 0 then
      [Effect.g_timeout_add (timeout * 1000 % 2 ^ 32)] else [])
  let a2 :=
    if timeout ≠ 0 ∧ a1.scan_mode &&& SCAN_INQUIRY ≠ 0 then
      { a1 with discov_timeout_id := env.g_timeout_add }
    else a1
  let a3 := { a2 with discov_timeout := timeout }
  ⟨some (.method_return msg []), a3,
    o2 ++ [.write_discoverable_timeout timeout,
      .emit_property_changed msg.path ADAPTER_INTERFACE "DiscoverableTimeout" (.uint32 timeout)]⟩

/-- The function `session_exit`, run by `release_mode` and by the disconnect
watch of the session's owner. It reads the adapter, the connection and the
message through `req` and ends with `g_free(req)`: `freed` lists the requests
freed so far (blocks are told apart by their contents, as the sessions of the
list are), the value returned is that list afterwards, and a call on a freed
request has no defined result (`none`: a read of freed memory and a second
`g_free`). It removes no watch. -/
def session_exit (freed : List mode_req) (req : mode_req) (a : adapter) :
    Option (Ret (List mode_req)) :=
  if req ∈ freed then none
  else
    some ⟨freed ++ [req], { a with sessions := a.sessions.erase req },
      [.dbus_connection_unref, .dbus_message_unref req.msg]⟩

def request_mode (fuel : Nat) (env : Env) (msg : DBusMessage) (a : adapter) :
    Option (Ret (Option Reply)) :=
  /- `dbus_message_get_args` reads the leading argument and ignores what follows -/
  match msg.args with
  | .string mode :: _ =>
    match str2mode fuel env mode with
    | none => none
    | some new_mode =>
      if new_mode ≠ MODE_CONNECTABLE ∧ new_mode ≠ MODE_DISCOVERABLE then
        some ⟨some (invalid_args msg), a, []⟩
      else
        match a.agent with
        | none =>
          some ⟨some (.error msg (ERROR_INTERFACE ++ ".Failed") (.lit "No agent registered")), a, []⟩
        | some ag =>
          if (g_slist_find_custom a.sessions msg find_session).isSome then
            some ⟨some (.error msg (ERROR_INTERFACE ++ ".Failed") (.lit "Mode already requested")),
              a, []⟩
          else
            let req : mode_req :=
              { msg := msg, mode := new_mode, id := env.g_dbus_add_disconnect_watch }
            let o1 : List Effect := [.g_dbus_add_disconnect_watch msg.sender]
            let a1 := if a.sessions = [] then { a with global_mode := a.mode } else a
            let a2 := { a1 with sessions := a1.sessions ++ [req] }
            if a2.mode ≥ new_mode then some ⟨some (.method_return msg []), a2, o1⟩
            else
              let o2 := o1 ++ [.agent_confirm_mode_change ag mode req]
              if env.agent_confirm_mode_change < 0 then
                some ⟨some (invalid_args msg), a2, o2 ++ [.g_dbus_remove_watch req.id]⟩
              else some ⟨none, a2, o2⟩
  | _ => some ⟨some (invalid_args msg), a, []⟩

/-- The handler of `ReleaseMode`; its value is the reply together with the
requests freed so far. -/
def release_mode (freed : List mode_req) (msg : DBusMessage) (a : adapter) :
    Option (Ret (Option Reply × List mode_req)) :=
  match g_slist_find_custom a.sessions msg find_session with
  | none =>
    some ⟨(some (.error msg (ERROR_INTERFACE ++ ".Failed") (.lit "No Mode to release")), freed),
      a, []⟩
  | some req =>
    match session_exit freed req a with
    | none => none
    | some r => some ⟨(some (.method_return msg []), r.val), r.adapter, r.out⟩

/-! ## Discovery -/

/-- The general inquiry access code both inquiry commands are given. -/
def inquiry_lap : List Nat := [0x33, 0x8b, 0x9e]

def adapter_discover_devices (env : Env) (msg : DBusMessage) (a : adapter) :
    Ret (Option Reply) :=
  if a.up = 0 then ⟨some (adapter_not_ready msg), a, []⟩
  else if msg.args ≠ [] then ⟨some (invalid_args msg), a, []⟩
  else if a.discov_active ≠ 0 then ⟨some (in_progress msg "Discover in progress"), a, []⟩
  else
    let c := pending_remote_name_cancel env a
    let a := c.adapter
    if a.bonding.isSome then ⟨some (in_progress msg "Bonding in progress"), a, c.out⟩
    else
      let o1 := c.out ++ [.hci_open_dev a.dev_id]
      if env.hci_open_dev < 0 then ⟨some (no_such_adapter msg), a, o1⟩
      else
        let o2 := o1 ++ [.hci_send_req OGF_LINK_CTL OCF_INQUIRY (.inquiry inquiry_lap 0x08 0x00)]
        if env.hci_send_req < 0 then
          ⟨some (failed_strerror msg env.errno), a, o2 ++ [.hci_close_dev]⟩
        else if env.status ≠ 0 then
          ⟨some (failed_strerror msg (env.bt_error env.status)), a, o2 ++ [.hci_close_dev]⟩
        else
          ⟨some (.method_return msg []),
            { a with
              discov_type := a.discov_type ||| (STD_INQUIRY ||| RESOLVE_NAME),
              discov_requestor := some msg.sender,
              discov_listener := env.g_dbus_add_disconnect_watch },
            o2 ++ [.hci_close_dev, .g_dbus_add_disconnect_watch msg.sender]⟩

def adapter_cancel_discovery (env : Env) (msg : DBusMessage) (a : adapter) :
    Ret (Option Reply) :=
  if a.up = 0 then ⟨some (adapter_not_ready msg), a, []⟩
  else if msg.args ≠ [] then ⟨some (invalid_args msg), a, []⟩
  else if a.discov_active = 0 ∨ a.discovery_cancel.isSome then
    ⟨some (.error msg (ERROR_INTERFACE ++ ".NotAuthorized") (.lit "Not Authorized")), a, []⟩
  else if a.discov_requestor ≠ some msg.sender then
    /- no requestor recorded, or `strcmp` with the sender is not 0 -/
    ⟨some (.error msg (ERROR_INTERFACE ++ ".NotAuthorized") (.lit "Not Authorized")), a, []⟩
  else
    let c := env.cancel_discovery a
    if c.val < 0 then
      if c.val = -ENODEV then ⟨some (no_such_adapter msg), c.adapter, c.out⟩
      else ⟨some (failed_strerror msg (-c.val)), c.adapter, c.out⟩
    else ⟨none, { c.adapter with discovery_cancel := some msg }, c.out⟩

/-! ## Start and stop -/

/-- Feature bits of the controller (`hci.h`, not among the sources), at the
values of the HCI specification. -/
def LMP_RSSI_INQ : Nat := 0x40
def LMP_SNIFF_SUBR : Nat := 0x02
def LMP_PAUSE_ENC : Nat := 0x04
def LMP_EXT_INQ : Nat := 0x01
def LMP_SIMPLE_PAIR : Nat := 0x08
def LMP_NFLUSH_PKTS : Nat := 0x40
def LMP_LSTO : Nat := 0x01

/-- The byte `features[i]`. -/
def feature (dev : hci_dev) (i : Nat) : Nat := dev.features.getD i 0

def update_ext_inquiry_response (dev : hci_dev) : List Effect :=
  if feature dev 6 &&& LMP_EXT_INQ = 0 then [] else [.hci_write_ext_inquiry_response]

def get_inquiry_mode (dev : hci_dev) : Nat :=
  if feature dev 6 &&& LMP_EXT_INQ ≠ 0 then 2
  else if feature dev 3 &&& LMP_RSSI_INQ ≠ 0 then 1
  else if dev.manufacturer = 11 ∧ dev.hci_rev = 0x00 ∧ dev.lmp_subver = 0x0757 then 1
  else if dev.manufacturer = 15 ∧ dev.hci_rev = 0x03 ∧ dev.lmp_subver = 0x6963 then 1
  else if dev.manufacturer = 15 ∧ dev.hci_rev = 0x09 ∧ dev.lmp_subver = 0x6963 then 1
  else if dev.manufacturer = 15 ∧ dev.hci_rev = 0x00 ∧ dev.lmp_subver = 0x6965 then 1
  else if dev.manufacturer = 31 ∧ dev.hci_rev = 0x2005 ∧ dev.lmp_subver = 0x1805 then 1
  else 0

/-- The event mask `adapter_setup` sends when `hci_rev > 1`. -/
def event_mask (dev : hci_dev) : List Nat :=
  let e5 := 0x1f
    ||| (if feature dev 5 &&& LMP_SNIFF_SUBR ≠ 0 then 0x20 else 0)
    ||| (if feature dev 5 &&& LMP_PAUSE_ENC ≠ 0 then 0x80 else 0)
    ||| (if feature dev 6 &&& LMP_EXT_INQ ≠ 0 then 0x40 else 0)
  let e6 := (if feature dev 7 &&& LMP_LSTO ≠ 0 then 0x80 else 0)
    ||| (if feature dev 6 &&& LMP_SIMPLE_PAIR ≠ 0 then 0x3f else 0)
  let e7 := (if feature dev 6 &&& LMP_NFLUSH_PKTS ≠ 0 then 0x01 else 0)
    ||| (if feature dev 6 &&& LMP_SIMPLE_PAIR ≠ 0 then 0x1c else 0)
  [0xff, 0xff, 0xff, 0xff, 0xff, e5, e6, e7]

def adapter_setup (env : Env) (a : adapter) : Ret Int :=
  let o1 : List Effect :=
    if a.dev.hci_rev > 1 then [.hci_send_cmd OGF_HOST_CTL OCF_SET_EVENT_MASK (.bytes (event_mask a.dev))]
    else []
  let a1 := match env.read_local_name with
    | some name => { a with dev := { a.dev with name := (utf8_bytes name).take 248 } }
    | none => a
  let o2 := o1 ++ (match env.read_local_name with
    | some name => [Effect.hci_write_local_name name]
    | none => []) ++ update_ext_inquiry_response a1.dev
  let inqmode := get_inquiry_mode a1.dev
  if inqmode < 1 then ⟨0, a1, o2⟩
  else if env.write_inquiry_mode < 0 then
    ⟨-env.start_errno, a1, o2 ++ [.hci_write_inquiry_mode inqmode, .hci_close_dev]⟩
  else ⟨0, a1, o2 ++ [.hci_write_inquiry_mode inqmode]⟩

/-- The callbacks `create_stored_device_from_profiles` (when `probe` is set)
and `create_stored_device_from_linkkeys`, run over the keys of a stored file. -/
def load_stored (env : Env) (probe : Bool) : List String → adapter → List Effect →
    adapter × List Effect
  | [], a, out => (a, out)
  | key :: keys, a, out =>
    if (g_slist_find_custom a.devices key device_address_cmp).isSome then
      load_stored env probe keys a out
    else
      match env.device_create key with
      | none => load_stored env probe keys a (out ++ [.device_create key])
      | some device =>
        let d := { device with temporary := false }
        load_stored env probe keys { a with devices := a.devices ++ [d] }
          (out ++ [.device_create key] ++ (if probe then [Effect.device_probe_drivers d] else []))

def load_devices (env : Env) (a : adapter) : Ret Unit :=
  let p := load_stored env true env.stored_profiles a []
  let l := load_stored env false env.stored_linkkeys p.1 p.2
  ⟨(), l.1, l.2⟩

def adapter_up (env : Env) (a : adapter) : Ret Unit :=
  let a1 := { a with
    up := 1, discov_timeout := env.get_discoverable_timeout,
    discov_type := DISCOVER_TYPE_NONE, scan_mode := env.get_startup_scan }
  let o1 : List Effect := [.hci_send_cmd OGF_HOST_CTL OCF_WRITE_SCAN_ENABLE (.bytes [a1.scan_mode])]
  let a2 := { a1 with mode := env.get_startup_mode }
  let o2 := o1 ++ (if a2.mode = MODE_LIMITED then [Effect.set_limited_discoverable true] else [])
    ++ [.ioctl_HCIGETCONNLIST]
  let a3 :=
    if env.ioctl_getconnlist = 0 then { a2 with active_conn := a2.active_conn ++ env.conn_list }
    else a2
  let o3 := o2 ++
    [.emit_property_changed a3.path ADAPTER_INTERFACE "Mode" (.string (mode2str a3.mode))]
  let l := load_devices env a3
  ⟨(), l.adapter, o3 ++ l.out⟩

/-- The helper `device_read_bdaddr`: the address read from the controller goes to a local
variable; only the return value reaches the caller. -/
def device_read_bdaddr (env : Env) (dev_id : Nat) : Int × List Effect :=
  if env.rba_open_dev < 0 then (-env.rba_errno, [.hci_open_dev dev_id])
  else if env.rba_read < 0 then
    (-env.rba_errno, [.hci_open_dev dev_id, .hci_read "bd_addr", .hci_close_dev])
  else (0, [.hci_open_dev dev_id, .hci_read "bd_addr", .hci_close_dev])

/-- The label `setup` of `adapter_start`. -/
def adapter_start_setup (env : Env) (a : adapter) (out : List Effect) : Ret Int :=
  let a1 := { a with discov_active := if env.di_inquiry then 1 else 0 }
  let s := adapter_setup env a1
  let u := adapter_up env s.adapter
  ⟨0, u.adapter, out ++ s.out ++ u.out ++ [.hci_close_dev]⟩

def adapter_start (env : Env) (a : adapter) : Ret Int :=
  if env.hci_devinfo < 0 then ⟨-env.devinfo_errno, a, []⟩
  else if env.di_raw then ⟨-1, { a with dev := { a.dev with ignore := 1 } }, []⟩
  else
    let rb : Int × List Effect :=
      if bacmp env.di_bdaddr BDADDR_ANY ≠ 0 then (0, []) else device_read_bdaddr env a.dev_id
    let a1 :=
      if bacmp env.di_bdaddr BDADDR_ANY ≠ 0 then { a with address := env.ba2str env.di_bdaddr }
      else a
    if rb.1 < 0 then ⟨rb.1, a1, rb.2⟩
    else
      let a2 := { a1 with dev := { a1.dev with features := env.di_features } }
      let o1 := rb.2 ++ [.hci_open_dev a.dev_id]
      if env.hci_open_dev < 0 then ⟨-env.start_errno, a2, o1⟩
      else
        let o2 := o1 ++ [.hci_read "local_version"]
        if env.read_local_version < 0 then ⟨-env.start_errno, a2, o2 ++ [.hci_close_dev]⟩
        else
          let a3 := { a2 with dev := { a2.dev with
            hci_rev := env.ver.1, lmp_ver := env.ver.2.1, lmp_subver := env.ver.2.2.1,
            manufacturer := env.ver.2.2.2 } }
          let o3 := o2 ++ [.hci_read "local_features"]
          if env.read_local_features < 0 then ⟨-env.start_errno, a3, o3 ++ [.hci_close_dev]⟩
          else
            let a4 := { a3 with dev := { a3.dev with features := env.features } }
            let o4 := o3 ++ [.hci_read "class_of_dev"]
            if env.read_class_of_dev < 0 then ⟨-env.start_errno, a4, o4 ++ [.hci_close_dev]⟩
            else
              let a5 := { a4 with dev := { a4.dev with cls := env.cls } }
              let o5 := o4 ++ [.hci_read "local_name"]
              if env.hci_read_local_name < 0 then ⟨-env.start_errno, a5, o5 ++ [.hci_close_dev]⟩
              else
                let a6 := { a5 with dev := { a5.dev with name := (utf8_bytes env.name).take 248 } }
                if env.features.getD 6 0 &&& LMP_SIMPLE_PAIR = 0 then adapter_start_setup env a6 o5
                else
                  let o6 := o5 ++ [.ioctl_HCIGETAUTHINFO] ++
                    (if env.ioctl_getauthinfo < 0 ∧ env.getauthinfo_errno ≠ EINVAL then
                      [Effect.hci_write_simple_pairing_mode 0x01] else [])
                    ++ [.hci_read "simple_pairing_mode"]
                  if env.read_simple_pairing_mode < 0 then
                    ⟨-env.start_errno, a6, o6 ++ [.hci_close_dev]⟩
                  else
                    adapter_start_setup env
                      { a6 with dev := { a6.dev with ssp_mode := env.ssp_mode } } o6

/-- First block of `reply_pending_requests`: the pending bonding. -/
def reply_pending_bonding (env : Env) (a : adapter) : Ret Unit :=
  match a.bonding with
  | some b =>
    let p := remove_pending_device env b a
    ⟨(), { p.adapter with bonding := none },
      [.send (.authentication_return b.msg HCI_OE_USER_ENDED_CONNECTION)] ++ p.out ++
      [.g_dbus_remove_watch b.listener_id] ++
      (if b.io_id ≠ 0 then [Effect.g_source_remove b.io_id] else []) ++
      [.g_io_channel_close b.chan]⟩
  | none => ⟨(), a, []⟩

/-- Second block: the pending reply for a discovery cancel. -/
def reply_pending_discovery_cancel (a : adapter) : Ret Unit :=
  match a.discovery_cancel with
  | some m => ⟨(), { a with discovery_cancel := none }, [.send (.method_return m [])]⟩
  | none => ⟨(), a, []⟩

/-- Third block: the active discovery. -/
def reply_pending_discovery (env : Env) (a : adapter) : Ret Unit :=
  if a.discov_active ≠ 0 then
    let o : List Effect := [.emit_signal a.path ADAPTER_INTERFACE "DiscoveryCompleted" []]
    if a.discov_requestor.isSome then
      let c := env.cancel_discovery a
      ⟨(), c.adapter, o ++ c.out⟩
    else ⟨(), a, o⟩
  else ⟨(), a, []⟩

/-- Fourth block: the active periodic discovery. -/
def reply_pending_periodic (env : Env) (a : adapter) : Ret Unit :=
  if a.pdiscov_active ≠ 0 ∧ a.pdiscov_requestor.isSome then
    let c := env.cancel_periodic_discovery a
    ⟨(), c.adapter, c.out⟩
  else ⟨(), a, []⟩

/-- The four blocks of the function run one after the other. -/
def reply_pending_requests (env : Env) (a : adapter) : Ret Unit :=
  let r1 := reply_pending_bonding env a
  let r2 := reply_pending_discovery_cancel r1.adapter
  let r3 := reply_pending_discovery env r2.adapter
  let r4 := reply_pending_periodic env r3.adapter
  ⟨(), r4.adapter, r1.out ++ r2.out ++ r3.out ++ r4.out⟩

/-- First step of `adapter_stop`: the pending timeout. -/
def stop_discov_timeout (a : adapter) : Ret Unit :=
  if a.discov_timeout_id ≠ 0 then
    ⟨(), { a with discov_timeout_id := 0 }, [.g_source_remove a.discov_timeout_id]⟩
  else ⟨(), a, []⟩

/-- Third step of `adapter_stop`: the watch of the discovery requestor. -/
def stop_discov_requestor (a : adapter) : Ret Unit :=
  if a.discov_requestor.isSome then
    ⟨(), { a with discov_listener := 0, discov_requestor := none },
      [.g_dbus_remove_watch a.discov_listener]⟩
  else ⟨(), a, []⟩

/-- Fourth step of `adapter_stop`: the watch of the periodic-discovery requestor. -/
def stop_pdiscov_requestor (a : adapter) : Ret Unit :=
  if a.pdiscov_requestor.isSome then
    ⟨(), { a with pdiscov_listener := 0, pdiscov_requestor := none },
      [.g_dbus_remove_watch a.pdiscov_listener]⟩
  else ⟨(), a, []⟩

/-- Last steps of `adapter_stop`: from the clearing of the lists to the end. -/
def stop_reset (a : adapter) : Ret Int :=
  let a1 := { a with found_devices := [], oor_devices := [], auth_reqs := [], active_conn := [] }
  ⟨0, { a1 with
      up := 0, scan_mode := SCAN_DISABLED, mode := MODE_OFF, discov_active := 0,
      pdiscov_active := 0, pinq_idle := 0, discov_type := DISCOVER_TYPE_NONE },
    [.emit_property_changed a1.path ADAPTER_INTERFACE "Mode" (.string "off")]⟩

def adapter_stop (env : Env) (a : adapter) : Ret Int :=
  let t := stop_discov_timeout a
  let r := reply_pending_requests env t.adapter
  let d := stop_discov_requestor r.adapter
  let p := stop_pdiscov_requestor d.adapter
  let z := stop_reset p.adapter
  ⟨z.val, z.adapter, t.out ++ r.out ++ d.out ++ p.out ++ z.out⟩

/-! ## Further handlers -/

/-- The entry is handled through a pointer: the function returns the entry
as it leaves it; the list that holds the entry is not within its reach. -/
def cancel_auth_request (env : Env) (auth : pending_auth_info) (dev_id : Nat) :
    pending_auth_info × List Effect :=
  if auth.replied then (auth, [])
  else if env.hci_open_dev < 0 then (auth, [.hci_open_dev dev_id])
  else
    let cmd : List Effect :=
      match auth.type with
      | .AUTH_TYPE_PINCODE =>
        [.hci_send_cmd OGF_LINK_CTL OCF_PIN_CODE_NEG_REPLY (.bdaddr auth.bdaddr)]
      | .AUTH_TYPE_CONFIRM =>
        [.hci_send_cmd OGF_LINK_CTL OCF_USER_CONFIRM_NEG_REPLY (.bdaddr auth.bdaddr)]
      | .AUTH_TYPE_PASSKEY =>
        [.hci_send_cmd OGF_LINK_CTL OCF_USER_PASSKEY_NEG_REPLY (.bdaddr auth.bdaddr)]
      | .AUTH_TYPE_NOTIFY => []
    ({ auth with replied := true }, [.hci_open_dev dev_id] ++ cmd ++ [.hci_close_dev])

def adapter_set_discov_timeout (env : Env) (a : adapter) (interval : Nat) : Ret Unit :=
  if a.discov_timeout_id ≠ 0 then ⟨(), a, []⟩
  else ⟨(), { a with discov_timeout_id := env.g_timeout_add }, [.g_timeout_add interval]⟩

def adapter_remove_discov_timeout (a : adapter) : Ret Unit :=
  if a.discov_timeout_id = 0 then ⟨(), a, []⟩
  else ⟨(), { a with discov_timeout_id := 0 }, [.g_source_remove a.discov_timeout_id]⟩

def adapter_set_scan_mode (a : adapter) (scan_mode : Nat) : adapter :=
  { a with scan_mode := scan_mode }

def adapter_get_scan_mode (a : adapter) : Nat :=
  a.scan_mode

/-- The returned value is `TRUE` when the timer is to fire again. The byte
`scan_enable` is the adapter's `scan_mode` with the inquiry-scan bit cleared. -/
def discov_timeout_handler (env : Env) (a : adapter) : Ret Bool :=
  let scan_enable := a.scan_mode % 256 &&& (0xff - SCAN_INQUIRY)
  if env.hci_open_dev < 0 then ⟨true, a, [.hci_open_dev a.dev_id]⟩
  else
    let o1 : List Effect :=
      [.hci_open_dev a.dev_id,
       .hci_send_req OGF_HOST_CTL OCF_WRITE_SCAN_ENABLE (.bytes [scan_enable])]
    if env.hci_send_req < 0 then ⟨true, a, o1 ++ [.hci_close_dev]⟩
    else if env.status ≠ 0 then ⟨true, a, o1 ++ [.hci_close_dev]⟩
    else
      let r := adapter_remove_discov_timeout a
      ⟨false, r.adapter, o1 ++ [.set_limited_discoverable false] ++ r.out ++ [.hci_close_dev]⟩

def confirm_mode (fuel : Nat) (env : Env) (msg : DBusMessage) (mode : String) (a : adapter) :
    Option (Ret (Option Reply)) :=
  match a.agent with
  | none => some ⟨some (.method_return msg []), a, []⟩
  | some ag =>
    match str2mode fuel env mode with
    | none => none
    | some m =>
      let req : mode_req := { msg := msg, mode := m, id := 0 }
      let o : List Effect := [.agent_confirm_mode_change ag mode req]
      if env.agent_confirm_mode_change < 0 then some ⟨some (invalid_args msg), a, o⟩
      else some ⟨none, a, o⟩

/-- The name kept in `dev->name` is cut at 248 bytes (`strncpy`), which may
fall inside a character of several bytes. -/
def adapter_set_name (env : Env) (a : adapter) (name : String) : Ret Int :=
  let o1 : List Effect := [.write_local_name name]
  if a.up = 0 then ⟨0, a, o1⟩
  else
    let o2 := o1 ++ [.hci_open_dev a.dev_id]
    if env.hci_open_dev < 0 then ⟨-env.open_errno, a, o2⟩
    else
      let o3 := o2 ++ [.hci_write_local_name name]
      if env.hci_write_local_name < 0 then ⟨-env.errno, a, o3 ++ [.hci_close_dev]⟩
      else
        let a1 := { a with dev := { a.dev with name := (utf8_bytes name).take 248 } }
        ⟨0, a1, o3 ++ update_ext_inquiry_response a1.dev ++ [.hci_close_dev]⟩

def set_name (env : Env) (msg : DBusMessage) (name : String) (a : adapter) :
    Ret (Option Reply) :=
  if !env.utf8_validate name then ⟨some (invalid_args msg), a, []⟩
  else
    let r := adapter_set_name env a name
    if r.val < 0 then ⟨some (failed_strerror msg (-r.val)), r.adapter, r.out⟩
    else
      ⟨some (.method_return msg []), r.adapter,
        r.out ++ [.emit_property_changed msg.path ADAPTER_INTERFACE "Name" (.string name)]⟩

/-- The test `dbus_message_is_method_call(msg, interface, method)`: a missing
interface field counts as equal to the given one. -/
def dbus_message_is_method_call (msg : DBusMessage) (interface method : String) : Bool :=
  (msg.interface = none || msg.interface = some interface) && msg.member = method

def adapter_start_periodic (env : Env) (msg : DBusMessage) (a : adapter) :
    Ret (Option Reply) :=
  if a.up = 0 then ⟨some (adapter_not_ready msg), a, []⟩
  else if dbus_message_is_method_call msg ADAPTER_INTERFACE "StartPeriodicDiscovery" = true
      ∧ msg.args ≠ [] then
    ⟨some (invalid_args msg), a, []⟩
  else if a.discov_active ≠ 0 ∨ a.pdiscov_active ≠ 0 then
    ⟨some (in_progress msg "Discover in progress"), a, []⟩
  else
    let c := pending_remote_name_cancel env a
    let a := c.adapter
    let o1 := c.out ++ [.hci_open_dev a.dev_id]
    if env.hci_open_dev < 0 then ⟨some (no_such_adapter msg), a, o1⟩
    else
      let o2 := o1 ++
        [.hci_send_req OGF_LINK_CTL OCF_PERIODIC_INQUIRY
          (.periodic_inquiry inquiry_lap 24 16 0x08 0x00)]
      if env.hci_send_req < 0 then
        ⟨some (failed_strerror msg env.errno), a, o2 ++ [.hci_close_dev]⟩
      else if env.status ≠ 0 then
        ⟨some (failed_strerror msg (env.bt_error env.status)), a, o2 ++ [.hci_close_dev]⟩
      else
        ⟨some (.method_return msg []),
          { a with
            pdiscov_requestor := some msg.sender,
            discov_type :=
              if a.pdiscov_resolve_names ≠ 0 then PERIODIC_INQUIRY ||| RESOLVE_NAME
              else PERIODIC_INQUIRY,
            pdiscov_listener := env.g_dbus_add_disconnect_watch },
          o2 ++ [.hci_close_dev, .g_dbus_add_disconnect_watch msg.sender]⟩

def adapter_stop_periodic (env : Env) (msg : DBusMessage) (a : adapter) :
    Ret (Option Reply) :=
  if a.up = 0 then ⟨some (adapter_not_ready msg), a, []⟩
  else if a.pdiscov_active = 0 then
    ⟨some (.error msg (ERROR_INTERFACE ++ ".NotAuthorized") (.lit "Not authorized")), a, []⟩
  else
    let c := env.cancel_periodic_discovery a
    if c.val < 0 then
      if c.val = -ENODEV then ⟨some (no_such_adapter msg), c.adapter, c.out⟩
      else ⟨some (failed_strerror msg (-c.val)), c.adapter, c.out⟩
    else ⟨some (.method_return msg []), c.adapter, c.out⟩

/-- The reply carries one array of dictionary entries; the arguments of the
method return stand for the entries of that array, in the order they are
appended. -/
def get_properties (env : Env) (msg : DBusMessage) (a : adapter) : Ret (Option Reply) :=
  if env.check_address a.address < 0 then ⟨some (adapter_not_ready msg), a, []⟩
  else
    ⟨some (.method_return msg
      ([.dict_entry "Address" (.string a.address)] ++
       (match env.read_local_name with
        | some name => [DBusArg.dict_entry "Name" (.string name)]
        | none => []) ++
       [.dict_entry "Mode" (.string (mode2str a.mode)),
        .dict_entry "DiscoverableTimeout" (.uint32 a.discov_timeout),
        .dict_entry "PeriodicDiscovery" (.boolean (decide (a.pdiscov_active ≠ 0)))])),
      a, []⟩

/-- The branch of `set_property` for the property "Mode". -/
def set_property_mode (fuel : Nat) (env : Env) (msg : DBusMessage) (mode : String)
    (a : adapter) : Option (Ret (Option Reply)) :=
  match str2mode fuel env mode with
  | none => none
  | some m =>
    let a1 := { a with global_mode := m }
    if a1.global_mode = a1.mode then some ⟨some (.method_return msg []), a1, []⟩
    else if a1.sessions ≠ [] ∧ a1.global_mode < a1.mode then confirm_mode fuel env msg mode a1
    else some (set_mode env msg m a1)

def set_property (fuel : Nat) (env : Env) (msg : DBusMessage) (a : adapter) :
    Option (Ret (Option Reply)) :=
  match msg.args with
  | .string property :: .variant sub :: _ =>
    if property = "Name" then
      match sub with
      | .string name => some (set_name env msg name a)
      | _ => some ⟨some (invalid_args msg), a, []⟩
    else if property = "DiscoverableTimeout" then
      match sub with
      | .uint32 timeout => some (set_discoverable_timeout env msg timeout a)
      | _ => some ⟨some (invalid_args msg), a, []⟩
    else if property = "PeriodicDiscovery" then
      match sub with
      | .boolean value =>
        if value then some (adapter_start_periodic env msg a)
        else some (adapter_stop_periodic env msg a)
      | _ => some ⟨some (invalid_args msg), a, []⟩
    else if property = "Mode" then
      match sub with
      | .string mode => set_property_mode fuel env msg mode a
      | _ => some ⟨some (invalid_args msg), a, []⟩
    else some ⟨some (invalid_args msg), a, []⟩
  | _ => some ⟨some (invalid_args msg), a, []⟩

/-- The actions that reach the controller or its command channel. -/
def Effect.is_hci : Effect → Bool
  | .hci_open_dev _ => true
  | .hci_close_dev => true
  | .hci_send_req _ _ _ => true
  | .hci_send_cmd _ _ _ => true
  | .hci_read_remote_name_cancel _ => true
  | _ => false

/-- Modelled from the spec: `cancel_discovery` and `cancel_periodic_discovery`
live in another file of the daemon. What `src/adapter.c` and the spec say of
them ("cleanup the discovered devices list and send the command to cancel
inquiry or cancel remote name request"; "the discovered-device cache is
cleared") is kept as a condition on the function the environment supplies: it
changes no field of the adapter but the found-devices list and the discovery
type, and its actions are HCI actions. -/
def cancel_helper_ok (f : adapter → Ret Int) : Prop :=
  (∀ x, (f x).adapter =
    { x with found_devices := (f x).adapter.found_devices,
             discov_type := (f x).adapter.discov_type }) ∧
  (∀ x e, e ∈ (f x).out → e.is_hci = true)

/-- The actions that put a signal on the bus. -/
def Effect.is_signal : Effect → Bool
  | .emit_signal _ _ _ _ => true
  | .emit_property_changed _ _ _ _ => true
  | _ => false

/-! ## The callbacks of a bonding in flight -/

/-- Conditions of a GLib I/O watch (`GIOCondition`, of the GLib headers). -/
def G_IO_IN : Nat := 1
def G_IO_OUT : Nat := 4
def G_IO_ERR : Nat := 8
def G_IO_HUP : Nat := 16
def G_IO_NVAL : Nat := 32

def reply_authentication_failure (bonding : bonding_request_info) : List Effect :=
  let status := if bonding.hci_status ≠ 0 then bonding.hci_status else HCI_AUTHENTICATION_FAILURE
  [.send (.authentication_return bonding.msg status)]

/-- The labels `failed` and `cleanup` of `create_bonding_conn_complete`,
reached with the actions `out` done; `b` is the bonding in flight. -/
def create_bonding_conn_complete_failed (env : Env) (io : Int) (b : bonding_request_info)
    (a : adapter) (out : List Effect) : Ret Bool :=
  let p := remove_pending_device env b a
  ⟨false, { p.adapter with bonding := none },
    out ++ [.g_io_channel_close io] ++ p.out ++ [.g_dbus_remove_watch b.listener_id]⟩

/-- The function `create_bonding_conn_complete` past its first test: `b` is
the bonding in flight. -/
def create_bonding_conn_complete_bonding (env : Env) (io : Int) (cond : Nat)
    (b : bonding_request_info) (a : adapter) : Ret Bool :=
  if cond &&& G_IO_NVAL ≠ 0 then
    /- `goto cleanup` -/
    ⟨false, { a with bonding := none },
      [.send (.authentication_return b.msg 0x09), .g_dbus_remove_watch b.listener_id]⟩
  else if cond &&& (G_IO_HUP ||| G_IO_ERR) ≠ 0 then
    create_bonding_conn_complete_failed env io b a
      (if b.auth_active = 0 then error_connection_attempt_failed b.msg ENETDOWN
       else reply_authentication_failure b)
  else if env.cbc_getsockopt_error < 0 then
    create_bonding_conn_complete_failed env io b a (error_failed_errno b.msg env.cbc_errno)
  else if env.cbc_so_error ≠ 0 then
    create_bonding_conn_complete_failed env io b a
      (if b.auth_active ≠ 0 then reply_authentication_failure b
       else error_connection_attempt_failed b.msg env.cbc_so_error)
  else if env.cbc_getsockopt_conninfo < 0 then
    create_bonding_conn_complete_failed env io b a (error_failed_errno b.msg env.cbc_errno)
  else
    let o1 : List Effect := [.hci_open_dev a.dev_id]
    if env.hci_open_dev < 0 then
      create_bonding_conn_complete_failed env io b a (o1 ++ [.send (no_such_adapter b.msg)])
    else
      let o2 := o1 ++
        [.hci_send_req OGF_LINK_CTL OCF_AUTH_REQUESTED (.handle env.cbc_hci_handle)]
      if env.hci_send_req < 0 then
        create_bonding_conn_complete_failed env io b a
          (o2 ++ error_failed_errno b.msg env.errno ++ [.hci_close_dev])
      else if env.status ≠ 0 then
        create_bonding_conn_complete_failed env io b a
          (o2 ++ error_failed_errno b.msg (env.bt_error env.status) ++ [.hci_close_dev])
      else
        ⟨false,
          { a with bonding := some { b with auth_active := 1, io_id := env.g_io_add_watch } },
          o2 ++ [.hci_close_dev, .g_io_add_watch io false]⟩

/-- The returned value is `FALSE` on every path: the watch that called the
function is dropped. `io` is the channel the watch is on, `cond` the
condition it fired for. -/
def create_bonding_conn_complete (env : Env) (io : Int) (cond : Nat) (a : adapter) : Ret Bool :=
  match a.bonding with
  | none => ⟨false, a, [.g_io_channel_close io]⟩
  | some b => create_bonding_conn_complete_bonding env io cond b a

/-- Writes `auth` over the first entry of the list that `auth_req_cmp` accepts
for the address: the entry is changed through the pointer that
`adapter_find_auth_request` returned. -/
def store_auth (dba : bdaddr_t) (auth : pending_auth_info) :
    List pending_auth_info → List pending_auth_info
  | [] => []
  | x :: xs =>
    if auth_req_cmp x (some dba) == 0 then auth :: xs
    else x :: store_auth dba auth xs

/-- First block of `create_bond_req_exit`: the pending authentication request
of the bonding's address, if there is one, is cancelled and removed; `b` is
the bonding in flight. The result is the adapter left and the actions done. -/
def create_bond_req_exit_auth (env : Env) (b : bonding_request_info) (a : adapter) :
    adapter × List Effect :=
  match adapter_find_auth_request a b.bdaddr with
  | some auth =>
    let c := cancel_auth_request env auth a.dev_id
    let a1 := { a with auth_reqs := store_auth b.bdaddr c.1 a.auth_reqs }
    let o := c.2 ++ (match c.1.agent with
      | some ag => [Effect.agent_cancel ag]
      | none => [])
    (adapter_remove_auth_request a1 b.bdaddr, o)
  | none => (a, [])

/-- Called by the disconnect watch of the bonding requestor, while the bonding
is in flight; with no bonding record the C function reads through a null
pointer: no result. -/
def create_bond_req_exit (env : Env) (a : adapter) : Option (Ret Unit) :=
  match a.bonding with
  | none => none
  | some b =>
    let r1 := create_bond_req_exit_auth env b a
    let p := remove_pending_device env b r1.1
    some ⟨(), { p.adapter with bonding := none },
      r1.2 ++ p.out ++ [.g_io_channel_close b.chan] ++
      (if b.io_id ≠ 0 then [Effect.g_source_remove b.io_id] else [])⟩

/-! ## The Mediapad driver (`input/logitech_mediapad.c`) -/

/-- Key codes of `<linux/input.h>` (not among the sources) that the key tables
of the driver start with, and the code `translate_key` returns for a scancode
it does not know. -/
def KEY_1 : Nat := 2
def KEY_2 : Nat := 3
def KEY_3 : Nat := 4
def KEY_4 : Nat := 5
def KEY_5 : Nat := 6
def KEY_6 : Nat := 7
def KEY_7 : Nat := 8
def KEY_8 : Nat := 9
def KEY_9 : Nat := 10
def KEY_0 : Nat := 11
def KEY_DOT : Nat := 52
def KEY_KPASTERISK : Nat := 55
def KEY_KPMINUS : Nat := 74
def KEY_KPPLUS : Nat := 78
def KEY_KPENTER : Nat := 96
def KEY_KPSLASH : Nat := 98
def KEY_UP : Nat := 103
def KEY_LEFT : Nat := 105
def KEY_RIGHT : Nat := 106
def KEY_DOWN : Nat := 108
def KEY_MUTE : Nat := 113
def KEY_VOLUMEDOWN : Nat := 114
def KEY_VOLUMEUP : Nat := 115
def KEY_LEFTMETA : Nat := 125
def KEY_STOP : Nat := 128
def KEY_UNDO : Nat := 131
def KEY_OPEN : Nat := 134
def KEY_BACK : Nat := 158
def KEY_FORWARD : Nat := 159
def KEY_NEXTSONG : Nat := 163
def KEY_PLAYPAUSE : Nat := 164
def KEY_PREVIOUSSONG : Nat := 165
def KEY_MEDIA : Nat := 226
def KEY_UNKNOWN : Nat := 240

/-- Media key scancodes. -/
def MP_KEY_MEDIA : Nat := 0x83
def MP_KEY_FFWD : Nat := 0xb5
def MP_KEY_REW : Nat := 0xb6
def MP_KEY_STOP : Nat := 0xb7
def MP_KEY_PLAY : Nat := 0xcd
def MP_KEY_MUTE : Nat := 0xe2
def MP_KEY_VOLUP : Nat := 0xe9
def MP_KEY_VOLDOWN : Nat := 0xea

/-- The two key tables of the driver, `mp_keymap[2][16]` and
`mp_keymap_m[2][8]`: global arrays of bytes that `BindKey` writes and
`translate_key` reads; a row is a mode. -/
structure mp_keymaps where
  mp_keymap : List (List Nat)
  mp_keymap_m : List (List Nat)
  deriving DecidableEq, Repr

/-- The tables as the source initialises them. -/
def mp_keymaps_init : mp_keymaps where
  mp_keymap :=
    [[KEY_KPSLASH, KEY_KPASTERISK, KEY_KPMINUS, KEY_KPPLUS, KEY_KPENTER,
      KEY_1, KEY_2, KEY_3, KEY_4, KEY_5, KEY_6,
      KEY_7, KEY_8, KEY_9, KEY_0, KEY_DOT],
     [KEY_KPSLASH, KEY_KPASTERISK, KEY_KPMINUS, KEY_KPPLUS, KEY_KPENTER,
      KEY_OPEN, KEY_LEFTMETA, KEY_UNDO, KEY_LEFT, KEY_DOWN, KEY_RIGHT,
      KEY_BACK, KEY_UP, KEY_FORWARD, KEY_0, KEY_DOT]]
  mp_keymap_m :=
    [[KEY_MEDIA, KEY_NEXTSONG, KEY_PREVIOUSSONG, KEY_STOP,
      KEY_PLAYPAUSE, KEY_MUTE, KEY_VOLUMEUP, KEY_VOLUMEDOWN],
     [KEY_MEDIA, KEY_NEXTSONG, KEY_PREVIOUSSONG, KEY_STOP,
      KEY_PLAYPAUSE, KEY_MUTE, KEY_VOLUMEUP, KEY_VOLUMEDOWN]]

/-- The read `table[row][col]`; with a column outside the row the C code reads
outside the table: no result. -/
def table_read (table : List (List Nat)) (row : Nat) (col : Int) : Option Nat :=
  match table.get? row with
  | none => none
  | some r => if 0 ≤ col then r.get? col.toNat else none

/-- The write `table[row][col] = v` of a byte; with a column outside the row
the C code writes outside the table: no result. -/
def table_write (table : List (List Nat)) (row : Nat) (col : Nat) (v : Nat) :
    Option (List (List Nat)) :=
  match table.get? row with
  | none => none
  | some r => if col < r.length then some (table.set row (r.set col (v % 256))) else none

/-- The `switch` on the media scancodes, in `translate_key` and in
`mp_dbus_bind_key`: the column of the media table, none when no case
matches. -/
def media_column (scancode : Nat) : Option Nat :=
  if scancode = MP_KEY_MEDIA then some 0
  else if scancode = MP_KEY_FFWD then some 1
  else if scancode = MP_KEY_REW then some 2
  else if scancode = MP_KEY_STOP then some 3
  else if scancode = MP_KEY_PLAY then some 4
  else if scancode = MP_KEY_MUTE then some 5
  else if scancode = MP_KEY_VOLUP then some 6
  else if scancode = MP_KEY_VOLDOWN then some 7
  else none

/-- The table cell `translate_key` reads, or none of the tables. -/
inductive mp_cell where
  | media (row : Nat) (col : Int)
  | keymap (row : Nat) (col : Int)
  | unknown
  deriving DecidableEq, Repr

/-- The indices `translate_key(mode, key)` computes; `key & 0xff` of an `int`
is its residue modulo 256. -/
def translate_key_cell (mode key : Int) : mp_cell :=
  let row : Nat := if mode ≠ 0 then 1 else 0
  let low := (key % 256).toNat
  match (if low > 0x82 then media_column low else none) with
  | some col => .media row col
  | none => if key > 0x63 then .unknown else .keymap row (key - 0x54)

def translate_key (k : mp_keymaps) (mode key : Int) : Option Nat :=
  match translate_key_cell mode key with
  | .media row col => table_read k.mp_keymap_m row col
  | .keymap row col => table_read k.mp_keymap row col
  | .unknown => some KEY_UNKNOWN

/-- The handler of `BindKey(scancode, mode, key)`: the tables it leaves; the
three arguments are 32-bit unsigned, so `scancode - 0x54` is taken modulo
2^32. With arguments of other types nothing is done. -/
def mp_dbus_bind_key (k : mp_keymaps) (args : List DBusArg) : Option mp_keymaps :=
  match args with
  | .uint32 scancode :: .uint32 mode :: .uint32 key :: _ =>
    let row : Nat := if mode ≠ 0 then 1 else 0
    let k1 : Option mp_keymaps :=
      match (if scancode > 0x82 then media_column scancode else none) with
      | some col =>
        (table_write k.mp_keymap_m row col key).map (fun t => { k with mp_keymap_m := t })
      | none => some k
    match k1 with
    | none => none
    | some k1 =>
      if scancode < 0x63 then
        (table_write k1.mp_keymap row ((scancode + 2 ^ 32 - 0x54) % 2 ^ 32) key).map
          (fun t => { k1 with mp_keymap := t })
      else some k1
  | _ => some k

/-! ## Sample inputs -/

/-- A sample `str2ba`: the hexadecimal digits of the string, colons skipped. -/
def sample_str2ba (s : String) : bdaddr_t :=
  s.data.foldl (fun acc c =>
    if c.isDigit then acc * 16 + (c.toNat - 48)
    else if c.toNat ≥ 65 ∧ c.toNat ≤ 70 then acc * 16 + (c.toNat - 55)
    else if c.toNat ≥ 97 ∧ c.toNat ≤ 102 then acc * 16 + (c.toNat - 87)
    else acc) 0

/-- A world in which every call succeeds: the channel opens, the controller
answers every command with status 0, nothing is stored, no device is found. -/
def sample_env : Env where
  str2ba := sample_str2ba
  ba2str := fun _ => "00:00:00:00:00:00"
  check_address := fun s => if s.length = 17 then 0 else -1
  bt_error := fun st => if st = 0x0c then 16 else 5
  offmode := HCID_OFFMODE_NOSCAN
  linkkey := fun _ => none
  read_on_mode := none
  read_local_name := none
  rnc_open_dev := 3
  rnc_cancel := 0
  rnc_errno := 0
  hci_open_dev := 3
  open_errno := 0
  hci_send_req := 0
  errno := 0
  status := 0
  ioctl_up := 0
  ioctl_up_errno := 0
  ioctl_down := 0
  ioctl_down_errno := 0
  set_limited_discoverable := 0
  l2raw_connect := 4
  device_create := fun address =>
    some { address := address, path := "/org/bluez/hci0/dev", temporary := false,
           busy := false, agent := none }
  agent_create := fun name path cap => some { name := name, path := path, capability := cap }
  g_io_add_watch := 11
  g_dbus_add_disconnect_watch := 12
  g_timeout_add := 13
  agent_confirm_mode_change := 0
  rb_open_dev := 3
  rb_casedel := 0
  rb_errno := 0
  rb_disconnect := 0
  cancel_discovery := fun a => ⟨0, a, [.hci_open_dev a.dev_id, .hci_close_dev]⟩
  cancel_periodic_discovery := fun a => ⟨0, a, [.hci_open_dev a.dev_id, .hci_close_dev]⟩
  utf8_validate := fun _ => true
  hci_write_local_name := 0
  cbc_getsockopt_error := 0
  cbc_so_error := 0
  cbc_getsockopt_conninfo := 0
  cbc_hci_handle := 42
  cbc_errno := 0
  hci_devinfo := 0
  devinfo_errno := 0
  di_raw := false
  di_inquiry := false
  di_bdaddr := 0x001122334455
  di_features := [0, 0, 0, 0, 0, 0, 0, 0]
  rba_open_dev := 3
  rba_read := 0
  rba_errno := 0
  read_local_version := 0
  ver := (0, 0, 0, 0)
  read_local_features := 0
  features := [0, 0, 0, 0, 0, 0, 0, 0]
  read_class_of_dev := 0
  cls := [0, 0, 0]
  hci_read_local_name := 0
  name := "hci0"
  ioctl_getauthinfo := 0
  getauthinfo_errno := 0
  read_simple_pairing_mode := 0
  ssp_mode := 0
  start_errno := 0
  write_inquiry_mode := 0
  get_discoverable_timeout := 180
  get_startup_scan := SCAN_PAGE
  get_startup_mode := MODE_CONNECTABLE
  ioctl_getconnlist := 0
  conn_list := []
  stored_profiles := []
  stored_linkkeys := []

/-- An adapter that is up in mode Connectable with nothing in progress. -/
def sample_adapter : adapter where
  dev_id := 0
  up := 1
  path := "/org/bluez/hci0"
  address := "00:11:22:33:44:55"
  discov_timeout_id := 0
  discov_timeout := 180
  scan_mode := SCAN_PAGE
  mode := MODE_CONNECTABLE
  global_mode := MODE_CONNECTABLE
  pinq_idle := 0
  discov_type := DISCOVER_TYPE_NONE
  pdiscov_resolve_names := 1
  pdiscov_active := 0
  discov_active := 0
  found_devices := []
  oor_devices := []
  pdiscov_requestor := none
  discov_requestor := none
  discovery_cancel := none
  agent := none
  active_conn := []
  bonding := none
  auth_reqs := []
  devices := []
  sessions := []
  pdiscov_listener := 0
  discov_listener := 0
  dev := { ignore := 0, features := [0, 0, 0, 0, 0, 0, 0, 0], cls := [0, 0, 0],
           name := [0x68, 0x63, 0x69, 0x30],
           hci_rev := 0, lmp_ver := 0, lmp_subver := 0, manufacturer := 0, ssp_mode := 0 }

/-- A bonding in flight towards `AA:BB:CC:DD:EE:FF`, requested by `:1.7`. -/
def sample_bonding : bonding_request_info where
  msg := { sender := ":1.7", path := "/org/bluez/hci0",
           args := [.string "AA:BB:CC:DD:EE:FF", .object_path "/agent", .string ""] }
  bdaddr := 0xAABBCCDDEEFF
  chan := 4
  io_id := 11
  listener_id := 12
  hci_status := 0
  cancel := 0
  auth_active := 0

/-- The call of Scenario B. -/
def sample_pair_msg : DBusMessage where
  sender := ":1.42"
  path := "/org/bluez/hci0"
  args := [.string "00:11:22:33:44:55", .object_path "/agent", .string "DisplayYesNo"]

/-- A call without arguments (DiscoverDevices, CancelDiscovery) from `:1.42`. -/
def sample_call : DBusMessage where
  sender := ":1.42"
  path := "/org/bluez/hci0"
  args := []

/-- The call `RequestMode("discoverable")` of Scenario A. -/
def sample_mode_msg : DBusMessage where
  sender := ":1.42"
  path := "/org/bluez/hci0"
  args := [.string "discoverable"]

/-- The registered agent of the sample scenarios. -/
def sample_agent : agent where
  name := ":1.9"
  path := "/agent"
  capability := IO_CAPABILITY_DISPLAYYESNO

/-! ## Predicates and further sample inputs -/

/-- The signal `DiscoveryCompleted` of the adapter at `path`. -/
def discovery_completed (path : String) : Effect :=
  .emit_signal path ADAPTER_INTERFACE "DiscoveryCompleted" []

/-- The method return that answers the stored CancelDiscovery call `m`. -/
def cancel_ack (m : DBusMessage) : Effect :=
  .send (.method_return m [])

/-- The ordering the spec promises for a list of actions: wherever the
answer to the stored CancelDiscovery call occurs, `DiscoveryCompleted` has
been emitted before it. -/
def ack_follows_completed (m : DBusMessage) (path : String) (out : List Effect) : Prop :=
  ∀ pre post, out = pre ++ cancel_ack m :: post → discovery_completed path ∈ pre

/-- An adapter on which `:1.42` runs a discovery that is active. -/
def sample_discovering : adapter :=
  { sample_adapter with
    discov_active := 1, discov_type := STD_INQUIRY ||| RESOLVE_NAME,
    discov_requestor := some ":1.42", discov_listener := 12 }

/-- The adapter left by `create_bonding` on an adapter that is down. -/
def sample_down_bonding : adapter :=
  (create_bonding sample_env sample_pair_msg "00:11:22:33:44:55" "/agent"
    IO_CAPABILITY_DISPLAYYESNO
    { sample_adapter with up := 0, mode := MODE_OFF, scan_mode := SCAN_DISABLED }).adapter

/-- Scenario A, state before: up, mode Connectable, an agent registered, no
session. -/
def sample_scenario_a : adapter :=
  { sample_adapter with agent := some sample_agent }

/-- What the amended C10 says of one result of `set_mode`. -/
def set_mode_ok (msg : DBusMessage) (new_mode : Nat) (r : Ret (Option Reply)) : Prop :=
  r.val = some (.method_return msg []) →
    r.adapter.mode = new_mode ∧
    Effect.write_device_mode (mode2str new_mode) ∈ r.out ∧
    r.out.all (fun e => !e.is_signal) = true

/-- The session list holds at most one session of each sender: what the
check "Mode already requested" of `request_mode` maintains. It makes the
sessions of the list pairwise different records, as the `mode_req` pointers of
the C list are. -/
def one_session_per_sender (sessions : List mode_req) : Prop :=
  (sessions.map (fun r => r.msg.sender)).Nodup

/-- The negative reply that answers an entry of the given type, none for the
notify type. -/
def negative_reply (auth : pending_auth_info) : List Effect :=
  match auth.type with
  | .AUTH_TYPE_PINCODE => [.hci_send_cmd OGF_LINK_CTL OCF_PIN_CODE_NEG_REPLY (.bdaddr auth.bdaddr)]
  | .AUTH_TYPE_CONFIRM =>
    [.hci_send_cmd OGF_LINK_CTL OCF_USER_CONFIRM_NEG_REPLY (.bdaddr auth.bdaddr)]
  | .AUTH_TYPE_PASSKEY =>
    [.hci_send_cmd OGF_LINK_CTL OCF_USER_PASSKEY_NEG_REPLY (.bdaddr auth.bdaddr)]
  | .AUTH_TYPE_NOTIFY => []

/-- An HCI command sent with `hci_send_cmd`. -/
def Effect.is_hci_send_cmd : Effect → Bool
  | .hci_send_cmd _ _ _ => true
  | _ => false

/-- The scan-enable write: `hci_send_req` with the `Write_Scan_Enable` opcode. -/
def Effect.is_scan_enable_write : Effect → Bool
  | .hci_send_req ogf ocf _ => ogf == OGF_HOST_CTL && ocf == OCF_WRITE_SCAN_ENABLE
  | _ => false

/-- The storing of the mode string. -/
def Effect.is_write_device_mode : Effect → Bool
  | .write_device_mode _ => true
  | _ => false

/-- The handling of the discoverable timer: `g_source_remove`, `g_timeout_add`. -/
def Effect.is_timer : Effect → Bool
  | .g_source_remove _ => true
  | .g_timeout_add _ => true
  | _ => false

/-- What C14 says of one result of `set_mode` on the adapter `a`: a result
that is not the method return leaves the adapter as it was and stores no mode;
and when the scan-enable write was sent and the controller answered it with a
non-zero status, the reply is the `Failed` error made from that status. -/
def set_mode_atomic (env : Env) (msg : DBusMessage) (a : adapter) (r : Ret (Option Reply)) :
    Prop :=
  (r.val ≠ some (.method_return msg []) →
    r.adapter = a ∧ r.out.any Effect.is_write_device_mode = false) ∧
  (r.out.any Effect.is_scan_enable_write = true → 0 ≤ env.hci_send_req → env.status ≠ 0 →
    r.val = some (failed_strerror msg (env.bt_error env.status)))

/-- The call whose result is `r` did not touch the discoverable timer of `a`. -/
def timer_untouched (a : adapter) (r : Ret (Option Reply)) : Prop :=
  r.out.any Effect.is_timer = false ∧ r.adapter.discov_timeout_id = a.discov_timeout_id

/-- The call whose result is `r` cancelled the pending timer of `a` and, with
a session active, started none and left the handle as it was. -/
def timer_cancelled (a : adapter) (r : Ret (Option Reply)) : Prop :=
  (a.discov_timeout_id ≠ 0 → Effect.g_source_remove a.discov_timeout_id ∈ r.out) ∧
  (a.sessions ≠ [] →
    (∀ n, Effect.g_timeout_add n ∉ r.out) ∧
    r.adapter.discov_timeout_id = a.discov_timeout_id)

/-- An adapter that is down, before `adapter_start`. -/
def sample_down : adapter :=
  { sample_adapter with up := 0, mode := MODE_OFF, scan_mode := SCAN_DISABLED }

/-- The actions of the first block of `reply_pending_requests`: the reply to
the bonding requestor, the removal of the pending device with what
`remove_bonding` does for it, and the release of the bonding's watches and
channel. -/
def Effect.is_bonding_teardown : Effect → Bool
  | .send (.authentication_return _ _) => true
  | .delete_entry _ _ => true
  | .hci_open_dev _ => true
  | .hci_close_dev => true
  | .textfile_casedel _ _ => true
  | .hci_delete_stored_link_key _ => true
  | .hci_disconnect _ => true
  | .emit_property_changed _ interface _ _ => interface == DEVICE_INTERFACE
  | .emit_signal _ _ name _ => name == "DeviceRemoved"
  | .agent_destroy _ => true
  | .device_remove _ => true
  | .g_dbus_remove_watch _ => true
  | .g_source_remove _ => true
  | .g_io_channel_close _ => true
  | _ => false

/-- The signal `PropertyChanged("Mode", "off")` of the adapter at `path`. -/
def mode_off_signal (path : String) : Effect :=
  .emit_property_changed path ADAPTER_INTERFACE "Mode" (.string "off")

/-- The device list without the device of the bonding `b`, when that device
is in the list and is temporary; the list as it is otherwise. -/
def devices_without_pending (env : Env) (b : bonding_request_info) (a : adapter) :
    List btd_device :=
  match adapter_find_device a (env.ba2str b.bdaddr) with
  | none => a.devices
  | some i =>
    match a.devices.get? i with
    | none => a.devices
    | some d => if d.temporary then a.devices.eraseIdx i else a.devices

/-- The device list `adapter_stop` leaves: the list as it was, less the
device of the bonding in flight when that device is in the list and is
temporary. -/
def devices_after_stop (env : Env) (a : adapter) : List btd_device :=
  match a.bonding with
  | none => a.devices
  | some b => devices_without_pending env b a

/-- The adapter while `adapter_stop` resolves the pending requests of `a`:
the timer handle is cleared and the bonding is resolved; the fields the
function resets at its end are as they were. The found-devices list, the
discovery type and the stored cancel request are given. -/
def stopping (env : Env) (a : adapter) (fd : List remote_dev_info) (dt : Nat)
    (dc : Option DBusMessage) : adapter :=
  { a with
    discov_timeout_id := 0,
    devices := devices_after_stop env a,
    bonding := none,
    found_devices := fd,
    discov_type := dt,
    discovery_cancel := dc }

/-- A world like the sample one whose `ba2str` writes the address of the
device being paired. -/
def sample_env_pairing : Env :=
  { sample_env with ba2str := fun _ => "00:11:22:33:44:55" }

/-- The adapter left by `create_bonding` on the sample adapter: a bonding is
in flight and its device, created for it and temporary, is in the device
list. -/
def sample_pairing : adapter :=
  (create_bonding sample_env_pairing sample_pair_msg "00:11:22:33:44:55" "/agent"
    IO_CAPABILITY_DISPLAYYESNO sample_adapter).adapter

/-- An adapter with a timer pending, a cancel request stored, and a discovery
and a periodic discovery active, each with its requestor. -/
def sample_busy : adapter :=
  { sample_adapter with
    discov_timeout_id := 13, mode := MODE_DISCOVERABLE, scan_mode := SCAN_PAGE ||| SCAN_INQUIRY,
    discov_active := 1, discov_type := STD_INQUIRY ||| RESOLVE_NAME,
    discov_requestor := some ":1.42", discov_listener := 12,
    pdiscov_active := 1, pdiscov_requestor := some ":1.43", pdiscov_listener := 14,
    discovery_cancel := some sample_call }

/-- The sample adapter in mode Discoverable, no timer pending. -/
def sample_discoverable : adapter :=
  { sample_adapter with mode := MODE_DISCOVERABLE, scan_mode := SCAN_PAGE ||| SCAN_INQUIRY }

/-- An adapter with a bonding in flight and, in the found-devices cache, one
device whose name request is pending. -/
def sample_bonding_resolving : adapter :=
  { sample_adapter with
    bonding := some sample_bonding,
    found_devices := [{ bdaddr := 0x112233445566, name_status := .NAME_REQUESTED }] }

/-- The test of `pending_remote_name_cancel`: a found device has its name
request pending. -/
def name_request_pending (a : adapter) : Bool :=
  (g_slist_find_custom a.found_devices
    ({ bdaddr := BDADDR_ANY, name_status := .NAME_REQUESTED } : remote_dev_info)
    found_device_cmp).isSome

/-- The callback whose result is `r` returned FALSE and left either no
bonding record or one whose `auth_active` is 1. -/
def bonding_settled (r : Ret Bool) : Prop :=
  r.val = false ∧
  (r.adapter.bonding = none ∨ ∃ b, r.adapter.bonding = some b ∧ b.auth_active = 1)

/-- An adapter with a bonding in flight towards `AA:BB:CC:DD:EE:FF` and two
pending authentication requests: a PIN-code request of another device and a
PIN-code request of the bonding's device, neither replied. -/
def sample_bonding_auth : adapter :=
  { sample_adapter with
    bonding := some sample_bonding,
    auth_reqs :=
      [{ type := .AUTH_TYPE_PINCODE, bdaddr := 0x112233445566, replied := false, agent := none },
       { type := .AUTH_TYPE_PINCODE, bdaddr := 0xAABBCCDDEEFF, replied := false,
         agent := none }] }

/-- The tables have the dimensions of the C arrays: two rows of 16 and two
rows of 8 entries. -/
def mp_keymaps_wf (k : mp_keymaps) : Prop :=
  k.mp_keymap.length = 2 ∧ (∀ r, r ∈ k.mp_keymap → r.length = 16) ∧
  k.mp_keymap_m.length = 2 ∧ (∀ r, r ∈ k.mp_keymap_m → r.length = 8)

/-- The one input on which `str2mode` and `on_mode` call each other without
end: the string "on" (in any case) while the stored on-mode is itself "on". -/
def on_mode_loops (env : Env) (mode : String) : Bool :=
  strcasecmp_eq "on" mode &&
    match env.read_on_mode with
    | some stored => strcasecmp_eq "on" stored
    | none => false

/-- A storage whose on-mode entry reads "on". -/
def sample_env_on_loop : Env :=
  { sample_env with read_on_mode := some "on" }

/-- The call `RequestMode("on")` by `:1.42`. -/
def sample_on_msg : DBusMessage where
  sender := ":1.42"
  path := "/org/bluez/hci0"
  args := [.string "on"]

/-- The call `RequestMode("connectable")` by `:1.42`. -/
def sample_connectable_msg : DBusMessage where
  sender := ":1.42"
  path := "/org/bluez/hci0"
  args := [.string "connectable"]

/-- The session `RequestMode("connectable")` by `:1.42` creates under
`sample_env`. -/
def sample_session : mode_req :=
  { msg := sample_connectable_msg, mode := MODE_CONNECTABLE,
    id := sample_env.g_dbus_add_disconnect_watch }

/-! ## Frame lemmas -/

theorem pending_remote_name_cancel_frame (env : Env) (a : adapter) :
    (pending_remote_name_cancel env a).adapter = a ∨
    (pending_remote_name_cancel env a).adapter = { a with found_devices := [] } := by
  unfold pending_remote_name_cancel
  simp only
  split
  · exact Or.inl rfl
  · split
    · exact Or.inl rfl
    · exact Or.inr rfl

theorem pending_remote_name_cancel_out (env : Env) (a : adapter) (e : Effect)
    (h : e ∈ (pending_remote_name_cancel env a).out) :
    e = .hci_open_dev a.dev_id ∨ e = .hci_close_dev ∨ ∃ b, e = .hci_read_remote_name_cancel b := by
  unfold pending_remote_name_cancel at h
  simp only at h
  split at h
  · simp at h
  · split at h
    · simp at h; exact Or.inl h
    · simp at h
      rcases h with h | h | h
      · exact Or.inl h
      · exact Or.inr (Or.inr ⟨_, h⟩)
      · exact Or.inr (Or.inl h)

/-! ## Bonding is exclusive -/

/-- C1: on an adapter that has a bonding in flight, `create_bonding` for any
target address returns an `InProgress` error, performs no `l2raw_connect`, and
leaves the bonding record (address, requestor, `auth_active` and every other
field) as it was. -/
theorem create_bonding_rejected_while_bonding (env : Env) (msg : DBusMessage)
    (address agent_path : String) (capability : Nat) (a : adapter) (b : bonding_request_info)
    (h : a.bonding = some b) :
    (∃ str, (create_bonding env msg address agent_path capability a).val
        = some (in_progress msg str)) ∧
    (∀ src dst, Effect.l2raw_connect src dst ∉
        (create_bonding env msg address agent_path capability a).out) ∧
    (create_bonding env msg address agent_path capability a).adapter.bonding = some b := by
  have hb : (pending_remote_name_cancel env a).adapter.bonding = some b := by
    rcases pending_remote_name_cancel_frame env a with e | e <;> rw [e] <;> exact h
  unfold create_bonding
  simp only
  split
  · exact ⟨⟨_, rfl⟩, by simp, h⟩
  · simp only [hb, Option.isSome_some, if_true]
    refine ⟨⟨_, rfl⟩, ?_, trivial⟩
    intro src dst hmem
    rcases pending_remote_name_cancel_out env a _ hmem with e | e | ⟨_, e⟩ <;> cases e

/-- C1, at a sample input: a request for another address than the one of the
bonding in flight. -/
theorem create_bonding_rejected_while_bonding_witness :
    (∃ str, (create_bonding sample_env sample_pair_msg "00:11:22:33:44:55" "/agent" 1
        { sample_adapter with bonding := some sample_bonding }).val
        = some (in_progress sample_pair_msg str)) ∧
    (∀ src dst, Effect.l2raw_connect src dst ∉
        (create_bonding sample_env sample_pair_msg "00:11:22:33:44:55" "/agent" 1
          { sample_adapter with bonding := some sample_bonding }).out) ∧
    (create_bonding sample_env sample_pair_msg "00:11:22:33:44:55" "/agent" 1
        { sample_adapter with bonding := some sample_bonding }).adapter.bonding
      = some sample_bonding :=
  create_bonding_rejected_while_bonding sample_env sample_pair_msg "00:11:22:33:44:55"
    "/agent" 1 { sample_adapter with bonding := some sample_bonding } sample_bonding rfl

/-- C2: with no discovery active, no bonding in flight and no pending-auth
entry for the target, `CreatePairedDevice` with a well-formed address and a
valid capability string, while a link key is stored for the address, replies
`AlreadyExists`, performs no `l2raw_connect` and creates no bonding record. -/
theorem create_paired_device_already_exists (env : Env) (msg : DBusMessage) (a : adapter)
    (address agent_path capability : String)
    (hargs : msg.args = [.string address, .object_path agent_path, .string capability])
    (haddr : 0 ≤ env.check_address address)
    (hcap : parse_io_capability capability ≠ IO_CAPABILITY_INVALID)
    (hdisc : a.discov_active = 0) (hbond : a.bonding = none)
    (hauth : adapter_find_auth_request a (env.str2ba address) = none)
    (hkey : (env.linkkey address).isSome = true) :
    (create_paired_device env msg a).val
      = some (.error msg (ERROR_INTERFACE ++ ".AlreadyExists") (.lit "Bonding already exists")) ∧
    (∀ src dst, Effect.l2raw_connect src dst ∉ (create_paired_device env msg a).out) ∧
    (create_paired_device env msg a).adapter.bonding = none := by
  have hb : (pending_remote_name_cancel env a).adapter.bonding = none := by
    rcases pending_remote_name_cancel_frame env a with e | e <;> rw [e] <;> exact hbond
  have ha : adapter_find_auth_request (pending_remote_name_cancel env a).adapter
      (env.str2ba address) = none := by
    rcases pending_remote_name_cancel_frame env a with e | e <;> rw [e] <;> exact hauth
  unfold create_paired_device
  rw [hargs]
  simp only [not_lt.mpr haddr, if_false, hcap]
  unfold create_bonding
  simp only [hdisc, ne_eq, not_true_eq_false, if_false, hb, ha, hkey, Option.isSome_none,
    Bool.false_eq_true, if_true]
  refine ⟨trivial, ?_, trivial⟩
  intro src dst hmem
  rcases pending_remote_name_cancel_out env a _ hmem with e | e | ⟨_, e⟩ <;> cases e

/-- C2, Scenario B: `CreatePairedDevice("00:11:22:33:44:55", "/agent",
"DisplayYesNo")` while a link key is stored for that address. -/
theorem create_paired_device_already_exists_witness :
    (create_paired_device { sample_env with linkkey := fun _ => some "key" }
        sample_pair_msg sample_adapter).val
      = some (.error sample_pair_msg (ERROR_INTERFACE ++ ".AlreadyExists")
          (.lit "Bonding already exists")) ∧
    (∀ src dst, Effect.l2raw_connect src dst ∉
      (create_paired_device { sample_env with linkkey := fun _ => some "key" }
        sample_pair_msg sample_adapter).out) ∧
    (create_paired_device { sample_env with linkkey := fun _ => some "key" }
        sample_pair_msg sample_adapter).adapter.bonding = none :=
  create_paired_device_already_exists { sample_env with linkkey := fun _ => some "key" }
    sample_pair_msg sample_adapter "00:11:22:33:44:55" "/agent" "DisplayYesNo"
    rfl (by decide) (by decide) rfl rfl rfl rfl

/-! ## Discovery -/

theorem error_names_distinct :
    ERROR_INTERFACE ++ ".NoSuchAdapter" ≠ ERROR_INTERFACE ++ ".InProgress" ∧
    ERROR_INTERFACE ++ ".Failed" ≠ ERROR_INTERFACE ++ ".InProgress" ∧
    ERROR_INTERFACE ++ ".NoSuchAdapter" ≠ ERROR_INTERFACE ++ ".NotAuthorized" ∧
    ERROR_INTERFACE ++ ".Failed" ≠ ERROR_INTERFACE ++ ".NotAuthorized" := by
  decide

/-- With the adapter up, a call without arguments, `discov_active` at 0 and no
bonding in flight, `adapter_discover_devices` passes its guards: the reply is
not `InProgress`, the fields the guards read are left as they were, and the
inquiry command is sent once the channel is open. -/
theorem adapter_discover_devices_past_guards (env : Env) (msg : DBusMessage) (a : adapter)
    (hup : a.up ≠ 0) (hargs : msg.args = []) (hdisc : a.discov_active = 0)
    (hbond : a.bonding = none) :
    (¬ ∃ str, (adapter_discover_devices env msg a).val = some (in_progress msg str)) ∧
    (adapter_discover_devices env msg a).adapter.up = a.up ∧
    (adapter_discover_devices env msg a).adapter.discov_active = 0 ∧
    (adapter_discover_devices env msg a).adapter.bonding = none ∧
    ((adapter_discover_devices env msg a).val = some (.method_return msg []) →
      (adapter_discover_devices env msg a).adapter.discov_requestor = some msg.sender) ∧
    (0 ≤ env.hci_open_dev →
      Effect.hci_send_req OGF_LINK_CTL OCF_INQUIRY (.inquiry inquiry_lap 0x08 0x00) ∈
        (adapter_discover_devices env msg a).out) := by
  obtain ⟨n1, n2, -, -⟩ := error_names_distinct
  have hframe := pending_remote_name_cancel_frame env a
  have hb : (pending_remote_name_cancel env a).adapter.bonding = none := by
    rcases hframe with e | e <;> rw [e] <;> exact hbond
  have hu : (pending_remote_name_cancel env a).adapter.up = a.up := by
    rcases hframe with e | e <;> rw [e]
  have hd : (pending_remote_name_cancel env a).adapter.discov_active = 0 := by
    rcases hframe with e | e <;> rw [e] <;> exact hdisc
  unfold adapter_discover_devices
  simp only [hup, hargs, hdisc, hb, ne_eq, not_true_eq_false, if_false, Option.isSome_none,
    Bool.false_eq_true]
  by_cases h1 : env.hci_open_dev < 0
  · simp only [h1, if_true]
    refine ⟨?_, hu, hd, by trivial, ?_, ?_⟩
    · rintro ⟨str, h⟩
      simp [no_such_adapter, in_progress, n1] at h
    · intro h; simp [no_such_adapter] at h
    · intro h; omega
  · simp only [h1, if_false]
    by_cases h2 : env.hci_send_req < 0
    · simp only [h2, if_true]
      refine ⟨?_, hu, hd, by trivial, ?_, ?_⟩
      · rintro ⟨str, h⟩
        simp [failed_strerror, in_progress, n2] at h
      · intro h; simp [failed_strerror] at h
      · intro _; simp
    · simp only [h2, if_false]
      by_cases h3 : env.status = 0
      · simp only [h3, not_true_eq_false, if_false]
        refine ⟨?_, hu, hd, by trivial, ?_, ?_⟩
        · rintro ⟨str, h⟩
          simp [in_progress] at h
        · intro _; trivial
        · intro _; simp
      · simp only [h3, not_false_eq_true, if_true]
        refine ⟨?_, hu, hd, by trivial, ?_, ?_⟩
        · rintro ⟨str, h⟩
          simp [failed_strerror, in_progress, n2] at h
        · intro h; simp [failed_strerror] at h
        · intro _; simp

/-- C3, as stated, fails: on the sample adapter (up, nothing in progress) a
first `DiscoverDevices` succeeds and leaves `discov_active` at 0; the second
call by the same caller, with no controller event in between, is answered
with a method return after a second inquiry command, not with `InProgress`. -/
theorem discover_devices_twice_counterexample :
    (adapter_discover_devices sample_env sample_call sample_adapter).val
      = some (.method_return sample_call []) ∧
    (adapter_discover_devices sample_env sample_call sample_adapter).adapter.discov_active = 0 ∧
    (adapter_discover_devices sample_env sample_call
      (adapter_discover_devices sample_env sample_call sample_adapter).adapter).val
      = some (.method_return sample_call []) ∧
    ¬ (∃ str, (adapter_discover_devices sample_env sample_call
      (adapter_discover_devices sample_env sample_call sample_adapter).adapter).val
      = some (in_progress sample_call str)) := by
  refine ⟨by decide, by decide, by decide, ?_⟩
  rintro ⟨str, h⟩
  have h2 : (adapter_discover_devices sample_env sample_call
      (adapter_discover_devices sample_env sample_call sample_adapter).adapter).val
      = some (.method_return sample_call []) := by decide
  rw [h2] at h
  cases h

/-- C3, amended: a successful `DiscoverDevices` on an up adapter with nothing
in progress records the requestor and leaves `discov_active` at 0 (the flag is
set by a controller event), so a second well-formed call with no event in
between is not answered with `InProgress`: it opens the channel and, when that
succeeds, sends the inquiry command again. A `DiscoverDevices` issued while
`discov_active` is set fails with `InProgress` and leaves the whole adapter,
the recorded requestor included, unchanged. -/
theorem discover_devices_guard_reads_flag (env1 env2 : Env) (msg : DBusMessage) (a : adapter)
    (hup : a.up ≠ 0) (hargs : msg.args = []) (hdisc : a.discov_active = 0)
    (hbond : a.bonding = none)
    (hok : (adapter_discover_devices env1 msg a).val = some (.method_return msg [])) :
    (adapter_discover_devices env1 msg a).adapter.discov_active = 0 ∧
    (adapter_discover_devices env1 msg a).adapter.discov_requestor = some msg.sender ∧
    (¬ ∃ str, (adapter_discover_devices env2 msg (adapter_discover_devices env1 msg a).adapter).val
        = some (in_progress msg str)) ∧
    (0 ≤ env2.hci_open_dev →
      Effect.hci_send_req OGF_LINK_CTL OCF_INQUIRY (.inquiry inquiry_lap 0x08 0x00) ∈
        (adapter_discover_devices env2 msg (adapter_discover_devices env1 msg a).adapter).out) ∧
    (∀ a' : adapter, a'.up ≠ 0 → a'.discov_active ≠ 0 →
      (adapter_discover_devices env2 msg a').val = some (in_progress msg "Discover in progress") ∧
      (adapter_discover_devices env2 msg a').adapter = a' ∧
      (adapter_discover_devices env2 msg a').out = []) := by
  obtain ⟨-, h1u, h1d, h1b, h1r, -⟩ := adapter_discover_devices_past_guards env1 msg a hup hargs hdisc hbond
  obtain ⟨h2n, -, -, -, -, h2i⟩ := adapter_discover_devices_past_guards env2 msg
    (adapter_discover_devices env1 msg a).adapter (by rw [h1u]; exact hup) hargs h1d h1b
  refine ⟨h1d, h1r hok, h2n, h2i, ?_⟩
  intro a' hup' hdisc'
  unfold adapter_discover_devices
  simp [hup', hargs, hdisc']

/-- C3 amended, at the sample input: two calls in a row on the sample adapter. -/
theorem discover_devices_guard_reads_flag_witness :
    (adapter_discover_devices sample_env sample_call sample_adapter).adapter.discov_active = 0 ∧
    (adapter_discover_devices sample_env sample_call sample_adapter).adapter.discov_requestor
      = some sample_call.sender ∧
    (¬ ∃ str, (adapter_discover_devices sample_env sample_call
        (adapter_discover_devices sample_env sample_call sample_adapter).adapter).val
        = some (in_progress sample_call str)) ∧
    (0 ≤ sample_env.hci_open_dev →
      Effect.hci_send_req OGF_LINK_CTL OCF_INQUIRY (.inquiry inquiry_lap 0x08 0x00) ∈
        (adapter_discover_devices sample_env sample_call
          (adapter_discover_devices sample_env sample_call sample_adapter).adapter).out) ∧
    (∀ a' : adapter, a'.up ≠ 0 → a'.discov_active ≠ 0 →
      (adapter_discover_devices sample_env sample_call a').val
        = some (in_progress sample_call "Discover in progress") ∧
      (adapter_discover_devices sample_env sample_call a').adapter = a' ∧
      (adapter_discover_devices sample_env sample_call a').out = []) :=
  discover_devices_guard_reads_flag sample_env sample_env sample_call sample_adapter
    (by decide) rfl rfl rfl (by decide)

/-- C4: on an up adapter, a well-formed `CancelDiscovery` is answered with
`NotAuthorized` exactly when no discovery is active, or a cancellation reply
is already pending, or the caller is not the recorded requestor (none
recorded included); in each of these cases nothing is done (no cancel command
is issued) and the adapter is left unchanged. -/
theorem cancel_discovery_not_authorized_iff (env : Env) (msg : DBusMessage) (a : adapter)
    (hup : a.up ≠ 0) (hargs : msg.args = []) :
    ((∃ text, (adapter_cancel_discovery env msg a).val
        = some (.error msg (ERROR_INTERFACE ++ ".NotAuthorized") text)) ↔
      (a.discov_active = 0 ∨ a.discovery_cancel.isSome = true ∨
        a.discov_requestor ≠ some msg.sender)) ∧
    ((a.discov_active = 0 ∨ a.discovery_cancel.isSome = true ∨
        a.discov_requestor ≠ some msg.sender) →
      (adapter_cancel_discovery env msg a).adapter = a ∧
      (adapter_cancel_discovery env msg a).out = []) := by
  obtain ⟨-, -, n3, n4⟩ := error_names_distinct
  unfold adapter_cancel_discovery
  simp only [hup, hargs, ne_eq, not_true_eq_false, if_false]
  by_cases h1 : a.discov_active = 0 ∨ a.discovery_cancel.isSome = true
  · have hc : a.discov_active = 0 ∨ a.discovery_cancel.isSome = true ∨
        ¬ a.discov_requestor = some msg.sender := by
      rcases h1 with h | h
      · exact Or.inl h
      · exact Or.inr (Or.inl h)
    rw [if_pos h1]
    exact ⟨⟨fun _ => hc, fun _ => ⟨_, rfl⟩⟩, fun _ => ⟨rfl, rfl⟩⟩
  · rw [if_neg h1]
    by_cases h2 : a.discov_requestor = some msg.sender
    · have hc : ¬ (a.discov_active = 0 ∨ a.discovery_cancel.isSome = true ∨
          ¬ a.discov_requestor = some msg.sender) := by
        rintro (h | h | h)
        · exact h1 (Or.inl h)
        · exact h1 (Or.inr h)
        · exact h h2
      rw [if_neg (not_not.mpr h2)]
      refine ⟨⟨?_, fun h => absurd h hc⟩, fun h => absurd h hc⟩
      rintro ⟨text, h⟩
      exfalso
      split at h
      · split at h
        · simp [no_such_adapter, n3] at h
        · simp [failed_strerror, n4] at h
      · simp at h
    · rw [if_pos h2]
      exact ⟨⟨fun _ => Or.inr (Or.inr h2), fun _ => ⟨_, rfl⟩⟩, fun _ => ⟨rfl, rfl⟩⟩

/-- C4, at a sample input: a discovery is active and recorded for `:1.7`,
the caller `:1.42` is not its requestor. -/
theorem cancel_discovery_not_authorized_iff_witness :
    ((∃ text, (adapter_cancel_discovery sample_env sample_call
        { sample_adapter with discov_active := 1, discov_requestor := some ":1.7" }).val
        = some (.error sample_call (ERROR_INTERFACE ++ ".NotAuthorized") text)) ↔
      ((1 : Int) = 0 ∨ (none : Option DBusMessage).isSome = true ∨
        some ":1.7" ≠ some sample_call.sender)) ∧
    (((1 : Int) = 0 ∨ (none : Option DBusMessage).isSome = true ∨
        some ":1.7" ≠ some sample_call.sender) →
      (adapter_cancel_discovery sample_env sample_call
        { sample_adapter with discov_active := 1, discov_requestor := some ":1.7" }).adapter
        = { sample_adapter with discov_active := 1, discov_requestor := some ":1.7" } ∧
      (adapter_cancel_discovery sample_env sample_call
        { sample_adapter with discov_active := 1, discov_requestor := some ":1.7" }).out = []) :=
  cancel_discovery_not_authorized_iff sample_env sample_call
    { sample_adapter with discov_active := 1, discov_requestor := some ":1.7" }
    (by decide) rfl

/-! ## The deferred reply to CancelDiscovery -/

theorem remove_bonding_adapter (env : Env) (msg : Option DBusMessage) (address : String)
    (a : adapter) : (remove_bonding env msg address a).adapter = a := by
  unfold remove_bonding
  simp only
  repeat' split
  all_goals rfl

theorem remove_bonding_out (env : Env) (address : String) (a : adapter) (path : String) :
    discovery_completed path ∉ (remove_bonding env none address a).out := by
  unfold remove_bonding discovery_completed
  simp only [ite_self]
  intro h
  simp only [List.mem_append, List.mem_singleton, List.mem_cons] at h
  rcases h with ((((h | h) | h) | h) | h) | h
  · simp at h
  · simp at h
  · simp at h
  · split at h <;> simp at h
  · simp at h
  · split at h
    · split at h <;> simp at h
    · simp at h

theorem adapter_remove_device_frame (env : Env) (a : adapter) (device : Nat) :
    ∃ ds, (adapter_remove_device env a device).adapter = { a with devices := ds } := by
  unfold adapter_remove_device
  split
  · exact ⟨a.devices, rfl⟩
  · simp only [remove_bonding_adapter]
    exact ⟨_, rfl⟩

theorem adapter_remove_device_out (env : Env) (a : adapter) (device : Nat) (path : String) :
    discovery_completed path ∉ (adapter_remove_device env a device).out := by
  unfold adapter_remove_device
  split
  · simp
  · rename_i d _
    have hb := remove_bonding_out env d.address a path
    intro h
    simp only [List.mem_append, List.mem_singleton, List.mem_cons] at h
    rcases h with (((h | h) | h) | h) | h
    · simp [discovery_completed] at h
    · exact hb h
    · split at h
      · simp [discovery_completed] at h
      · simp at h
    · split at h <;> simp [discovery_completed] at h
    · simp [discovery_completed] at h

theorem remove_pending_device_frame (env : Env) (b : bonding_request_info) (a : adapter) :
    ∃ ds, (remove_pending_device env b a).adapter = { a with devices := ds } := by
  unfold remove_pending_device
  simp only
  split
  · exact ⟨a.devices, rfl⟩
  · split
    · exact ⟨a.devices, rfl⟩
    · split
      · exact adapter_remove_device_frame env a _
      · exact ⟨a.devices, rfl⟩

theorem remove_pending_device_out (env : Env) (b : bonding_request_info) (a : adapter)
    (path : String) : discovery_completed path ∉ (remove_pending_device env b a).out := by
  unfold remove_pending_device
  simp only
  split
  · simp
  · split
    · simp
    · split
      · exact adapter_remove_device_out env a _ path
      · simp

/-- C5, as stated, fails: on an adapter with a discovery active, the
requestor's `CancelDiscovery` is deferred (no reply, the call is stored);
`adapter_stop` on the resulting adapter sends the stored reply first and
emits `DiscoveryCompleted` after it. -/
theorem cancel_ack_before_completed_counterexample :
    (adapter_cancel_discovery sample_env sample_call sample_discovering).val = none ∧
    (adapter_cancel_discovery sample_env sample_call sample_discovering).adapter.discovery_cancel
      = some sample_call ∧
    (adapter_stop sample_env
      (adapter_cancel_discovery sample_env sample_call sample_discovering).adapter).out
      = [cancel_ack sample_call, discovery_completed "/org/bluez/hci0",
          .hci_open_dev 0, .hci_close_dev, .g_dbus_remove_watch 12,
          .emit_property_changed "/org/bluez/hci0" ADAPTER_INTERFACE "Mode" (.string "off")] ∧
    ¬ ack_follows_completed sample_call "/org/bluez/hci0"
      (adapter_stop sample_env
        (adapter_cancel_discovery sample_env sample_call sample_discovering).adapter).out := by
  have hout : (adapter_stop sample_env
      (adapter_cancel_discovery sample_env sample_call sample_discovering).adapter).out
      = [cancel_ack sample_call, discovery_completed "/org/bluez/hci0",
          .hci_open_dev 0, .hci_close_dev, .g_dbus_remove_watch 12,
          .emit_property_changed "/org/bluez/hci0" ADAPTER_INTERFACE "Mode" (.string "off")] := by
    decide
  refine ⟨by decide, by decide, hout, ?_⟩
  intro h
  have := h [] _ hout
  simp at this

theorem reply_pending_bonding_frame (env : Env) (a : adapter) :
    ∃ ds, (reply_pending_bonding env a).adapter = { a with devices := ds, bonding := none } := by
  unfold reply_pending_bonding
  split
  · rename_i b _
    obtain ⟨ds, hds⟩ := remove_pending_device_frame env b a
    exact ⟨ds, by simp only [hds]⟩
  · rename_i hb
    exact ⟨a.devices, by rw [← hb]⟩

theorem reply_pending_bonding_out (env : Env) (a : adapter) (path : String) :
    discovery_completed path ∉ (reply_pending_bonding env a).out := by
  unfold reply_pending_bonding
  split
  · rename_i b _
    have ho := remove_pending_device_out env b a path
    intro h
    simp only [List.mem_append, List.mem_singleton, List.mem_cons] at h
    rcases h with (((h | h) | h) | h) | h
    · simp [discovery_completed] at h
    · exact ho h
    · simp [discovery_completed] at h
    · split at h <;> simp [discovery_completed] at h
    · simp [discovery_completed] at h
  · simp

/-- In `reply_pending_requests`, a stored CancelDiscovery call is answered
right before the `DiscoveryCompleted` of a discovery that is still active. -/
theorem reply_pending_requests_order (env : Env) (a : adapter) (m : DBusMessage)
    (hc : a.discovery_cancel = some m) (hd : a.discov_active ≠ 0) :
    ∃ pre post, (reply_pending_requests env a).out
        = pre ++ [cancel_ack m, discovery_completed a.path] ++ post ∧
      discovery_completed a.path ∉ pre := by
  obtain ⟨ds, hds⟩ := reply_pending_bonding_frame env a
  have h2 : reply_pending_discovery_cancel (reply_pending_bonding env a).adapter
      = ⟨(), { a with devices := ds, bonding := none, discovery_cancel := none },
          [cancel_ack m]⟩ := by
    rw [hds]
    unfold reply_pending_discovery_cancel
    simp only [hc]
    rfl
  have h3 : ∃ post, (reply_pending_discovery env
      { a with devices := ds, bonding := none, discovery_cancel := none }).out
      = discovery_completed a.path :: post := by
    unfold reply_pending_discovery
    simp only [hd, ne_eq, not_false_eq_true, if_true]
    split
    · exact ⟨_, rfl⟩
    · exact ⟨[], rfl⟩
  obtain ⟨post, hpost⟩ := h3
  refine ⟨(reply_pending_bonding env a).out, post ++ (reply_pending_periodic env
    (reply_pending_discovery env (reply_pending_discovery_cancel
      (reply_pending_bonding env a).adapter).adapter).adapter).out, ?_,
    reply_pending_bonding_out env a a.path⟩
  unfold reply_pending_requests
  simp only [h2, hpost]
  simp

/-- C5, amended: a successful `CancelDiscovery` returns no reply and stores
the call; `adapter_stop` on an adapter that holds a stored call while the
discovery is still active sends the stored reply and emits
`DiscoveryCompleted` right after it, no `DiscoveryCompleted` being emitted
earlier in the call: there the reply precedes the completion signal. -/
theorem cancel_reply_deferred_then_sent_at_stop (env : Env) (msg : DBusMessage) (a : adapter)
    (hup : a.up ≠ 0) (hargs : msg.args = []) (hdisc : a.discov_active ≠ 0)
    (hnone : a.discovery_cancel = none) (hreq : a.discov_requestor = some msg.sender)
    (hok : 0 ≤ (env.cancel_discovery a).val) :
    (adapter_cancel_discovery env msg a).val = none ∧
    (adapter_cancel_discovery env msg a).adapter.discovery_cancel = some msg ∧
    (adapter_cancel_discovery env msg a).out = (env.cancel_discovery a).out ∧
    (∀ (env' : Env) (a' : adapter) (m : DBusMessage),
      a'.discovery_cancel = some m → a'.discov_active ≠ 0 →
      ∃ pre post, (adapter_stop env' a').out
          = pre ++ [cancel_ack m, discovery_completed a'.path] ++ post ∧
        discovery_completed a'.path ∉ pre) := by
  refine ⟨?_, ?_, ?_, ?_⟩
  · unfold adapter_cancel_discovery
    simp [hup, hargs, hdisc, hnone, hreq, not_lt.mpr hok]
  · unfold adapter_cancel_discovery
    simp [hup, hargs, hdisc, hnone, hreq, not_lt.mpr hok]
  · unfold adapter_cancel_discovery
    simp [hup, hargs, hdisc, hnone, hreq, not_lt.mpr hok]
  · intro env' a' m hc hd
    have ht : ∃ id, (stop_discov_timeout a').adapter = { a' with discov_timeout_id := id } ∧
        discovery_completed a'.path ∉ (stop_discov_timeout a').out := by
      unfold stop_discov_timeout
      split
      · exact ⟨0, rfl, by simp [discovery_completed]⟩
      · exact ⟨a'.discov_timeout_id, rfl, by simp⟩
    obtain ⟨id, hid, htout⟩ := ht
    obtain ⟨pre, post, hout, hpre⟩ := reply_pending_requests_order env'
      (stop_discov_timeout a').adapter m (by rw [hid]; exact hc) (by rw [hid]; exact hd)
    have hpath : (stop_discov_timeout a').adapter.path = a'.path := by rw [hid]
    rw [hpath] at hout hpre
    refine ⟨(stop_discov_timeout a').out ++ pre, post ++
      ((stop_discov_requestor (reply_pending_requests env' (stop_discov_timeout a').adapter).adapter).out
        ++ (stop_pdiscov_requestor (stop_discov_requestor
          (reply_pending_requests env' (stop_discov_timeout a').adapter).adapter).adapter).out
        ++ (stop_reset (stop_pdiscov_requestor (stop_discov_requestor
          (reply_pending_requests env' (stop_discov_timeout a').adapter).adapter).adapter).adapter).out),
      ?_, ?_⟩
    · unfold adapter_stop
      simp only [hout]
      simp
    · intro h
      rcases List.mem_append.mp h with h | h
      · exact htout h
      · exact hpre h

/-- C5 amended, at a sample input: the requestor of an active discovery
cancels it. -/
theorem cancel_reply_deferred_then_sent_at_stop_witness :
    (adapter_cancel_discovery sample_env sample_call sample_discovering).val = none ∧
    (adapter_cancel_discovery sample_env sample_call sample_discovering).adapter.discovery_cancel
      = some sample_call ∧
    (adapter_cancel_discovery sample_env sample_call sample_discovering).out
      = (sample_env.cancel_discovery sample_discovering).out ∧
    (∀ (env' : Env) (a' : adapter) (m : DBusMessage),
      a'.discovery_cancel = some m → a'.discov_active ≠ 0 →
      ∃ pre post, (adapter_stop env' a').out
          = pre ++ [cancel_ack m, discovery_completed a'.path] ++ post ∧
        discovery_completed a'.path ∉ pre) :=
  cancel_reply_deferred_then_sent_at_stop sample_env sample_call sample_discovering
    (by decide) rfl (by decide) rfl rfl (by decide)

/-! ## Discovery and bonding exclude each other -/

/-- C6, as stated, fails for `adapter_start`: the adapter left by a
`create_bonding` on a down adapter has a bonding in flight and no discovery
active; `adapter_start`, told by the controller that an inquiry is running,
sets `discov_active` and keeps the bonding, so both hold afterwards; the same
happens when `adapter_start` runs on an up adapter with a bonding in flight. -/
theorem adapter_start_breaks_exclusion_counterexample :
    sample_down_bonding.discov_active = 0 ∧
    sample_down_bonding.bonding.isSome = true ∧
    (adapter_start { sample_env with di_inquiry := true } sample_down_bonding).val = 0 ∧
    (adapter_start { sample_env with di_inquiry := true } sample_down_bonding).adapter.discov_active
      = 1 ∧
    (adapter_start { sample_env with di_inquiry := true } sample_down_bonding).adapter.bonding.isSome
      = true ∧
    (adapter_start { sample_env with di_inquiry := true }
      { sample_adapter with bonding := some sample_bonding }).adapter.discov_active = 1 ∧
    (adapter_start { sample_env with di_inquiry := true }
      { sample_adapter with bonding := some sample_bonding }).adapter.bonding
      = some sample_bonding := by
  decide

theorem adapter_discover_devices_frame (env : Env) (msg : DBusMessage) (a : adapter) :
    (adapter_discover_devices env msg a).adapter.discov_active = a.discov_active ∧
    (adapter_discover_devices env msg a).adapter.bonding = a.bonding := by
  have hb : (pending_remote_name_cancel env a).adapter.bonding = a.bonding := by
    rcases pending_remote_name_cancel_frame env a with e | e <;> rw [e]
  have hd : (pending_remote_name_cancel env a).adapter.discov_active = a.discov_active := by
    rcases pending_remote_name_cancel_frame env a with e | e <;> rw [e]
  unfold adapter_discover_devices
  simp only
  repeat' split
  all_goals first | exact ⟨rfl, rfl⟩ | exact ⟨hd, hb⟩

theorem adapter_get_device_frame (env : Env) (a : adapter) (address : String) :
    ∃ ds, (adapter_get_device env a address).adapter = { a with devices := ds } := by
  unfold adapter_get_device
  split
  · exact ⟨a.devices, rfl⟩
  · unfold adapter_create_device
    split
    · exact ⟨a.devices, rfl⟩
    · exact ⟨_, rfl⟩

theorem bonding_request_new_frame (env : Env) (msg : DBusMessage) (a : adapter)
    (address agent_path : String) (capability : Nat) :
    ∃ ds, (bonding_request_new env msg a address agent_path capability).adapter
      = { a with devices := ds } := by
  obtain ⟨ds, hds⟩ := adapter_get_device_frame env a address
  unfold bonding_request_new
  simp only
  split
  · exact ⟨ds, hds⟩
  · simp only [hds]
    exact ⟨_, rfl⟩

theorem create_bonding_discov_active (env : Env) (msg : DBusMessage) (a : adapter)
    (address agent_path : String) (capability : Nat) :
    (create_bonding env msg address agent_path capability a).adapter.discov_active
      = a.discov_active := by
  have hd : (pending_remote_name_cancel env a).adapter.discov_active = a.discov_active := by
    rcases pending_remote_name_cancel_frame env a with e | e <;> rw [e]
  obtain ⟨ds, hds⟩ := bonding_request_new_frame env msg (pending_remote_name_cancel env a).adapter
    address agent_path capability
  unfold create_bonding
  simp only
  repeat' split
  all_goals first | rfl | exact hd | (simp only [hds]; exact hd)

/-- C6, amended: on an up adapter a well-formed `DiscoverDevices` is rejected
with `InProgress` whenever a bonding is in flight, `create_bonding` is
rejected with `InProgress` whenever discovery is active, and neither of the
two takes an adapter on which discovery active and bonding in flight do not
both hold to one on which both hold. -/
theorem discovery_bonding_exclusion (env : Env) (msg : DBusMessage) (a : adapter)
    (address agent_path : String) (capability : Nat) :
    (a.up ≠ 0 → msg.args = [] → a.bonding.isSome = true →
      ∃ str, (adapter_discover_devices env msg a).val = some (in_progress msg str)) ∧
    (a.discov_active ≠ 0 →
      ∃ str, (create_bonding env msg address agent_path capability a).val
        = some (in_progress msg str)) ∧
    (¬ (a.discov_active ≠ 0 ∧ a.bonding.isSome = true) →
      ¬ ((adapter_discover_devices env msg a).adapter.discov_active ≠ 0 ∧
         (adapter_discover_devices env msg a).adapter.bonding.isSome = true)) ∧
    (¬ (a.discov_active ≠ 0 ∧ a.bonding.isSome = true) →
      ¬ ((create_bonding env msg address agent_path capability a).adapter.discov_active ≠ 0 ∧
         (create_bonding env msg address agent_path capability a).adapter.bonding.isSome = true))
    := by
  refine ⟨?_, ?_, ?_, ?_⟩
  · intro hup hargs hb
    have hb' : (pending_remote_name_cancel env a).adapter.bonding.isSome = true := by
      rcases pending_remote_name_cancel_frame env a with e | e <;> rw [e] <;> exact hb
    unfold adapter_discover_devices
    simp only [hup, hargs, ne_eq, not_true_eq_false, if_false, hb', if_true]
    split
    · exact ⟨_, rfl⟩
    · exact ⟨_, rfl⟩
  · intro hd
    unfold create_bonding
    simp only [hd, ne_eq, not_false_eq_true, if_true]
    exact ⟨_, rfl⟩
  · intro h
    obtain ⟨hd, hb⟩ := adapter_discover_devices_frame env msg a
    rw [hd, hb]
    exact h
  · intro h
    rw [create_bonding_discov_active]
    rintro ⟨hd, hb⟩
    apply h
    refine ⟨hd, ?_⟩
    unfold create_bonding at hb
    simp only [hd, ne_eq, not_false_eq_true, if_true] at hb
    exact hb

/-! ## RequestMode -/

theorem find_session_isSome (sessions : List mode_req) (msg : DBusMessage) :
    (g_slist_find_custom sessions msg find_session).isSome = true ↔
      ∃ req ∈ sessions, req.msg.sender = msg.sender := by
  unfold g_slist_find_custom
  rw [List.find?_isSome]
  constructor
  · rintro ⟨x, hx, hp⟩
    refine ⟨x, hx, ?_⟩
    unfold find_session at hp
    by_contra hne
    simp [hne] at hp
  · rintro ⟨x, hx, hp⟩
    exact ⟨x, hx, by simp [find_session, hp]⟩

/-- A string equal to "on" up to case is none of the four mode names. -/
theorem strcasecmp_on_only (mode : String) (h : strcasecmp_eq "on" mode = true) :
    strcasecmp_eq "off" mode = false ∧ strcasecmp_eq "connectable" mode = false ∧
    strcasecmp_eq "discoverable" mode = false ∧ strcasecmp_eq "limited" mode = false := by
  unfold strcasecmp_eq at *
  have h' : "on".data.map Char.toLower = mode.data.map Char.toLower := eq_of_beq h
  rw [← h']
  decide

/-- The mutual recursion of `str2mode` and `on_mode` never ends on the string
"on" while the stored on-mode is "on": no fuel gives a result. -/
theorem str2mode_loops (env : Env) (fuel : Nat) (mode : String)
    (h : on_mode_loops env mode = true) : str2mode fuel env mode = none := by
  unfold on_mode_loops at h
  rw [Bool.and_eq_true] at h
  obtain ⟨hon, hst⟩ := h
  cases hs : env.read_on_mode with
  | none => rw [hs] at hst; simp at hst
  | some stored =>
    rw [hs] at hst
    simp only at hst
    have key : ∀ (fuel : Nat) (mode : String), strcasecmp_eq "on" mode = true →
        str2mode fuel env mode = none := by
      intro fuel
      induction fuel with
      | zero => intro mode _; rfl
      | succ n ih =>
        intro mode hm
        obtain ⟨h1, h2, h3, h4⟩ := strcasecmp_on_only mode hm
        rw [str2mode]
        simp only [h1, h2, h3, h4, hm, hs, if_true, Bool.false_eq_true, if_false]
        exact ih stored hst
    exact key fuel mode hon

/-- A string other than "on" resolves in one step, whatever the fuel. -/
theorem str2mode_direct (env : Env) (mode : String) (h : strcasecmp_eq "on" mode = false) :
    ∃ m, ∀ fuel, str2mode (fuel + 1) env mode = some m := by
  by_cases h1 : strcasecmp_eq "off" mode = true
  · exact ⟨MODE_OFF, fun fuel => by rw [str2mode, if_pos h1]⟩
  by_cases h2 : strcasecmp_eq "connectable" mode = true
  · exact ⟨MODE_CONNECTABLE, fun fuel => by rw [str2mode, if_neg h1, if_pos h2]⟩
  by_cases h3 : strcasecmp_eq "discoverable" mode = true
  · exact ⟨MODE_DISCOVERABLE, fun fuel => by rw [str2mode, if_neg h1, if_neg h2, if_pos h3]⟩
  by_cases h4 : strcasecmp_eq "limited" mode = true
  · exact ⟨MODE_LIMITED, fun fuel => by
      rw [str2mode, if_neg h1, if_neg h2, if_neg h3, if_pos h4]⟩
  · exact ⟨MODE_UNKNOWN, fun fuel => by
      rw [str2mode, if_neg h1, if_neg h2, if_neg h3, if_neg h4, if_neg (by simp [h])]⟩

/-- Every mode string other than the looping one resolves, and with the same
result for every fuel from 2 on: the four mode names and the unknown strings
in one step, "on" through the stored on-mode. -/
theorem str2mode_resolves (env : Env) (mode : String) (h : on_mode_loops env mode = false) :
    ∃ m, ∀ fuel, str2mode (fuel + 2) env mode = some m := by
  cases hon : strcasecmp_eq "on" mode with
  | false =>
    obtain ⟨m, hm⟩ := str2mode_direct env mode hon
    exact ⟨m, fun fuel => hm (fuel + 1)⟩
  | true =>
    obtain ⟨h1, h2, h3, h4⟩ := strcasecmp_on_only mode hon
    have hstep : ∀ fuel, str2mode (fuel + 1) env mode
        = match env.read_on_mode with
          | none => some MODE_CONNECTABLE
          | some stored => str2mode fuel env stored := by
      intro fuel
      rw [str2mode]
      simp only [h1, h2, h3, h4, hon, if_true, Bool.false_eq_true, if_false]
    unfold on_mode_loops at h
    rw [hon, Bool.true_and] at h
    cases hs : env.read_on_mode with
    | none => exact ⟨MODE_CONNECTABLE, fun fuel => by rw [hstep, hs]⟩
    | some stored =>
      rw [hs] at h
      obtain ⟨m, hm⟩ := str2mode_direct env stored h
      exact ⟨m, fun fuel => by rw [hstep, hs]; exact hm fuel⟩

/-- The checks of `RequestMode` for a mode string that `str2mode` resolves to
`m` with the fuel given: each rejection leaves the whole adapter unchanged and
does nothing else. -/
theorem request_mode_rejections_of_mode (fuel : Nat) (env : Env) (msg : DBusMessage)
    (a : adapter) (mode : String) (m : Nat)
    (hargs : msg.args = [.string mode]) (hm : str2mode fuel env mode = some m) :
    (m ≠ MODE_CONNECTABLE ∧ m ≠ MODE_DISCOVERABLE →
      request_mode fuel env msg a = some ⟨some (invalid_args msg), a, []⟩) ∧
    ((m = MODE_CONNECTABLE ∨ m = MODE_DISCOVERABLE) → a.agent = none →
      request_mode fuel env msg a
        = some ⟨some (.error msg (ERROR_INTERFACE ++ ".Failed") (.lit "No agent registered")),
            a, []⟩) ∧
    ((m = MODE_CONNECTABLE ∨ m = MODE_DISCOVERABLE) → a.agent.isSome = true →
      (∃ req ∈ a.sessions, req.msg.sender = msg.sender) →
      request_mode fuel env msg a
        = some ⟨some (.error msg (ERROR_INTERFACE ++ ".Failed") (.lit "Mode already requested")),
            a, []⟩) := by
  refine ⟨?_, ?_, ?_⟩
  · intro h
    unfold request_mode
    simp only [hargs, hm]
    rw [if_pos (by simpa using h)]
  · intro h hag
    have h' : ¬ (m ≠ MODE_CONNECTABLE ∧ m ≠ MODE_DISCOVERABLE) := by
      rintro ⟨h1, h2⟩
      rcases h with h | h
      · exact h1 h
      · exact h2 h
    unfold request_mode
    simp only [hargs, hm]
    rw [if_neg h']
    simp only [hag]
  · intro h hag hs
    have h' : ¬ (m ≠ MODE_CONNECTABLE ∧ m ≠ MODE_DISCOVERABLE) := by
      rintro ⟨h1, h2⟩
      rcases h with h | h
      · exact h1 h
      · exact h2 h
    obtain ⟨ag, hag'⟩ := Option.isSome_iff_exists.mp hag
    unfold request_mode
    simp only [hargs, hm]
    rw [if_neg h']
    simp only [hag']
    rw [if_pos ((find_session_isSome a.sessions msg).mpr hs)]

/-- C7, amended: for every `RequestMode` call except the string "on" while the
stored on-mode is itself "on", the mode string resolves to one mode `m`, the
same for every fuel from 2 on, and the checks are applied in their order, each
rejection leaving the whole adapter (session list, mode and `global_mode`
included) unchanged and doing nothing else: `m` neither Connectable nor
Discoverable gives `InvalidArguments`; otherwise a missing agent gives
`Failed` "No agent registered"; otherwise a session of the same sender gives
`Failed` "Mode already requested". -/
theorem request_mode_rejections (env : Env) (msg : DBusMessage) (a : adapter)
    (mode : String)
    (hargs : msg.args = [.string mode]) (hres : on_mode_loops env mode = false) :
    ∃ m, ∀ fuel, str2mode (fuel + 2) env mode = some m ∧
      (m ≠ MODE_CONNECTABLE ∧ m ≠ MODE_DISCOVERABLE →
        request_mode (fuel + 2) env msg a = some ⟨some (invalid_args msg), a, []⟩) ∧
      ((m = MODE_CONNECTABLE ∨ m = MODE_DISCOVERABLE) → a.agent = none →
        request_mode (fuel + 2) env msg a
          = some ⟨some (.error msg (ERROR_INTERFACE ++ ".Failed") (.lit "No agent registered")),
              a, []⟩) ∧
      ((m = MODE_CONNECTABLE ∨ m = MODE_DISCOVERABLE) → a.agent.isSome = true →
        (∃ req ∈ a.sessions, req.msg.sender = msg.sender) →
        request_mode (fuel + 2) env msg a
          = some ⟨some (.error msg (ERROR_INTERFACE ++ ".Failed")
              (.lit "Mode already requested")), a, []⟩) := by
  obtain ⟨m, hm⟩ := str2mode_resolves env mode hres
  exact ⟨m, fun fuel =>
    ⟨hm fuel, request_mode_rejections_of_mode (fuel + 2) env msg a mode m hargs (hm fuel)⟩⟩

/-- C7, at a sample input: `RequestMode("limited")` is not the looping input;
on an adapter without agent it is rejected as an invalid argument, not for the
missing agent. -/
theorem request_mode_rejections_witness :
    on_mode_loops sample_env "limited" = false ∧
    ∃ m, ∀ fuel, str2mode (fuel + 2) sample_env "limited" = some m ∧
      (m ≠ MODE_CONNECTABLE ∧ m ≠ MODE_DISCOVERABLE →
        request_mode (fuel + 2) sample_env { sample_mode_msg with args := [.string "limited"] }
            sample_adapter
          = some ⟨some (invalid_args { sample_mode_msg with args := [.string "limited"] }),
              sample_adapter, []⟩) ∧
      ((m = MODE_CONNECTABLE ∨ m = MODE_DISCOVERABLE) → sample_adapter.agent = none →
        request_mode (fuel + 2) sample_env { sample_mode_msg with args := [.string "limited"] }
            sample_adapter
          = some ⟨some (.error { sample_mode_msg with args := [.string "limited"] }
              (ERROR_INTERFACE ++ ".Failed") (.lit "No agent registered")),
              sample_adapter, []⟩) ∧
      ((m = MODE_CONNECTABLE ∨ m = MODE_DISCOVERABLE) → sample_adapter.agent.isSome = true →
        (∃ req ∈ sample_adapter.sessions,
          req.msg.sender
            = ({ sample_mode_msg with args := [.string "limited"] } : DBusMessage).sender) →
        request_mode (fuel + 2) sample_env { sample_mode_msg with args := [.string "limited"] }
            sample_adapter
          = some ⟨some (.error { sample_mode_msg with args := [.string "limited"] }
              (ERROR_INTERFACE ++ ".Failed") (.lit "Mode already requested")),
              sample_adapter, []⟩) :=
  ⟨by decide,
    request_mode_rejections sample_env { sample_mode_msg with args := [.string "limited"] }
      sample_adapter "limited" rfl (by decide)⟩

/-- C7 as stated fails: `RequestMode("on")` while the stored on-mode is "on"
is the looping input, the string resolves to no mode, and the call is not
rejected with `InvalidArguments`: for no fuel does `request_mode` return. -/
theorem request_mode_on_loop_counterexample :
    on_mode_loops sample_env_on_loop "on" = true ∧
    sample_on_msg.args = [.string "on"] ∧
    ¬ ∃ fuel r, request_mode fuel sample_env_on_loop sample_on_msg sample_adapter = some r := by
  refine ⟨by decide, rfl, ?_⟩
  rintro ⟨fuel, r, hr⟩
  have hl : str2mode fuel sample_env_on_loop "on" = none :=
    str2mode_loops sample_env_on_loop fuel "on" (by decide)
  have hargs : sample_on_msg.args = [.string "on"] := rfl
  unfold request_mode at hr
  simp only [hargs, hl] at hr
  cases hr

/-- C8: with an agent registered and the current mode at or above the
requested one (Connectable or Discoverable), `RequestMode` from a sender
without a session returns a method return, appends one session for the sender
at the end of the session list, leaves the mode unchanged, and its only
action is the registration of the disconnect watch: no agent confirmation and
no HCI command. -/
theorem request_mode_already_at_level (fuel : Nat) (env : Env) (msg : DBusMessage) (a : adapter)
    (mode : String) (m : Nat) (ag : agent)
    (hargs : msg.args = [.string mode]) (hm : str2mode fuel env mode = some m)
    (hmode : m = MODE_CONNECTABLE ∨ m = MODE_DISCOVERABLE) (hag : a.agent = some ag)
    (hns : ∀ req ∈ a.sessions, req.msg.sender ≠ msg.sender) (hge : a.mode ≥ m) :
    ∃ r, request_mode fuel env msg a = some r ∧
      r.val = some (.method_return msg []) ∧
      r.adapter.sessions = a.sessions ++
        [{ msg := msg, mode := m, id := env.g_dbus_add_disconnect_watch }] ∧
      r.adapter.mode = a.mode ∧
      r.out = [.g_dbus_add_disconnect_watch msg.sender] := by
  have h' : ¬ (m ≠ MODE_CONNECTABLE ∧ m ≠ MODE_DISCOVERABLE) := by
    rintro ⟨h1, h2⟩
    rcases hmode with h | h
    · exact h1 h
    · exact h2 h
  have hs : ¬ (g_slist_find_custom a.sessions msg find_session).isSome = true := by
    rw [find_session_isSome]
    rintro ⟨req, hreq, he⟩
    exact hns req hreq he
  unfold request_mode
  simp only [hargs, hm]
  rw [if_neg h']
  simp only [hag]
  rw [if_neg hs]
  by_cases he : a.sessions = []
  · simp only [he, if_true, List.nil_append]
    rw [if_pos hge]
    exact ⟨_, rfl, rfl, rfl, rfl, rfl⟩
  · simp only [he, if_false]
    rw [if_pos hge]
    exact ⟨_, rfl, rfl, rfl, rfl, rfl⟩

/-- C8, at a sample input: `RequestMode("connectable")` on the sample adapter
(mode Connectable) with an agent registered. -/
theorem request_mode_already_at_level_witness :
    ∃ r, request_mode 1 sample_env { sample_mode_msg with args := [.string "connectable"] }
        { sample_adapter with agent := some sample_agent } = some r ∧
      r.val = some (.method_return { sample_mode_msg with args := [.string "connectable"] } []) ∧
      r.adapter.sessions = [] ++
        [{ msg := { sample_mode_msg with args := [.string "connectable"] },
           mode := MODE_CONNECTABLE, id := 12 }] ∧
      r.adapter.mode = MODE_CONNECTABLE ∧
      r.out = [.g_dbus_add_disconnect_watch ":1.42"] :=
  request_mode_already_at_level 1 sample_env
    { sample_mode_msg with args := [.string "connectable"] }
    { sample_adapter with agent := some sample_agent } "connectable" MODE_CONNECTABLE
    sample_agent rfl (by decide) (Or.inl rfl) rfl (by intro req h; cases h) (Nat.le_refl _)

/-! ## set_mode -/

theorem str2mode_discoverable (fuel : Nat) (env : Env) :
    str2mode (fuel + 1) env "discoverable" = some MODE_DISCOVERABLE := by
  rfl

/-- When the controller accepts what `set_mode_scan` sends, the function ends
at the label `done`, on an adapter that differs from the given one at most in
the timer handle. -/
theorem set_mode_scan_reaches_done (env : Env) (msg : DBusMessage) (new_mode scan_enable : Nat)
    (a : adapter) (out : List Effect)
    (hlim : 0 ≤ env.set_limited_discoverable) (hsend : 0 ≤ env.hci_send_req)
    (hstatus : env.status = 0) :
    ∃ id out', set_mode_scan env msg new_mode scan_enable a out
      = set_mode_done msg new_mode { a with discov_timeout_id := id } out' := by
  unfold set_mode_scan
  simp only [not_lt.mpr hlim, not_lt.mpr hsend, hstatus, if_false, ne_eq, not_true_eq_false]
  repeat' split
  all_goals first | exact ⟨a.discov_timeout_id, _, rfl⟩ | exact ⟨_, _, rfl⟩

/-- C9, Scenario A: on an up adapter in mode Connectable with a registered
agent and no session, `RequestMode("discoverable")` returns no reply, records
the caller's session and asks the agent; when the agent approves and the
controller accepts the scan-enable write, `confirm_mode_cb` leaves mode
Discoverable, `global_mode` Connectable, the caller's session as the only
session, and has sent a method return to the caller. -/
theorem scenario_a_request_mode_confirmed (fuel : Nat) (env1 env2 : Env) (msg : DBusMessage)
    (a : adapter) (ag : agent) (err : Option DBusError)
    (hargs : msg.args = [.string "discoverable"]) (hup : a.up ≠ 0)
    (hmode : a.mode = MODE_CONNECTABLE) (hag : a.agent = some ag) (hs : a.sessions = [])
    (hask : 0 ≤ env1.agent_confirm_mode_change)
    (happrove : ∀ e, err = some e → e.is_set = false)
    (hopen : 0 ≤ env2.hci_open_dev) (hlim : 0 ≤ env2.set_limited_discoverable)
    (hsend : 0 ≤ env2.hci_send_req) (hstatus : env2.status = 0) :
    ∃ r1 req, request_mode (fuel + 1) env1 msg a = some r1 ∧
      r1.val = none ∧
      req = { msg := msg, mode := MODE_DISCOVERABLE, id := env1.g_dbus_add_disconnect_watch } ∧
      r1.adapter.sessions = [req] ∧
      Effect.agent_confirm_mode_change ag "discoverable" req ∈ r1.out ∧
      (confirm_mode_cb env2 err req r1.adapter).adapter.mode = MODE_DISCOVERABLE ∧
      (confirm_mode_cb env2 err req r1.adapter).adapter.global_mode = MODE_CONNECTABLE ∧
      (confirm_mode_cb env2 err req r1.adapter).adapter.sessions = [req] ∧
      Effect.send (.method_return msg []) ∈ (confirm_mode_cb env2 err req r1.adapter).out := by
  have h1 : request_mode (fuel + 1) env1 msg a
      = some ⟨none,
          { a with global_mode := a.mode,
                   sessions := [{ msg := msg, mode := MODE_DISCOVERABLE,
                                  id := env1.g_dbus_add_disconnect_watch }] },
          [.g_dbus_add_disconnect_watch msg.sender,
           .agent_confirm_mode_change ag "discoverable"
             { msg := msg, mode := MODE_DISCOVERABLE,
               id := env1.g_dbus_add_disconnect_watch }]⟩ := by
    unfold request_mode
    simp only [hargs, str2mode_discoverable]
    rw [if_neg (by decide)]
    simp only [hag, hs]
    rw [if_neg (by simp [g_slist_find_custom])]
    simp only [if_true, List.nil_append, hmode]
    rw [if_neg (by decide), if_neg (not_lt.mpr hask)]
    rfl
  have herr : (match err with
      | some e => if e.is_set then some e else none
      | none => none) = none := by
    cases err with
    | none => rfl
    | some e => simp [happrove e rfl]
  obtain ⟨id, out', hscan⟩ := set_mode_scan_reaches_done env2 msg MODE_DISCOVERABLE
    (SCAN_PAGE ||| SCAN_INQUIRY)
    { a with global_mode := a.mode,
             sessions := [{ msg := msg, mode := MODE_DISCOVERABLE,
                            id := env1.g_dbus_add_disconnect_watch }] }
    [.hci_open_dev a.dev_id] hlim hsend hstatus
  have h2 : set_mode env2 msg MODE_DISCOVERABLE
      { a with global_mode := a.mode,
               sessions := [{ msg := msg, mode := MODE_DISCOVERABLE,
                              id := env1.g_dbus_add_disconnect_watch }] }
      = set_mode_done msg MODE_DISCOVERABLE
          { a with global_mode := a.mode, discov_timeout_id := id,
                   sessions := [{ msg := msg, mode := MODE_DISCOVERABLE,
                                  id := env1.g_dbus_add_disconnect_watch }] } out' := by
    unfold set_mode
    rw [if_neg (by decide), if_neg (by decide), if_pos (Or.inl rfl)]
    simp only
    rw [if_neg (not_lt.mpr hopen), if_neg (fun h => hup h.1),
      if_neg (fun h => absurd h.2.1 (by decide))]
    exact hscan
  refine ⟨_, _, h1, rfl, rfl, rfl, by simp, ?_⟩
  unfold confirm_mode_cb
  simp only [herr, h2, set_mode_done]
  rw [if_neg (by simp [g_slist_find_custom, find_session])]
  exact ⟨rfl, hmode, rfl, by simp⟩

/-- C9, at the sample input of Scenario A. -/
theorem scenario_a_request_mode_confirmed_witness :
    ∃ r1 req, request_mode 1 sample_env sample_mode_msg sample_scenario_a = some r1 ∧
      r1.val = none ∧
      req = { msg := sample_mode_msg, mode := MODE_DISCOVERABLE, id := 12 } ∧
      r1.adapter.sessions = [req] ∧
      Effect.agent_confirm_mode_change sample_agent "discoverable" req ∈ r1.out ∧
      (confirm_mode_cb sample_env none req r1.adapter).adapter.mode = MODE_DISCOVERABLE ∧
      (confirm_mode_cb sample_env none req r1.adapter).adapter.global_mode = MODE_CONNECTABLE ∧
      (confirm_mode_cb sample_env none req r1.adapter).adapter.sessions = [req] ∧
      Effect.send (.method_return sample_mode_msg []) ∈
        (confirm_mode_cb sample_env none req r1.adapter).out :=
  scenario_a_request_mode_confirmed 0 sample_env sample_env sample_mode_msg sample_scenario_a
    sample_agent none rfl (by decide) rfl rfl rfl (by decide) (by intro e h; cases h)
    (by decide) (by decide) (by decide) rfl

/-- C10, as stated, fails: in Scenario A the `set_mode` that makes the
adapter discoverable returns a method return, and its actions are the opening
of the channel, the class and scan-enable writes, the storing of the mode and
the closing of the channel; no `PropertyChanged("Mode", "discoverable")` is
among them, nor among the actions of the whole `confirm_mode_cb`. -/
theorem set_mode_emits_no_signal_counterexample :
    (set_mode sample_env sample_mode_msg MODE_DISCOVERABLE sample_scenario_a).val
      = some (.method_return sample_mode_msg []) ∧
    (set_mode sample_env sample_mode_msg MODE_DISCOVERABLE sample_scenario_a).out
      = [.hci_open_dev 0, .set_limited_discoverable false,
         .hci_send_req OGF_HOST_CTL OCF_WRITE_SCAN_ENABLE (.bytes [3]),
         .write_device_mode "discoverable", .hci_close_dev] ∧
    Effect.emit_property_changed "/org/bluez/hci0" ADAPTER_INTERFACE "Mode"
        (.string "discoverable") ∉
      (set_mode sample_env sample_mode_msg MODE_DISCOVERABLE sample_scenario_a).out ∧
    Effect.emit_property_changed "/org/bluez/hci0" ADAPTER_INTERFACE "Mode"
        (.string "discoverable") ∉
      (confirm_mode_cb sample_env none
        { msg := sample_mode_msg, mode := MODE_DISCOVERABLE, id := 12 }
        { sample_scenario_a with
          sessions := [{ msg := sample_mode_msg, mode := MODE_DISCOVERABLE, id := 12 }] }).out := by
  decide

theorem set_mode_ok_error (msg : DBusMessage) (new_mode : Nat) (a : adapter) (out : List Effect)
    (name : String) (text : ErrText) :
    set_mode_ok msg new_mode ⟨some (.error msg name text), a, out⟩ := by
  intro h
  simp at h

theorem set_mode_ok_done (msg : DBusMessage) (new_mode : Nat) (a : adapter) (out : List Effect)
    (h : out.all (fun e => !e.is_signal) = true) :
    set_mode_ok msg new_mode (set_mode_done msg new_mode a out) := by
  intro _
  refine ⟨rfl, by simp [set_mode_done], ?_⟩
  simp only [set_mode_done, List.all_append, h, Bool.true_and]
  rfl

theorem set_mode_ok_scan (env : Env) (msg : DBusMessage) (new_mode scan_enable : Nat)
    (a : adapter) (out : List Effect) (h : out.all (fun e => !e.is_signal) = true) :
    set_mode_ok msg new_mode (set_mode_scan env msg new_mode scan_enable a out) := by
  unfold set_mode_scan
  simp only
  split_ifs
  all_goals first
    | exact set_mode_ok_error _ _ _ _ _ _
    | (apply set_mode_ok_done
       simp only [List.all_append, h, Bool.true_and]
       rfl)

theorem set_mode_ok_all (env : Env) (msg : DBusMessage) (new_mode : Nat) (a : adapter) :
    set_mode_ok msg new_mode (set_mode env msg new_mode a) := by
  unfold set_mode
  simp only
  split
  · exact set_mode_ok_error _ _ _ _ _ _
  · split_ifs
    all_goals first
      | exact set_mode_ok_error _ _ _ _ _ _
      | (apply set_mode_ok_done; rfl)
      | (apply set_mode_ok_scan; rfl)

/-- C10, amended: every `set_mode` that returns a method return sets the
adapter's mode to the new mode and stores the new mode string
(`write_device_mode`), and none of the actions of the call is a signal: no
`PropertyChanged` is emitted by `set_mode` itself. -/
theorem set_mode_success_effects (env : Env) (msg : DBusMessage) (new_mode : Nat) (a : adapter)
    (h : (set_mode env msg new_mode a).val = some (.method_return msg [])) :
    (set_mode env msg new_mode a).adapter.mode = new_mode ∧
    Effect.write_device_mode (mode2str new_mode) ∈ (set_mode env msg new_mode a).out ∧
    (∀ e ∈ (set_mode env msg new_mode a).out, e.is_signal = false) := by
  obtain ⟨h1, h2, h3⟩ := set_mode_ok_all env msg new_mode a h
  refine ⟨h1, h2, ?_⟩
  intro e he
  have := List.all_eq_true.mp h3 e he
  simpa using this

/-- C10 amended, at the sample input of Scenario A. -/
theorem set_mode_success_effects_witness :
    (set_mode sample_env sample_mode_msg MODE_DISCOVERABLE sample_scenario_a).adapter.mode
      = MODE_DISCOVERABLE ∧
    Effect.write_device_mode (mode2str MODE_DISCOVERABLE) ∈
      (set_mode sample_env sample_mode_msg MODE_DISCOVERABLE sample_scenario_a).out ∧
    (∀ e ∈ (set_mode sample_env sample_mode_msg MODE_DISCOVERABLE sample_scenario_a).out,
      e.is_signal = false) :=
  set_mode_success_effects sample_env sample_mode_msg MODE_DISCOVERABLE sample_scenario_a
    (by decide)

/-! ## The agent's answer to a mode confirmation -/

/-- C11: when the agent answers a pending mode confirmation with an error,
`confirm_mode_cb` sends the original caller an error with exactly the agent's
error name and message; `set_mode` is not run: the adapter, its mode
included, is unchanged, and the only other action is the removal of the
request's disconnect watch, so no HCI command is issued. -/
theorem confirm_mode_cb_forwards_agent_error (env : Env) (e : DBusError) (req : mode_req)
    (a : adapter) (hset : e.is_set = true) :
    (confirm_mode_cb env (some e) req a).adapter = a ∧
    (confirm_mode_cb env (some e) req a).out
      = [.send (.error req.msg e.name (.lit e.message))] ++
        (if req.id ≠ 0 then [Effect.g_dbus_remove_watch req.id] else []) ∧
    (∀ x ∈ (confirm_mode_cb env (some e) req a).out, x.is_hci = false) := by
  unfold confirm_mode_cb
  simp only [hset, if_true, confirm_mode_cb_cleanup]
  refine ⟨by trivial, by trivial, ?_⟩
  intro x hx
  simp only [List.mem_append, List.mem_singleton] at hx
  rcases hx with hx | hx
  · subst hx; rfl
  · split at hx
    · simp only [List.mem_singleton] at hx
      subst hx; rfl
    · simp at hx

/-- C11, at a sample input: the agent rejects the request of Scenario A. -/
theorem confirm_mode_cb_forwards_agent_error_witness :
    (confirm_mode_cb sample_env
        (some { is_set := true, name := "org.bluez.Error.Rejected", message := "Rejected" })
        { msg := sample_mode_msg, mode := MODE_DISCOVERABLE, id := 12 } sample_scenario_a).adapter
      = sample_scenario_a ∧
    (confirm_mode_cb sample_env
        (some { is_set := true, name := "org.bluez.Error.Rejected", message := "Rejected" })
        { msg := sample_mode_msg, mode := MODE_DISCOVERABLE, id := 12 } sample_scenario_a).out
      = [.send (.error sample_mode_msg "org.bluez.Error.Rejected" (.lit "Rejected"))] ++
        (if (12 : Nat) ≠ 0 then [Effect.g_dbus_remove_watch 12] else []) ∧
    (∀ x ∈ (confirm_mode_cb sample_env
        (some { is_set := true, name := "org.bluez.Error.Rejected", message := "Rejected" })
        { msg := sample_mode_msg, mode := MODE_DISCOVERABLE, id := 12 } sample_scenario_a).out,
      x.is_hci = false) :=
  confirm_mode_cb_forwards_agent_error sample_env
    { is_set := true, name := "org.bluez.Error.Rejected", message := "Rejected" }
    { msg := sample_mode_msg, mode := MODE_DISCOVERABLE, id := 12 } sample_scenario_a rfl

/-! ## Sessions -/

theorem find_session_of_mem (sessions : List mode_req) (req : mode_req) (msg : DBusMessage)
    (h1 : one_session_per_sender sessions) (hreq : req ∈ sessions)
    (hmsg : msg.sender = req.msg.sender) :
    g_slist_find_custom sessions msg find_session = some req := by
  unfold g_slist_find_custom
  induction sessions with
  | nil => cases hreq
  | cons x xs ih =>
    unfold one_session_per_sender at h1
    rw [List.map_cons, List.nodup_cons] at h1
    rcases List.mem_cons.mp hreq with h | h
    · subst h
      simp [find_session, hmsg]
    · have hne : x.msg.sender ≠ msg.sender := by
        intro he
        apply h1.1
        rw [he, hmsg]
        exact List.mem_map.mpr ⟨req, h, rfl⟩
      rw [List.find?_cons_of_neg]
      · exact ih h1.2 h
      · simp [find_session, hne]

theorem no_session_after_erase (sessions : List mode_req) (req : mode_req) (msg : DBusMessage)
    (h1 : one_session_per_sender sessions) (hreq : req ∈ sessions)
    (hmsg : msg.sender = req.msg.sender) :
    g_slist_find_custom (sessions.erase req) msg find_session = none := by
  have hnd : sessions.Nodup := List.Nodup.of_map _ h1
  cases hf : g_slist_find_custom (sessions.erase req) msg find_session with
  | none => rfl
  | some r =>
    exfalso
    have hs := (find_session_isSome (sessions.erase req) msg).mp (by rw [hf]; rfl)
    obtain ⟨r', hr', hsender⟩ := hs
    have hmem : r' ∈ sessions := List.mem_of_mem_erase hr'
    have hne : r' ≠ req := fun he => by
      rw [he] at hr'
      exact (List.Nodup.mem_erase_iff hnd).mp hr' |>.1 rfl
    exact hne (List.inj_on_of_nodup_map h1 hmem hreq (by rw [hsender, hmsg]))

/-- The check "Mode already requested" keeps one session per sender. -/
theorem request_mode_one_session_per_sender (fuel : Nat) (env : Env) (msg : DBusMessage)
    (a : adapter) (r : Ret (Option Reply)) (h1 : one_session_per_sender a.sessions)
    (hr : request_mode fuel env msg a = some r) :
    one_session_per_sender r.adapter.sessions := by
  have key : ¬ (g_slist_find_custom a.sessions msg find_session).isSome = true →
      one_session_per_sender (a.sessions ++
        [{ msg := msg, mode := 0, id := 0 }]) := by
    intro hs
    rw [find_session_isSome] at hs
    unfold one_session_per_sender at *
    rw [List.map_append, List.nodup_append]
    refine ⟨h1, by simp, ?_⟩
    intro s hs1 hs2
    simp only [List.map_cons, List.map_nil, List.mem_singleton] at hs2
    obtain ⟨x, hx, hxs⟩ := List.mem_map.mp hs1
    exact hs ⟨x, hx, by rw [hxs, hs2]⟩
  have key' : ∀ (m id : Nat), ¬ (g_slist_find_custom a.sessions msg find_session).isSome = true →
      one_session_per_sender (a.sessions ++ [{ msg := msg, mode := m, id := id }]) := by
    intro m id hs
    have := key hs
    unfold one_session_per_sender at *
    simpa using this
  have hs1 : (if a.sessions = [] then { a with global_mode := a.mode } else a).sessions
      = a.sessions := by
    split <;> rfl
  unfold request_mode at hr
  split at hr
  · split at hr
    · simp at hr
    · split at hr
      · simp only [Option.some.injEq] at hr
        subst hr; exact h1
      · split at hr
        · simp only [Option.some.injEq] at hr
          subst hr; exact h1
        · split at hr
          · simp only [Option.some.injEq] at hr
            subst hr; exact h1
          · rename_i hs
            simp only at hr
            split_ifs at hr
            all_goals
              simp only [Option.some.injEq] at hr
              subst hr
              simp only [hs1]
              exact key' _ _ hs
  · simp only [Option.some.injEq] at hr
    subst hr; exact h1

/-- The first `session_exit` for a request removes it from the session list,
drops the two references and frees it, removing no watch; a second one for the
same request has no defined result. -/
theorem session_exit_once (freed : List mode_req) (req : mode_req) (a : adapter)
    (hlive : req ∉ freed) :
    session_exit freed req a
      = some ⟨freed ++ [req], { a with sessions := a.sessions.erase req },
          [.dbus_connection_unref, .dbus_message_unref req.msg]⟩ ∧
    session_exit (freed ++ [req]) req { a with sessions := a.sessions.erase req } = none := by
  unfold session_exit
  rw [if_neg hlive, if_pos (by simp)]
  exact ⟨rfl, rfl⟩

/-- `ReleaseMode` by the owner of a live session `req` returns a method return,
removes exactly `req` from the list and frees it; among its actions there is
no `g_dbus_remove_watch`, so the owner's disconnect watch stays registered, and
the `session_exit` that watch runs afterwards has no defined result. -/
theorem release_mode_frees_session (freed : List mode_req) (a : adapter) (req : mode_req)
    (msg : DBusMessage)
    (h1 : one_session_per_sender a.sessions) (hreq : req ∈ a.sessions)
    (hmsg : msg.sender = req.msg.sender) (hlive : req ∉ freed) :
    release_mode freed msg a
      = some ⟨(some (.method_return msg []), freed ++ [req]),
          { a with sessions := a.sessions.erase req },
          [.dbus_connection_unref, .dbus_message_unref req.msg]⟩ ∧
    session_exit (freed ++ [req]) req { a with sessions := a.sessions.erase req } = none := by
  have hfind := find_session_of_mem a.sessions req msg h1 hreq hmsg
  have hex := session_exit_once freed req a hlive
  refine ⟨?_, hex.2⟩
  unfold release_mode
  simp only [hfind, hex.1]

/-- After the removal of the sender's session, by the disconnect watch or by
`ReleaseMode`, a `ReleaseMode` by the same sender is answered with `Failed`
"No Mode to release" and changes nothing: the session list stays as the
removal left it and nothing is freed. -/
theorem release_mode_after_removal (freed : List mode_req) (a : adapter) (req : mode_req)
    (msg : DBusMessage)
    (h1 : one_session_per_sender a.sessions) (hreq : req ∈ a.sessions)
    (hmsg : msg.sender = req.msg.sender) :
    release_mode freed msg { a with sessions := a.sessions.erase req }
      = some ⟨(some (.error msg (ERROR_INTERFACE ++ ".Failed") (.lit "No Mode to release")),
          freed), { a with sessions := a.sessions.erase req }, []⟩ := by
  have hnone := no_session_after_erase a.sessions req msg h1 hreq hmsg
  unfold release_mode
  simp only [hnone]

/-- C12, at the failing input: `RequestMode("connectable")` by `:1.42` on the
Connectable adapter of Scenario A returns at once, adding the session
`sample_session` and registering its disconnect watch; `ReleaseMode` by
`:1.42` then returns a method return, empties the session list and frees the
session, its only actions being the two unrefs, so that the watch stays
registered; when `:1.42` disconnects, the watch runs `session_exit` on the
freed session: the second removal is not a no-op on the list but a call
without defined result. In the other order the claim holds: after the watch
has removed the session, `ReleaseMode` is answered with `Failed` "No Mode to
release" and the list stays empty. -/
theorem release_mode_then_disconnect_uses_freed_session :
    (request_mode 1 sample_env sample_connectable_msg sample_scenario_a).map
        (fun r => (r.val, r.adapter, r.out))
      = some (some (.method_return sample_connectable_msg []),
          { sample_scenario_a with sessions := [sample_session] },
          [.g_dbus_add_disconnect_watch ":1.42"]) ∧
    (release_mode [] sample_call { sample_scenario_a with sessions := [sample_session] }).map
        (fun r => (r.val, r.adapter, r.out))
      = some ((some (.method_return sample_call []), [sample_session]),
          { sample_scenario_a with sessions := [] },
          [.dbus_connection_unref, .dbus_message_unref sample_connectable_msg]) ∧
    (session_exit [sample_session] sample_session
        { sample_scenario_a with sessions := [] }).isNone = true ∧
    (session_exit [] sample_session { sample_scenario_a with sessions := [sample_session] }).map
        (fun r => (r.val, r.adapter, r.out))
      = some ([sample_session], { sample_scenario_a with sessions := [] },
          [.dbus_connection_unref, .dbus_message_unref sample_connectable_msg]) ∧
    (release_mode [sample_session] sample_call { sample_scenario_a with sessions := [] }).map
        (fun r => (r.val, r.adapter, r.out))
      = some ((some (.error sample_call (ERROR_INTERFACE ++ ".Failed")
            (.lit "No Mode to release")), [sample_session]),
          { sample_scenario_a with sessions := [] }, []) := by
  refine ⟨by decide, by decide, by decide, by decide, by decide⟩

/-! ## The pending-auth registry -/

/-- C19: registering a pending-auth request for address `dba` and type `type`
appends exactly one entry (that address and type, not replied) at the end of
the pending-auth list, the earlier entries being unchanged; the bonding in
flight gets `auth_active` 1, its other fields unchanged, exactly when its
address is `dba`; with no bonding in flight, or one for another address, the
bonding state is unchanged; no other field of the adapter changes. -/
theorem adapter_new_auth_request_registers (a : adapter) (dba : bdaddr_t) (type : auth_type_t) :
    (adapter_new_auth_request a dba type).adapter.auth_reqs
      = a.auth_reqs ++ [{ type := type, bdaddr := dba, replied := false, agent := none }] ∧
    (adapter_new_auth_request a dba type).val
      = { type := type, bdaddr := dba, replied := false, agent := none } ∧
    (∀ b, a.bonding = some b → b.bdaddr = dba →
      (adapter_new_auth_request a dba type).adapter.bonding
        = some { b with auth_active := 1 }) ∧
    (∀ b, a.bonding = some b → b.bdaddr ≠ dba →
      (adapter_new_auth_request a dba type).adapter.bonding = some b) ∧
    (a.bonding = none → (adapter_new_auth_request a dba type).adapter.bonding = none) ∧
    (adapter_new_auth_request a dba type).adapter
      = { a with auth_reqs := (adapter_new_auth_request a dba type).adapter.auth_reqs,
                 bonding := (adapter_new_auth_request a dba type).adapter.bonding } ∧
    (adapter_new_auth_request a dba type).out = [] := by
  cases hb : a.bonding with
  | none =>
    have key : adapter_new_auth_request a dba type
        = ⟨{ type := type, bdaddr := dba, replied := false, agent := none },
            { a with auth_reqs := a.auth_reqs ++
                [{ type := type, bdaddr := dba, replied := false, agent := none }] }, []⟩ := by
      unfold adapter_new_auth_request
      simp only [hb]
    rw [key]
    refine ⟨rfl, rfl, ?_, ?_, ?_, rfl, rfl⟩
    · intro b h; cases h
    · intro b h; cases h
    · intro _; exact hb
  | some b =>
    by_cases he : b.bdaddr = dba
    · have hc : bacmp dba b.bdaddr = 0 := by simp [bacmp, he]
      have key : adapter_new_auth_request a dba type
          = ⟨{ type := type, bdaddr := dba, replied := false, agent := none },
              { a with
                bonding := some { b with auth_active := 1 },
                auth_reqs := a.auth_reqs ++
                  [{ type := type, bdaddr := dba, replied := false, agent := none }] }, []⟩ := by
        unfold adapter_new_auth_request
        simp only [hb, hc, if_true]
      rw [key]
      refine ⟨rfl, rfl, ?_, ?_, ?_, rfl, rfl⟩
      · intro b' h _
        cases h; rfl
      · intro b' h hne
        cases h; exact absurd he hne
      · intro h; cases h
    · have hc : bacmp dba b.bdaddr ≠ 0 := by
        unfold bacmp
        have : dba ≠ b.bdaddr := fun h => he h.symm
        simp only [this, if_false]
        split <;> decide
      have key : adapter_new_auth_request a dba type
          = ⟨{ type := type, bdaddr := dba, replied := false, agent := none },
              { a with auth_reqs := a.auth_reqs ++
                  [{ type := type, bdaddr := dba, replied := false, agent := none }] }, []⟩ := by
        unfold adapter_new_auth_request
        simp only [hb, hc, if_false]
      rw [key]
      refine ⟨rfl, rfl, ?_, ?_, ?_, rfl, rfl⟩
      · intro b' h heq
        cases h; exact absurd heq he
      · intro b' h _
        cases h; exact hb
      · intro h; cases h

/-- C20, as stated, fails: cancelling a PIN-code entry that was not replied,
while the HCI device cannot be opened, sends no negative reply and leaves the
entry not replied. -/
theorem cancel_auth_request_open_fails_counterexample :
    (cancel_auth_request { sample_env with hci_open_dev := -1 }
      { type := .AUTH_TYPE_PINCODE, bdaddr := 0xAABBCCDDEEFF, replied := false, agent := none }
      0).2 = [.hci_open_dev 0] ∧
    (cancel_auth_request { sample_env with hci_open_dev := -1 }
      { type := .AUTH_TYPE_PINCODE, bdaddr := 0xAABBCCDDEEFF, replied := false, agent := none }
      0).1.replied = false := by
  decide

/-- C20, amended: cancelling a pending-auth entry sends the negative HCI reply
that matches its type (PIN code, user confirmation or passkey negative reply
addressed to the entry's address; nothing for the notify type) exactly when
the entry was not already replied and the HCI device can be opened, and the
entry is then marked replied; an entry already replied is left as it is with
nothing done; when the device cannot be opened nothing is sent and the entry
is left as it was. The function is handed the entry alone, so the list keeps
it. Cancelling twice sends at most one negative reply. -/
theorem cancel_auth_request_effects (env : Env) (auth : pending_auth_info) (dev_id : Nat) :
    (auth.replied = false → 0 ≤ env.hci_open_dev →
      cancel_auth_request env auth dev_id
        = ({ auth with replied := true },
           [.hci_open_dev dev_id] ++ negative_reply auth ++ [.hci_close_dev])) ∧
    (auth.replied = true → cancel_auth_request env auth dev_id = (auth, [])) ∧
    (auth.replied = false → env.hci_open_dev < 0 →
      cancel_auth_request env auth dev_id = (auth, [.hci_open_dev dev_id])) ∧
    (∀ env2 : Env,
      (((cancel_auth_request env auth dev_id).2 ++
        (cancel_auth_request env2 (cancel_auth_request env auth dev_id).1 dev_id).2).filter
          Effect.is_hci_send_cmd).length ≤ 1) := by
  have hneg : ∀ x : pending_auth_info,
      ((negative_reply x).filter Effect.is_hci_send_cmd).length ≤ 1 := by
    intro x
    unfold negative_reply
    split <;> simp [Effect.is_hci_send_cmd]
  have h1 : ∀ (e : Env) (x : pending_auth_info), x.replied = false → 0 ≤ e.hci_open_dev →
      cancel_auth_request e x dev_id
        = ({ x with replied := true },
           [.hci_open_dev dev_id] ++ negative_reply x ++ [.hci_close_dev]) := by
    intro e x hr ho
    unfold cancel_auth_request negative_reply
    simp only [hr, Bool.false_eq_true, if_false, not_lt.mpr ho]
  have h2 : ∀ (e : Env) (x : pending_auth_info), x.replied = true →
      cancel_auth_request e x dev_id = (x, []) := by
    intro e x hr
    unfold cancel_auth_request
    simp only [hr, if_true]
  have h3 : ∀ (e : Env) (x : pending_auth_info), x.replied = false → e.hci_open_dev < 0 →
      cancel_auth_request e x dev_id = (x, [.hci_open_dev dev_id]) := by
    intro e x hr ho
    unfold cancel_auth_request
    simp only [hr, Bool.false_eq_true, if_false, ho, if_true]
  refine ⟨h1 env auth, h2 env auth, h3 env auth, ?_⟩
  intro env2
  cases hr : auth.replied with
  | true =>
    rw [h2 env auth hr, h2 env2 auth hr]
    simp
  | false =>
    by_cases ho : env.hci_open_dev < 0
    · rw [h3 env auth hr ho]
      by_cases ho2 : env2.hci_open_dev < 0
      · rw [h3 env2 auth hr ho2]
        simp [Effect.is_hci_send_cmd]
      · rw [h1 env2 auth hr (not_lt.mp ho2)]
        simpa [List.filter_append, Effect.is_hci_send_cmd] using hneg auth
    · rw [h1 env auth hr (not_lt.mp ho)]
      rw [h2 env2 { auth with replied := true } rfl]
      simpa [List.filter_append, Effect.is_hci_send_cmd] using hneg auth

/-! ## set_mode fails without a trace -/

theorem set_mode_atomic_error (env : Env) (msg : DBusMessage) (a : adapter) (out : List Effect)
    (name : String) (text : ErrText)
    (h1 : out.any Effect.is_write_device_mode = false)
    (h2 : out.any Effect.is_scan_enable_write = false) :
    set_mode_atomic env msg a ⟨some (.error msg name text), a, out⟩ := by
  refine ⟨fun _ => ⟨rfl, h1⟩, ?_⟩
  intro h
  rw [h2] at h
  cases h

theorem set_mode_atomic_done (env : Env) (msg : DBusMessage) (new_mode : Nat) (a a' : adapter)
    (out : List Effect)
    (h2 : out.any Effect.is_scan_enable_write = true → 0 ≤ env.hci_send_req → env.status = 0) :
    set_mode_atomic env msg a (set_mode_done msg new_mode a' out) := by
  refine ⟨fun h => absurd rfl h, ?_⟩
  intro h hs hst
  exfalso
  apply hst
  apply h2 _ hs
  simpa [set_mode_done, List.any_append, Effect.is_scan_enable_write] using h

theorem set_mode_atomic_scan (env : Env) (msg : DBusMessage) (new_mode scan_enable : Nat)
    (a : adapter) (out : List Effect)
    (h1 : out.any Effect.is_write_device_mode = false)
    (h2 : out.any Effect.is_scan_enable_write = false) :
    set_mode_atomic env msg a (set_mode_scan env msg new_mode scan_enable a out) := by
  unfold set_mode_scan
  simp only
  split_ifs with c1 c2 c3 c4
  · exact set_mode_atomic_error _ _ _ _ _ _
      (by simp [List.any_append, h1, Effect.is_write_device_mode])
      (by simp [List.any_append, h2, Effect.is_scan_enable_write])
  · refine ⟨fun _ => ⟨rfl, by simp [List.any_append, h1, Effect.is_write_device_mode]⟩, ?_⟩
    intro _ hs _
    exact absurd c3 (not_lt.mpr hs)
  · refine ⟨fun _ => ⟨rfl, by simp [List.any_append, h1, Effect.is_write_device_mode]⟩, ?_⟩
    intro _ _ _
    rfl
  · apply set_mode_atomic_done
    intro _ _
    exact not_not.mp c4
  all_goals
    apply set_mode_atomic_done
    intro h
    simp [List.any_append, h2, Effect.is_scan_enable_write] at h

theorem set_mode_atomic_all (env : Env) (msg : DBusMessage) (new_mode : Nat) (a : adapter) :
    set_mode_atomic env msg a (set_mode env msg new_mode a) := by
  unfold set_mode
  simp only
  split
  · exact set_mode_atomic_error _ _ _ _ _ _ rfl rfl
  · split_ifs
    all_goals first
      | exact set_mode_atomic_error _ _ _ _ _ _ rfl rfl
      | (apply set_mode_atomic_scan <;> rfl)
      | (apply set_mode_atomic_done
         intro h
         simp [Effect.is_scan_enable_write] at h)

/-- C14: `set_mode` is atomic on failure. A mode that is none of Off,
Connectable, Discoverable, Limited is answered with `InvalidArguments`; a
command channel that cannot be opened with `NoSuchAdapter`; a scan-enable
write that the controller answers with a non-zero status with the `Failed`
error made from that status; and whenever the reply is not the method return
(these three cases included) the adapter, its mode included, is unchanged and
no mode is written to storage. -/
theorem set_mode_atomic_on_failure (env : Env) (msg : DBusMessage) (new_mode : Nat)
    (a : adapter) :
    (new_mode ≠ MODE_OFF ∧ new_mode ≠ MODE_CONNECTABLE ∧ new_mode ≠ MODE_DISCOVERABLE ∧
        new_mode ≠ MODE_LIMITED →
      set_mode env msg new_mode a = ⟨some (invalid_args msg), a, []⟩) ∧
    ((new_mode = MODE_OFF ∨ new_mode = MODE_CONNECTABLE ∨ new_mode = MODE_DISCOVERABLE ∨
        new_mode = MODE_LIMITED) → env.hci_open_dev < 0 →
      set_mode env msg new_mode a = ⟨some (no_such_adapter msg), a, [.hci_open_dev a.dev_id]⟩) ∧
    (∀ v, Effect.hci_send_req OGF_HOST_CTL OCF_WRITE_SCAN_ENABLE (.bytes [v]) ∈
        (set_mode env msg new_mode a).out →
      0 ≤ env.hci_send_req → env.status ≠ 0 →
      (set_mode env msg new_mode a).val
        = some (failed_strerror msg (env.bt_error env.status))) ∧
    ((set_mode env msg new_mode a).val ≠ some (.method_return msg []) →
      (set_mode env msg new_mode a).adapter = a ∧
      (set_mode env msg new_mode a).adapter.mode = a.mode ∧
      (∀ m, Effect.write_device_mode m ∉ (set_mode env msg new_mode a).out)) := by
  obtain ⟨hfail, hwrite⟩ := set_mode_atomic_all env msg new_mode a
  refine ⟨?_, ?_, ?_, ?_⟩
  · rintro ⟨h0, h1, h2, h3⟩
    unfold set_mode
    simp only [h0, h1, h2, h3, if_false, or_self]
  · intro hv ho
    unfold set_mode
    rcases hv with h | h | h | h
    · subst h
      simp only [if_true, ho]
    · subst h
      rw [if_neg (by decide), if_pos rfl]
      simp only [ho, if_true]
    · subst h
      rw [if_neg (by decide), if_neg (by decide), if_pos (Or.inl rfl)]
      simp only [ho, if_true]
    · subst h
      rw [if_neg (by decide), if_neg (by decide), if_pos (Or.inr rfl)]
      simp only [ho, if_true]
  · intro v hv hs hst
    apply hwrite _ hs hst
    rw [List.any_eq_true]
    exact ⟨_, hv, by simp [Effect.is_scan_enable_write]⟩
  · intro h
    obtain ⟨ha, hw⟩ := hfail h
    refine ⟨ha, by rw [ha], ?_⟩
    intro m hm
    have : (set_mode env msg new_mode a).out.any Effect.is_write_device_mode = true := by
      rw [List.any_eq_true]
      exact ⟨_, hm, rfl⟩
    rw [hw] at this
    cases this

/-! ## set_mode and the discoverable timer -/

theorem set_mode_scan_write_path (env : Env) (msg : DBusMessage) (new_mode scan_enable : Nat)
    (a : adapter) (out : List Effect) (hs : a.scan_mode ≠ scan_enable)
    (hout : out.any Effect.is_timer = false) :
    (set_mode_scan env msg new_mode scan_enable a out).val = some (.method_return msg []) →
      timer_untouched a (set_mode_scan env msg new_mode scan_enable a out) := by
  unfold set_mode_scan
  simp only [hs, ne_eq, not_false_eq_true, if_true]
  split_ifs
  all_goals
    intro hok
    first
    | (exfalso; simp [failed_strerror] at hok; done)
    | (refine ⟨?_, rfl⟩
       simp [set_mode_done, List.any_append, hout, Effect.is_timer])

theorem set_mode_scan_same_scan (env : Env) (msg : DBusMessage) (new_mode scan_enable : Nat)
    (a : adapter) (out : List Effect) (hs : a.scan_mode = scan_enable)
    (hinq : scan_enable &&& SCAN_INQUIRY ≠ 0) (hne : new_mode ≠ a.mode)
    (hout : out.any Effect.is_timer = false) :
    (set_mode_scan env msg new_mode scan_enable a out).val = some (.method_return msg []) →
      timer_cancelled a (set_mode_scan env msg new_mode scan_enable a out) := by
  have hnot : ∀ n, Effect.g_timeout_add n ∉ out := by
    intro n hn
    have : out.any Effect.is_timer = true := List.any_eq_true.mpr ⟨_, hn, rfl⟩
    rw [hout] at this
    cases this
  unfold set_mode_scan
  simp only [hs, ne_eq, not_true_eq_false, if_false, hinq, hne, not_false_eq_true, and_self,
    if_true]
  split_ifs with c1 c2 c3
  all_goals
    intro hok
    first
    | (exfalso; simp [failed_strerror] at hok; done)
    | (refine ⟨fun hid => ?_, fun hse => ?_⟩
       · first
         | (exfalso; exact hid (by assumption))
         | simp [set_mode_done]
       · first
         | (exfalso; exact hse c2.1)
         | (refine ⟨?_, rfl⟩
            intro n hn
            simp [set_mode_done] at hn
            exact hnot n hn))

/-- C15, as stated, fails: in Scenario A (mode Connectable, no session,
`discov_timeout` 180, no timer pending) the successful `set_mode` that enters
Discoverable writes the scan-enable value and handles no timer: none is
started, the handle stays 0. -/
theorem set_mode_starts_no_timer_counterexample :
    sample_scenario_a.mode = MODE_CONNECTABLE ∧ sample_scenario_a.sessions = [] ∧
    sample_scenario_a.discov_timeout = 180 ∧
    (set_mode sample_env sample_mode_msg MODE_DISCOVERABLE sample_scenario_a).val
      = some (.method_return sample_mode_msg []) ∧
    (set_mode sample_env sample_mode_msg MODE_DISCOVERABLE sample_scenario_a).out.any
      Effect.is_timer = false ∧
    (set_mode sample_env sample_mode_msg MODE_DISCOVERABLE sample_scenario_a).adapter.discov_timeout_id
      = 0 := by
  decide

/-- C15, amended: when a successful `set_mode` enters Discoverable or Limited
from a different mode and the adapter's `scan_mode` differs from the
scan-enable value of these modes, the call does not touch the discoverable
timer (nothing is cancelled or started, the handle is unchanged); when
`scan_mode` already has that value and the adapter is up, a pending timer is
cancelled and, with a session active, no timer is started. -/
theorem set_mode_timer_handling (env : Env) (msg : DBusMessage) (new_mode : Nat) (a : adapter)
    (hmode : new_mode = MODE_DISCOVERABLE ∨ new_mode = MODE_LIMITED)
    (hne : new_mode ≠ a.mode)
    (hok : (set_mode env msg new_mode a).val = some (.method_return msg [])) :
    (a.scan_mode ≠ SCAN_PAGE ||| SCAN_INQUIRY →
      (set_mode env msg new_mode a).out.any Effect.is_timer = false ∧
      (set_mode env msg new_mode a).adapter.discov_timeout_id = a.discov_timeout_id) ∧
    (a.scan_mode = SCAN_PAGE ||| SCAN_INQUIRY → a.up ≠ 0 →
      (a.discov_timeout_id ≠ 0 →
        Effect.g_source_remove a.discov_timeout_id ∈ (set_mode env msg new_mode a).out) ∧
      (a.sessions ≠ [] →
        ∀ n, Effect.g_timeout_add n ∉ (set_mode env msg new_mode a).out)) := by
  have hscan : (if new_mode = MODE_OFF then some SCAN_DISABLED
      else if new_mode = MODE_CONNECTABLE then some SCAN_PAGE
      else if new_mode = MODE_DISCOVERABLE ∨ new_mode = MODE_LIMITED then
        some (SCAN_PAGE ||| SCAN_INQUIRY)
      else none) = some (SCAN_PAGE ||| SCAN_INQUIRY) := by
    rcases hmode with h | h <;> subst h <;> rfl
  have h4 : SCAN_PAGE ||| SCAN_INQUIRY ≠ SCAN_DISABLED := by decide
  refine ⟨?_, ?_⟩
  · intro hs
    revert hok
    unfold set_mode
    simp only [hscan, h4, false_and, and_false, if_false]
    split_ifs with c1 c2 c3 c4
    all_goals first
      | (intro hok; exfalso; simp [no_such_adapter, failed_strerror] at hok; done)
      | (refine set_mode_scan_write_path env msg new_mode _ a _ hs ?_; rfl)
      | (intro _; exact ⟨rfl, rfl⟩)
  · intro hs hup
    have key : (set_mode env msg new_mode a).val = some (.method_return msg []) →
        timer_cancelled a (set_mode env msg new_mode a) := by
      unfold set_mode
      simp only [hscan, h4, false_and, and_false, if_false]
      split_ifs with c1 c2 c3 c4
      all_goals first
        | (intro hok; exfalso; simp [no_such_adapter, failed_strerror] at hok; done)
        | exact absurd c2.1 hup
        | (refine set_mode_scan_same_scan env msg new_mode _ a _ hs (by decide) hne ?_; rfl)
    exact ⟨(key hok).1, fun h => ((key hok).2 h).1⟩

/-- C15 amended, at the sample input of Scenario A. -/
theorem set_mode_timer_handling_witness :
    (sample_scenario_a.scan_mode ≠ SCAN_PAGE ||| SCAN_INQUIRY →
      (set_mode sample_env sample_mode_msg MODE_DISCOVERABLE sample_scenario_a).out.any
        Effect.is_timer = false ∧
      (set_mode sample_env sample_mode_msg MODE_DISCOVERABLE
        sample_scenario_a).adapter.discov_timeout_id = sample_scenario_a.discov_timeout_id) ∧
    (sample_scenario_a.scan_mode = SCAN_PAGE ||| SCAN_INQUIRY → sample_scenario_a.up ≠ 0 →
      (sample_scenario_a.discov_timeout_id ≠ 0 →
        Effect.g_source_remove sample_scenario_a.discov_timeout_id ∈
          (set_mode sample_env sample_mode_msg MODE_DISCOVERABLE sample_scenario_a).out) ∧
      (sample_scenario_a.sessions ≠ [] →
        ∀ n, Effect.g_timeout_add n ∉
          (set_mode sample_env sample_mode_msg MODE_DISCOVERABLE sample_scenario_a).out)) :=
  set_mode_timer_handling sample_env sample_mode_msg MODE_DISCOVERABLE sample_scenario_a
    (Or.inl rfl) (by decide) (by decide)

/-! ## Limited mode and the scan bits -/

/-- C13, as stated, fails: `adapter_start` leaves the sample adapter in mode
Connectable with the page-scan bit only; a successful `set_mode` to Limited
then leaves mode = Limited while `scan_mode` still lacks the inquiry-scan
bit. -/
theorem limited_without_inquiry_bit_counterexample :
    (adapter_start sample_env sample_down).val = 0 ∧
    (adapter_start sample_env sample_down).adapter.mode = MODE_CONNECTABLE ∧
    (adapter_start sample_env sample_down).adapter.scan_mode = SCAN_PAGE ∧
    (set_mode sample_env sample_mode_msg MODE_LIMITED
      (adapter_start sample_env sample_down).adapter).val
      = some (.method_return sample_mode_msg []) ∧
    (set_mode sample_env sample_mode_msg MODE_LIMITED
      (adapter_start sample_env sample_down).adapter).adapter.mode = MODE_LIMITED ∧
    (set_mode sample_env sample_mode_msg MODE_LIMITED
      (adapter_start sample_env sample_down).adapter).adapter.scan_mode &&& SCAN_INQUIRY = 0 := by
  decide

theorem set_mode_scan_scan_mode (env : Env) (msg : DBusMessage) (new_mode scan_enable : Nat)
    (a : adapter) (out : List Effect) :
    (set_mode_scan env msg new_mode scan_enable a out).adapter.scan_mode = a.scan_mode := by
  unfold set_mode_scan
  simp only
  split_ifs <;> rfl

theorem set_mode_scan_mode (env : Env) (msg : DBusMessage) (new_mode : Nat) (a : adapter) :
    (set_mode env msg new_mode a).adapter.scan_mode = a.scan_mode := by
  unfold set_mode
  simp only
  split
  · rfl
  · split_ifs
    all_goals first
      | rfl
      | exact set_mode_scan_scan_mode _ _ _ _ _ _

theorem set_mode_scan_limited (env : Env) (msg : DBusMessage) (a : adapter) (out : List Effect) :
    (set_mode_scan env msg MODE_LIMITED (SCAN_PAGE ||| SCAN_INQUIRY) a out).val
        = some (.method_return msg []) →
      a.scan_mode = SCAN_PAGE ||| SCAN_INQUIRY ∨
      Effect.hci_send_req OGF_HOST_CTL OCF_WRITE_SCAN_ENABLE
          (.bytes [SCAN_PAGE ||| SCAN_INQUIRY]) ∈
        (set_mode_scan env msg MODE_LIMITED (SCAN_PAGE ||| SCAN_INQUIRY) a out).out := by
  by_cases hs : a.scan_mode = SCAN_PAGE ||| SCAN_INQUIRY
  · exact fun _ => Or.inl hs
  · unfold set_mode_scan
    simp only [hs, ne_eq, not_false_eq_true, if_true]
    split_ifs
    all_goals
      intro hok
      first
      | (exfalso; simp [failed_strerror] at hok; done)
      | (right; simp [set_mode_done])

theorem load_stored_frame (env : Env) (probe : Bool) (keys : List String) (a : adapter)
    (out : List Effect) :
    ∃ ds, (load_stored env probe keys a out).1 = { a with devices := ds } := by
  induction keys generalizing a out with
  | nil => exact ⟨a.devices, rfl⟩
  | cons key keys ih =>
    unfold load_stored
    split
    · exact ih a out
    · split
      · exact ih a _
      · obtain ⟨ds, hds⟩ := ih { a with devices := a.devices ++ [_] } (out ++ _ ++ _)
        exact ⟨ds, hds⟩

theorem load_devices_frame (env : Env) (a : adapter) :
    ∃ ds, (load_devices env a).adapter = { a with devices := ds } := by
  unfold load_devices
  simp only
  obtain ⟨d1, h1⟩ := load_stored_frame env true env.stored_profiles a []
  obtain ⟨d2, h2⟩ := load_stored_frame env false env.stored_linkkeys
    (load_stored env true env.stored_profiles a []).1
    (load_stored env true env.stored_profiles a []).2
  rw [h2, h1]
  exact ⟨d2, rfl⟩

theorem adapter_up_mode_scan (env : Env) (a : adapter) :
    (adapter_up env a).adapter.mode = env.get_startup_mode ∧
    (adapter_up env a).adapter.scan_mode = env.get_startup_scan := by
  have key : ∀ x : adapter, (load_devices env x).adapter.mode = x.mode ∧
      (load_devices env x).adapter.scan_mode = x.scan_mode := by
    intro x
    obtain ⟨ds, h⟩ := load_devices_frame env x
    rw [h]
    exact ⟨rfl, rfl⟩
  unfold adapter_up
  simp only
  constructor
  · rw [(key _).1]
    split <;> rfl
  · rw [(key _).2]
    split <;> rfl

theorem set_property_mode_scan_mode (fuel : Nat) (env : Env) (msg : DBusMessage) (mode : String)
    (a : adapter) (r : Ret (Option Reply)) (h : set_property_mode fuel env msg mode a = some r) :
    r.adapter.scan_mode = a.scan_mode := by
  unfold set_property_mode at h
  split at h
  · simp at h
  · rename_i m _
    simp only at h
    split_ifs at h
    · simp only [Option.some.injEq] at h
      subst h; rfl
    · unfold confirm_mode at h
      simp only at h
      split at h
      · simp only [Option.some.injEq] at h
        subst h; rfl
      · split at h
        · simp at h
        · split_ifs at h <;> (simp only [Option.some.injEq] at h; subst h; rfl)
    · simp only [Option.some.injEq] at h
      subst h
      exact set_mode_scan_mode env msg m _

/-- C13, amended: `set_mode`, `SetProperty("Mode")` and the
discoverable-timeout handler never change the adapter's `scan_mode`;
`adapter_up` takes mode and `scan_mode` from the startup configuration and
`adapter_stop` leaves mode Off. A successful `set_mode` to Limited leaves
mode = Limited with `scan_mode` as it was: either `scan_mode` already has the
inquiry-scan and page-scan bits, or the value with both bits was written to
the controller, or the device was brought up instead; mode = Limited implies
both bits in `scan_mode` once that value is stored with
`adapter_set_scan_mode`. -/
theorem limited_scan_bits_after_controller_event (fuel : Nat) (env : Env) (msg : DBusMessage)
    (new_mode : Nat) (a : adapter) :
    (set_mode env msg new_mode a).adapter.scan_mode = a.scan_mode ∧
    ((set_mode env msg MODE_LIMITED a).val = some (.method_return msg []) →
      (set_mode env msg MODE_LIMITED a).adapter.mode = MODE_LIMITED ∧
      (a.scan_mode = SCAN_PAGE ||| SCAN_INQUIRY ∨
        Effect.hci_send_req OGF_HOST_CTL OCF_WRITE_SCAN_ENABLE
          (.bytes [SCAN_PAGE ||| SCAN_INQUIRY]) ∈ (set_mode env msg MODE_LIMITED a).out ∨
        Effect.ioctl_HCIDEVUP ∈ (set_mode env msg MODE_LIMITED a).out)) ∧
    ((adapter_set_scan_mode (set_mode env msg MODE_LIMITED a).adapter
        (SCAN_PAGE ||| SCAN_INQUIRY)).scan_mode &&& SCAN_INQUIRY ≠ 0 ∧
      (adapter_set_scan_mode (set_mode env msg MODE_LIMITED a).adapter
        (SCAN_PAGE ||| SCAN_INQUIRY)).scan_mode &&& SCAN_PAGE ≠ 0) ∧
    (∀ mode r, msg.args = [.string "Mode", .variant (.string mode)] →
      set_property fuel env msg a = some r → r.adapter.scan_mode = a.scan_mode) ∧
    ((discov_timeout_handler env a).adapter.scan_mode = a.scan_mode ∧
      (discov_timeout_handler env a).adapter.mode = a.mode) ∧
    ((adapter_up env a).adapter.mode = env.get_startup_mode ∧
      (adapter_up env a).adapter.scan_mode = env.get_startup_scan) ∧
    (adapter_stop env a).adapter.mode = MODE_OFF := by
  have h4 : SCAN_PAGE ||| SCAN_INQUIRY ≠ SCAN_DISABLED := by decide
  refine ⟨set_mode_scan_mode env msg new_mode a, ?_, ⟨?_, ?_⟩, ?_, ?_,
    adapter_up_mode_scan env a, rfl⟩
  · intro hok
    refine ⟨(set_mode_ok_all env msg MODE_LIMITED a hok).1, ?_⟩
    revert hok
    unfold set_mode
    rw [if_neg (by decide), if_neg (by decide), if_pos (Or.inr rfl)]
    simp only [h4, false_and, and_false, if_false]
    split_ifs
    all_goals first
      | (intro hok; exfalso; simp [no_such_adapter, failed_strerror] at hok; done)
      | (intro _; right; right; simp [set_mode_done]; done)
      | (intro hok
         rcases set_mode_scan_limited env msg a _ hok with h | h
         · exact Or.inl h
         · exact Or.inr (Or.inl h))
  · show (SCAN_PAGE ||| SCAN_INQUIRY) &&& SCAN_INQUIRY ≠ 0
    decide
  · show (SCAN_PAGE ||| SCAN_INQUIRY) &&& SCAN_PAGE ≠ 0
    decide
  · intro mode r hargs hr
    unfold set_property at hr
    simp only [hargs] at hr
    rw [if_neg (by decide), if_neg (by decide), if_neg (by decide)] at hr
    simp only [if_true] at hr
    exact set_property_mode_scan_mode fuel env msg mode a r hr
  · unfold discov_timeout_handler adapter_remove_discov_timeout
    simp only
    split_ifs <;> exact ⟨rfl, rfl⟩

/-! ## adapter_stop -/

theorem remove_bonding_teardown (env : Env) (address : String) (a : adapter) :
    (remove_bonding env none address a).out.all Effect.is_bonding_teardown = true := by
  unfold remove_bonding
  simp only [ite_self]
  simp only [List.all_append, Bool.and_eq_true]
  refine ⟨⟨⟨⟨⟨rfl, rfl⟩, rfl⟩, ?_⟩, rfl⟩, ?_⟩
  · split <;> rfl
  · split
    · split <;> rfl
    · rfl

theorem adapter_remove_device_exact (env : Env) (a : adapter) (i : Nat) (d : btd_device)
    (h : a.devices.get? i = some d) :
    (adapter_remove_device env a i).adapter = { a with devices := a.devices.eraseIdx i } ∧
    (adapter_remove_device env a i).out.all Effect.is_bonding_teardown = true := by
  unfold adapter_remove_device
  simp only [h, remove_bonding_adapter]
  refine ⟨trivial, ?_⟩
  simp only [List.all_append, Bool.and_eq_true]
  refine ⟨⟨⟨⟨rfl, remove_bonding_teardown env d.address a⟩, ?_⟩, ?_⟩, rfl⟩
  · split <;> rfl
  · split <;> rfl

theorem remove_pending_device_exact (env : Env) (b : bonding_request_info) (a : adapter) :
    (remove_pending_device env b a).adapter
      = { a with devices := devices_without_pending env b a } ∧
    (remove_pending_device env b a).out.all Effect.is_bonding_teardown = true := by
  unfold remove_pending_device devices_without_pending
  simp only
  cases hf : adapter_find_device a (env.ba2str b.bdaddr) with
  | none => exact ⟨rfl, rfl⟩
  | some i =>
    simp only
    cases hg : a.devices.get? i with
    | none => exact ⟨rfl, rfl⟩
    | some d =>
      simp only
      cases ht : d.temporary with
      | true =>
        simp only [if_true]
        exact adapter_remove_device_exact env a i d hg
      | false =>
        simp only [Bool.false_eq_true, if_false]
        refine ⟨?_, ?_⟩ <;> first | rfl | trivial

theorem reply_pending_bonding_exact (env : Env) (a : adapter) :
    (reply_pending_bonding env a).adapter
      = { a with devices := devices_after_stop env a, bonding := none } ∧
    (reply_pending_bonding env a).out.all Effect.is_bonding_teardown = true := by
  unfold reply_pending_bonding devices_after_stop
  cases hb : a.bonding with
  | none =>
    simp only
    refine ⟨?_, rfl⟩
    rw [← hb]
  | some b =>
    obtain ⟨ha, ho⟩ := remove_pending_device_exact env b a
    simp only [ha]
    refine ⟨trivial, ?_⟩
    simp only [List.all_append, Bool.and_eq_true]
    refine ⟨⟨⟨⟨rfl, ho⟩, rfl⟩, ?_⟩, rfl⟩
    split <;> rfl

theorem stop_discov_timeout_exact (a : adapter) :
    (stop_discov_timeout a).adapter = { a with discov_timeout_id := 0 } ∧
    (stop_discov_timeout a).out =
      (if a.discov_timeout_id ≠ 0 then [.g_source_remove a.discov_timeout_id] else []) := by
  unfold stop_discov_timeout
  by_cases h : a.discov_timeout_id ≠ 0
  · rw [if_pos h, if_pos h]
    exact ⟨rfl, rfl⟩
  · rw [if_neg h, if_neg h]
    refine ⟨?_, rfl⟩
    have h0 : a.discov_timeout_id = 0 := by
      by_contra hc
      exact h hc
    show a = { a with discov_timeout_id := 0 }
    rw [← h0]

theorem reply_pending_discovery_cancel_exact (a : adapter) :
    (reply_pending_discovery_cancel a).adapter = { a with discovery_cancel := none } ∧
    (reply_pending_discovery_cancel a).out =
      (match a.discovery_cancel with
       | some m => [.send (.method_return m [])]
       | none => []) := by
  unfold reply_pending_discovery_cancel
  cases h : a.discovery_cancel with
  | none =>
    refine ⟨?_, rfl⟩
    show a = { a with discovery_cancel := none }
    rw [← h]
  | some m => exact ⟨rfl, rfl⟩

theorem reply_pending_discovery_frame (env : Env) (h : cancel_helper_ok env.cancel_discovery)
    (a : adapter) :
    ∃ fd dt, (reply_pending_discovery env a).adapter
      = { a with found_devices := fd, discov_type := dt } := by
  unfold reply_pending_discovery
  split_ifs
  · exact ⟨_, _, h.1 a⟩
  · exact ⟨a.found_devices, a.discov_type, rfl⟩
  · exact ⟨a.found_devices, a.discov_type, rfl⟩

theorem reply_pending_periodic_frame (env : Env)
    (h : cancel_helper_ok env.cancel_periodic_discovery) (a : adapter) :
    ∃ fd dt, (reply_pending_periodic env a).adapter
      = { a with found_devices := fd, discov_type := dt } := by
  unfold reply_pending_periodic
  split_ifs
  · exact ⟨_, _, h.1 a⟩
  · exact ⟨a.found_devices, a.discov_type, rfl⟩

theorem stop_discov_requestor_exact (a : adapter) :
    (stop_discov_requestor a).adapter =
      { a with discov_listener := (if a.discov_requestor.isSome then 0 else a.discov_listener),
               discov_requestor := none } ∧
    (stop_discov_requestor a).out =
      (if a.discov_requestor.isSome then [.g_dbus_remove_watch a.discov_listener] else []) := by
  unfold stop_discov_requestor
  cases h : a.discov_requestor with
  | none =>
    refine ⟨?_, rfl⟩
    show a = { a with discov_listener := a.discov_listener, discov_requestor := none }
    rw [← h]
  | some s => exact ⟨rfl, rfl⟩

theorem stop_pdiscov_requestor_exact (a : adapter) :
    (stop_pdiscov_requestor a).adapter =
      { a with pdiscov_listener := (if a.pdiscov_requestor.isSome then 0 else a.pdiscov_listener),
               pdiscov_requestor := none } ∧
    (stop_pdiscov_requestor a).out =
      (if a.pdiscov_requestor.isSome then [.g_dbus_remove_watch a.pdiscov_listener] else []) := by
  unfold stop_pdiscov_requestor
  cases h : a.pdiscov_requestor with
  | none =>
    refine ⟨?_, rfl⟩
    show a = { a with pdiscov_listener := a.pdiscov_listener, pdiscov_requestor := none }
    rw [← h]
  | some s => exact ⟨rfl, rfl⟩

/-- The adapter `adapter_stop` leaves, field by field. -/
theorem adapter_stop_exact (env : Env) (a : adapter)
    (hd : cancel_helper_ok env.cancel_discovery)
    (hp : cancel_helper_ok env.cancel_periodic_discovery) :
    (adapter_stop env a).val = 0 ∧
    (adapter_stop env a).adapter =
      { a with
        discov_timeout_id := 0,
        devices := devices_after_stop env a,
        bonding := none,
        discovery_cancel := none,
        discov_listener := (if a.discov_requestor.isSome then 0 else a.discov_listener),
        discov_requestor := none,
        pdiscov_listener := (if a.pdiscov_requestor.isSome then 0 else a.pdiscov_listener),
        pdiscov_requestor := none,
        found_devices := [], oor_devices := [], auth_reqs := [], active_conn := [],
        up := 0, scan_mode := SCAN_DISABLED, mode := MODE_OFF, discov_active := 0,
        pdiscov_active := 0, pinq_idle := 0, discov_type := DISCOVER_TYPE_NONE } := by
  refine ⟨rfl, ?_⟩
  have h0 := (stop_discov_timeout_exact a).1
  have h1 : ∀ x, x = { a with discov_timeout_id := 0 } →
      (reply_pending_bonding env x).adapter = stopping env a a.found_devices a.discov_type
        a.discovery_cancel := by
    intro x hx
    subst hx
    refine Eq.trans (reply_pending_bonding_exact env { a with discov_timeout_id := 0 }).1 ?_
    rfl
  have h2 : ∀ x, x = stopping env a a.found_devices a.discov_type a.discovery_cancel →
      (reply_pending_discovery_cancel x).adapter
        = stopping env a a.found_devices a.discov_type none := by
    intro x hx
    subst hx
    refine Eq.trans (reply_pending_discovery_cancel_exact
      (stopping env a a.found_devices a.discov_type a.discovery_cancel)).1 ?_
    rfl
  have h3 : ∀ x fd dt, x = stopping env a fd dt none →
      ∃ fd1 dt1, (reply_pending_discovery env x).adapter = stopping env a fd1 dt1 none := by
    intro x fd dt hx
    subst hx
    obtain ⟨fd1, dt1, e⟩ := reply_pending_discovery_frame env hd (stopping env a fd dt none)
    exact ⟨fd1, dt1, e.trans rfl⟩
  have h4 : ∀ x fd dt, x = stopping env a fd dt none →
      ∃ fd1 dt1, (reply_pending_periodic env x).adapter = stopping env a fd1 dt1 none := by
    intro x fd dt hx
    subst hx
    obtain ⟨fd1, dt1, e⟩ := reply_pending_periodic_frame env hp (stopping env a fd dt none)
    exact ⟨fd1, dt1, e.trans rfl⟩
  have h5 : ∀ x fd dt, x = stopping env a fd dt none →
      (stop_reset (stop_pdiscov_requestor (stop_discov_requestor x).adapter).adapter).adapter =
      { a with
        discov_timeout_id := 0,
        devices := devices_after_stop env a,
        bonding := none,
        discovery_cancel := none,
        discov_listener := (if a.discov_requestor.isSome then 0 else a.discov_listener),
        discov_requestor := none,
        pdiscov_listener := (if a.pdiscov_requestor.isSome then 0 else a.pdiscov_listener),
        pdiscov_requestor := none,
        found_devices := [], oor_devices := [], auth_reqs := [], active_conn := [],
        up := 0, scan_mode := SCAN_DISABLED, mode := MODE_OFF, discov_active := 0,
        pdiscov_active := 0, pinq_idle := 0, discov_type := DISCOVER_TYPE_NONE } := by
    intro x fd dt hx
    subst hx
    have e5 := (stop_discov_requestor_exact (stopping env a fd dt none)).1
    have e6 := (stop_pdiscov_requestor_exact
      (stop_discov_requestor (stopping env a fd dt none)).adapter).1
    rw [e6, e5]
    rfl
  obtain ⟨fd3, dt3, e3⟩ := h3 _ _ _ (h2 _ (h1 _ h0))
  obtain ⟨fd4, dt4, e4⟩ := h4 _ _ _ e3
  exact h5 _ _ _ e4

theorem sample_cancel_helpers_ok :
    cancel_helper_ok sample_env.cancel_discovery ∧
    cancel_helper_ok sample_env.cancel_periodic_discovery := by
  refine ⟨⟨fun x => rfl, ?_⟩, ⟨fun x => rfl, ?_⟩⟩
  · intro x e he
    simp only [sample_env, List.mem_cons, List.mem_singleton, List.not_mem_nil, or_false] at he
    rcases he with h | h <;> subst h <;> rfl
  · intro x e he
    simp only [sample_env, List.mem_cons, List.mem_singleton, List.not_mem_nil, or_false] at he
    rcases he with h | h <;> subst h <;> rfl

theorem mode_off_signal_not_teardown (path : String) :
    (mode_off_signal path).is_bonding_teardown = false := by
  show (ADAPTER_INTERFACE == DEVICE_INTERFACE) = false
  decide

theorem remove_bonding_out_timer (env : Env) (address : String) (a : adapter) (t : Nat)
    (bo : Option bonding_request_info) :
    (remove_bonding env none address { a with discov_timeout_id := t, bonding := bo }).out
      = (remove_bonding env none address a).out := by
  unfold remove_bonding
  simp only [ite_self]
  rfl

theorem adapter_remove_device_out_timer (env : Env) (a : adapter) (i : Nat) (t : Nat)
    (bo : Option bonding_request_info) :
    (adapter_remove_device env { a with discov_timeout_id := t, bonding := bo } i).out
      = (adapter_remove_device env a i).out := by
  unfold adapter_remove_device
  show (match a.devices.get? i with
    | none => _
    | some d => _ : Ret Unit).out = _
  cases a.devices.get? i with
  | none => rfl
  | some d =>
    simp only
    rw [remove_bonding_out_timer]

theorem remove_pending_device_out_timer (env : Env) (b : bonding_request_info) (a : adapter)
    (t : Nat) (bo : Option bonding_request_info) :
    (remove_pending_device env b { a with discov_timeout_id := t, bonding := bo }).out
      = (remove_pending_device env b a).out := by
  unfold remove_pending_device
  simp only
  show (match adapter_find_device a (env.ba2str b.bdaddr) with
    | none => _
    | some device => _ : Ret Unit).out = _
  cases adapter_find_device a (env.ba2str b.bdaddr) with
  | none => rfl
  | some i =>
    simp only
    show (match a.devices.get? i with
      | none => _
      | some d => _ : Ret Unit).out = _
    cases a.devices.get? i with
    | none => rfl
    | some d =>
      simp only
      split_ifs
      · exact adapter_remove_device_out_timer env a i t bo
      · rfl

theorem reply_pending_bonding_out_timer (env : Env) (a : adapter) :
    (reply_pending_bonding env { a with discov_timeout_id := 0 }).out
      = (reply_pending_bonding env a).out := by
  unfold reply_pending_bonding
  show (match a.bonding with
    | some b => _
    | none => _ : Ret Unit).out = _
  cases hb : a.bonding with
  | none => rfl
  | some b =>
    simp only
    have h := remove_pending_device_out_timer env b a 0 a.bonding
    rw [hb] at h
    rw [h]

/-- The actions of `adapter_stop`, in order, in terms of the adapter it is
called on. -/
theorem adapter_stop_out (env : Env) (a : adapter)
    (hd : cancel_helper_ok env.cancel_discovery)
    (hp : cancel_helper_ok env.cancel_periodic_discovery) :
    ∃ fd dt, (adapter_stop env a).out =
      (if a.discov_timeout_id ≠ 0 then [Effect.g_source_remove a.discov_timeout_id] else []) ++
      (reply_pending_bonding env a).out ++
      (match a.discovery_cancel with
       | some m => [Effect.send (.method_return m [])]
       | none => []) ++
      (if a.discov_active ≠ 0 then
        [Effect.emit_signal a.path ADAPTER_INTERFACE "DiscoveryCompleted" []] ++
        (if a.discov_requestor.isSome then
          (env.cancel_discovery (stopping env a a.found_devices a.discov_type none)).out
         else [])
       else []) ++
      (if a.pdiscov_active ≠ 0 ∧ a.pdiscov_requestor.isSome then
        (env.cancel_periodic_discovery (stopping env a fd dt none)).out
       else []) ++
      (if a.discov_requestor.isSome then [Effect.g_dbus_remove_watch a.discov_listener]
       else []) ++
      (if a.pdiscov_requestor.isSome then [Effect.g_dbus_remove_watch a.pdiscov_listener]
       else []) ++
      [mode_off_signal a.path] := by
  unfold adapter_stop reply_pending_requests
  simp only
  generalize h0 : (stop_discov_timeout a).adapter = x0
  generalize h1 : (reply_pending_bonding env x0).adapter = x1
  generalize h2 : (reply_pending_discovery_cancel x1).adapter = x2
  generalize h3 : (reply_pending_discovery env x2).adapter = x3
  generalize h4 : (reply_pending_periodic env x3).adapter = x4
  generalize h5 : (stop_discov_requestor x4).adapter = x5
  generalize h6 : (stop_pdiscov_requestor x5).adapter = x6
  have e0 : x0 = { a with discov_timeout_id := 0 } := by
    rw [← h0]
    exact (stop_discov_timeout_exact a).1
  subst e0
  have e1 : x1 = stopping env a a.found_devices a.discov_type a.discovery_cancel := by
    rw [← h1]
    exact (reply_pending_bonding_exact env { a with discov_timeout_id := 0 }).1.trans rfl
  subst e1
  have e2 : x2 = stopping env a a.found_devices a.discov_type none := by
    rw [← h2]
    exact (reply_pending_discovery_cancel_exact
      (stopping env a a.found_devices a.discov_type a.discovery_cancel)).1.trans rfl
  subst e2
  obtain ⟨fd3, dt3, e3⟩ := reply_pending_discovery_frame env hd
    (stopping env a a.found_devices a.discov_type none)
  have e3 : x3 = stopping env a fd3 dt3 none := by
    rw [← h3]
    exact e3.trans rfl
  subst e3
  obtain ⟨fd4, dt4, e4⟩ := reply_pending_periodic_frame env hp (stopping env a fd3 dt3 none)
  have e4 : x4 = stopping env a fd4 dt4 none := by
    rw [← h4]
    exact e4.trans rfl
  subst e4
  have e5 : x5.path = a.path := by
    rw [← h5, (stop_discov_requestor_exact (stopping env a fd4 dt4 none)).1]
    rfl
  have e5r : x5.pdiscov_requestor = a.pdiscov_requestor := by
    rw [← h5, (stop_discov_requestor_exact (stopping env a fd4 dt4 none)).1]
    rfl
  have e5l : x5.pdiscov_listener = a.pdiscov_listener := by
    rw [← h5, (stop_discov_requestor_exact (stopping env a fd4 dt4 none)).1]
    rfl
  have e6 : x6.path = a.path := by
    rw [← h6, (stop_pdiscov_requestor_exact x5).1]
    exact e5
  refine ⟨fd3, dt3, ?_⟩
  have p0 := (stop_discov_timeout_exact a).2
  have p1 := reply_pending_bonding_out_timer env a
  have p2 : (reply_pending_discovery_cancel
        (stopping env a a.found_devices a.discov_type a.discovery_cancel)).out =
      (match a.discovery_cancel with
       | some m => [Effect.send (.method_return m [])]
       | none => []) :=
    (reply_pending_discovery_cancel_exact
      (stopping env a a.found_devices a.discov_type a.discovery_cancel)).2.trans rfl
  have p3 : (reply_pending_discovery env (stopping env a a.found_devices a.discov_type none)).out =
      (if a.discov_active ≠ 0 then
        [Effect.emit_signal a.path ADAPTER_INTERFACE "DiscoveryCompleted" []] ++
        (if a.discov_requestor.isSome then
          (env.cancel_discovery (stopping env a a.found_devices a.discov_type none)).out
         else [])
       else []) := by
    unfold reply_pending_discovery
    show (if a.discov_active ≠ 0 then _ else _ : Ret Unit).out = _
    by_cases c1 : a.discov_active ≠ 0
    · rw [if_pos c1, if_pos c1]
      show (if a.discov_requestor.isSome then _ else _ : Ret Unit).out = _
      by_cases c2 : a.discov_requestor.isSome
      · rw [if_pos c2, if_pos c2]
        rfl
      · rw [if_neg c2, if_neg c2]
        rfl
    · rw [if_neg c1, if_neg c1]
  have p4 : (reply_pending_periodic env (stopping env a fd3 dt3 none)).out =
      (if a.pdiscov_active ≠ 0 ∧ a.pdiscov_requestor.isSome then
        (env.cancel_periodic_discovery (stopping env a fd3 dt3 none)).out
       else []) := by
    unfold reply_pending_periodic
    show (if a.pdiscov_active ≠ 0 ∧ a.pdiscov_requestor.isSome then _ else _ : Ret Unit).out = _
    by_cases c1 : a.pdiscov_active ≠ 0 ∧ a.pdiscov_requestor.isSome
    · rw [if_pos c1, if_pos c1]
    · rw [if_neg c1, if_neg c1]
  have p5 : (stop_discov_requestor (stopping env a fd4 dt4 none)).out =
      (if a.discov_requestor.isSome then [Effect.g_dbus_remove_watch a.discov_listener]
       else []) :=
    (stop_discov_requestor_exact (stopping env a fd4 dt4 none)).2.trans rfl
  have p6 : (stop_pdiscov_requestor x5).out =
      (if a.pdiscov_requestor.isSome then [Effect.g_dbus_remove_watch a.pdiscov_listener]
       else []) := by
    rw [(stop_pdiscov_requestor_exact x5).2, e5r, e5l]
  have p7 : (stop_reset x6).out = [mode_off_signal a.path] := by
    unfold stop_reset mode_off_signal
    simp only [e6]
  rw [p0, p1, p2, p3, p4, p5, p6, p7]
  simp only [List.append_assoc]

/-! ## C18: the state adapter_stop leaves -/

/-- C18, as stated, fails: `create_bonding` on the sample adapter leaves a
bonding in flight whose device, temporary, is the one device of the list;
`adapter_stop` on that adapter returns 0 and leaves the device list empty. -/
theorem adapter_stop_removes_pending_device_counterexample :
    sample_pairing.bonding.isSome = true ∧
    sample_pairing.devices.length = 1 ∧
    (adapter_stop sample_env_pairing sample_pairing).val = 0 ∧
    (adapter_stop sample_env_pairing sample_pairing).adapter.devices = [] ∧
    (adapter_stop sample_env_pairing sample_pairing).adapter.devices ≠ sample_pairing.devices := by
  decide

/-- C18, amended: for every adapter state, after `adapter_stop`: up = 0,
mode = Off, scan_mode = disabled, discov_active = pdiscov_active = 0,
discovery type = none, no bonding in flight, no stored discovery-cancel
request, no discovery or periodic-discovery requestor, empty found-device,
out-of-range, pending-auth and active-connection lists, and no discoverable
timer pending; the adapter's identity (device index, address, object path) is
unchanged; the device list is unchanged when no bonding was in flight, and
otherwise it is the list less the device of that bonding when that device is
in the list and is temporary; `adapter_stop` returns 0. The two cancel helpers
of the other file change the found-device list and the discovery type only. -/
theorem adapter_stop_resets_transient_state (env : Env) (a : adapter)
    (hd : cancel_helper_ok env.cancel_discovery)
    (hp : cancel_helper_ok env.cancel_periodic_discovery) :
    (adapter_stop env a).val = 0 ∧
    (adapter_stop env a).adapter.up = 0 ∧
    (adapter_stop env a).adapter.mode = MODE_OFF ∧
    (adapter_stop env a).adapter.scan_mode = SCAN_DISABLED ∧
    (adapter_stop env a).adapter.discov_active = 0 ∧
    (adapter_stop env a).adapter.pdiscov_active = 0 ∧
    (adapter_stop env a).adapter.discov_type = DISCOVER_TYPE_NONE ∧
    (adapter_stop env a).adapter.bonding = none ∧
    (adapter_stop env a).adapter.discovery_cancel = none ∧
    (adapter_stop env a).adapter.discov_requestor = none ∧
    (adapter_stop env a).adapter.pdiscov_requestor = none ∧
    (adapter_stop env a).adapter.found_devices = [] ∧
    (adapter_stop env a).adapter.oor_devices = [] ∧
    (adapter_stop env a).adapter.auth_reqs = [] ∧
    (adapter_stop env a).adapter.active_conn = [] ∧
    (adapter_stop env a).adapter.discov_timeout_id = 0 ∧
    (adapter_stop env a).adapter.dev_id = a.dev_id ∧
    (adapter_stop env a).adapter.address = a.address ∧
    (adapter_stop env a).adapter.path = a.path ∧
    (a.bonding = none → (adapter_stop env a).adapter.devices = a.devices) ∧
    (∀ b, a.bonding = some b →
      (adapter_stop env a).adapter.devices =
        (match adapter_find_device a (env.ba2str b.bdaddr) with
         | none => a.devices
         | some i =>
           match a.devices.get? i with
           | none => a.devices
           | some d => if d.temporary then a.devices.eraseIdx i else a.devices)) := by
  obtain ⟨hv, ha⟩ := adapter_stop_exact env a hd hp
  rw [ha]
  refine ⟨hv, rfl, rfl, rfl, rfl, rfl, rfl, rfl, rfl, rfl, rfl, rfl, rfl, rfl, rfl, rfl, rfl, rfl,
    rfl, ?_, ?_⟩
  · intro hb
    show devices_after_stop env a = a.devices
    unfold devices_after_stop
    rw [hb]
  · intro b hb
    show devices_after_stop env a = _
    unfold devices_after_stop devices_without_pending
    rw [hb]

/-- C18 amended, at the adapter with a bonding in flight. -/
theorem adapter_stop_resets_transient_state_witness :
    cancel_helper_ok sample_env_pairing.cancel_discovery ∧
    cancel_helper_ok sample_env_pairing.cancel_periodic_discovery ∧
    (adapter_stop sample_env_pairing sample_pairing).adapter.bonding = none ∧
    (adapter_stop sample_env_pairing sample_pairing).adapter.path = sample_pairing.path :=
  ⟨sample_cancel_helpers_ok.1, sample_cancel_helpers_ok.2,
    (adapter_stop_resets_transient_state sample_env_pairing sample_pairing
      sample_cancel_helpers_ok.1 sample_cancel_helpers_ok.2).2.2.2.2.2.2.2.1,
    (adapter_stop_resets_transient_state sample_env_pairing sample_pairing
      sample_cancel_helpers_ok.1 sample_cancel_helpers_ok.2).2.2.2.2.2.2.2.2.2.2.2.2.2.2.2.2.2.2.1⟩

/-! ## The actions of adapter_stop -/

/-- All actions of `adapter_stop` but the last are actions of the bonding
teardown (the removal of a timer or a watch among them), HCI actions of the
cancel helpers, the stored cancel reply or `DiscoveryCompleted`; the last is
the signal for mode "off". -/
theorem adapter_stop_out_last (env : Env) (a : adapter)
    (hd : cancel_helper_ok env.cancel_discovery)
    (hp : cancel_helper_ok env.cancel_periodic_discovery) :
    ∃ pre, (adapter_stop env a).out = pre ++ [mode_off_signal a.path] ∧
      ∀ e, e ∈ pre → e.is_bonding_teardown = true ∨ e.is_hci = true ∨
        (∃ m, e = .send (.method_return m [])) ∨
        e = .emit_signal a.path ADAPTER_INTERFACE "DiscoveryCompleted" [] := by
  obtain ⟨fd, dt, ho⟩ := adapter_stop_out env a hd hp
  refine ⟨_, ho, ?_⟩
  intro e h
  simp only [List.mem_append] at h
  rcases h with (((((h | h) | h) | h) | h) | h) | h
  · split_ifs at h
    · simp only [List.mem_singleton] at h
      subst h
      exact Or.inl rfl
    · simp at h
  · exact Or.inl (List.all_eq_true.mp (reply_pending_bonding_exact env a).2 _ h)
  · split at h
    · simp only [List.mem_singleton] at h
      exact Or.inr (Or.inr (Or.inl ⟨_, h⟩))
    · simp at h
  · split_ifs at h
    · simp only [List.mem_append, List.mem_singleton] at h
      rcases h with h | h
      · exact Or.inr (Or.inr (Or.inr h))
      · exact Or.inr (Or.inl (hd.2 _ _ h))
    · simp only [List.mem_append, List.mem_singleton, List.not_mem_nil, or_false] at h
      exact Or.inr (Or.inr (Or.inr h))
    · simp at h
  · split_ifs at h
    · exact Or.inr (Or.inl (hp.2 _ _ h))
    · simp at h
  · split_ifs at h
    · simp only [List.mem_singleton] at h
      subst h
      exact Or.inl rfl
    · simp at h
  · split_ifs at h
    · simp only [List.mem_singleton] at h
      subst h
      exact Or.inl rfl
    · simp at h

theorem adapter_stop_out_no_timeout_write (env : Env) (a : adapter)
    (hd : cancel_helper_ok env.cancel_discovery)
    (hp : cancel_helper_ok env.cancel_periodic_discovery) (t : Nat) :
    Effect.write_discoverable_timeout t ∉ (adapter_stop env a).out := by
  obtain ⟨pre, ho, hpre⟩ := adapter_stop_out_last env a hd hp
  rw [ho]
  intro h
  simp only [List.mem_append, List.mem_singleton] at h
  rcases h with h | h
  · rcases hpre _ h with h1 | h1 | ⟨m, h1⟩ | h1
    · simp [Effect.is_bonding_teardown] at h1
    · simp [Effect.is_hci] at h1
    · simp at h1
    · simp at h1
  · simp [mode_off_signal] at h

theorem adapter_stop_mode_off_once (env : Env) (a : adapter)
    (hd : cancel_helper_ok env.cancel_discovery)
    (hp : cancel_helper_ok env.cancel_periodic_discovery) :
    (adapter_stop env a).out.count (mode_off_signal a.path) = 1 := by
  obtain ⟨pre, ho, hpre⟩ := adapter_stop_out_last env a hd hp
  rw [ho, List.count_append, List.count_singleton_self]
  have h0 : pre.count (mode_off_signal a.path) = 0 := by
    apply List.count_eq_zero.mpr
    intro h
    rcases hpre _ h with h1 | h1 | ⟨m, h1⟩ | h1
    · rw [mode_off_signal_not_teardown] at h1
      exact Bool.false_ne_true h1
    · simp [Effect.is_hci, mode_off_signal] at h1
    · simp [mode_off_signal] at h1
    · simp [mode_off_signal] at h1
  rw [h0]

/-! ## C16: the discoverable timeout -/

/-- C16: for every adapter whose address is valid and every `T`,
`set_discoverable_timeout(T)` returns the method return and writes `T` to
storage (`write_discoverable_timeout`, once, with `T`); a following
`GetProperties` returns a method return whose entry "DiscoverableTimeout" is
`T`; and `adapter_stop` leaves the in-memory timeout as it is and writes no
timeout to storage. The two cancel helpers of the other file change the
found-device list and the discovery type only and their actions are HCI
actions. -/
theorem set_discoverable_timeout_round_trip (env : Env) (msg msg1 : DBusMessage) (T : Nat)
    (a : adapter) (haddr : 0 ≤ env.check_address a.address)
    (hd : cancel_helper_ok env.cancel_discovery)
    (hp : cancel_helper_ok env.cancel_periodic_discovery) :
    (set_discoverable_timeout env msg T a).val = some (.method_return msg []) ∧
    (set_discoverable_timeout env msg T a).adapter.discov_timeout = T ∧
    Effect.write_discoverable_timeout T ∈ (set_discoverable_timeout env msg T a).out ∧
    (∀ t, Effect.write_discoverable_timeout t ∈ (set_discoverable_timeout env msg T a).out →
      t = T) ∧
    (∃ args, (get_properties env msg1 (set_discoverable_timeout env msg T a).adapter).val
        = some (.method_return msg1 args) ∧
      DBusArg.dict_entry "DiscoverableTimeout" (.uint32 T) ∈ args ∧
      ∀ v, DBusArg.dict_entry "DiscoverableTimeout" v ∈ args → v = .uint32 T) ∧
    (adapter_stop env (set_discoverable_timeout env msg T a).adapter).adapter.discov_timeout
      = T ∧
    (∀ x, (adapter_stop env x).adapter.discov_timeout = x.discov_timeout ∧
      ∀ t, Effect.write_discoverable_timeout t ∉ (adapter_stop env x).out) := by
  have hstop : ∀ x, (adapter_stop env x).adapter.discov_timeout = x.discov_timeout := by
    intro x
    rw [(adapter_stop_exact env x hd hp).2]
  have hto : (set_discoverable_timeout env msg T a).adapter.discov_timeout = T := rfl
  have hadr : (set_discoverable_timeout env msg T a).adapter.address = a.address := by
    unfold set_discoverable_timeout
    simp only
    split_ifs <;> rfl
  refine ⟨rfl, hto, ?_, ?_, ?_, ?_, ?_⟩
  · unfold set_discoverable_timeout
    simp only [List.mem_append, List.mem_cons, List.mem_singleton, true_or, or_true]
  · intro t ht
    unfold set_discoverable_timeout at ht
    simp only [List.mem_append, List.mem_cons, List.mem_singleton] at ht
    rcases ht with (ht | ht) | ht
    · split_ifs at ht <;> simp at ht
    · split_ifs at ht <;> simp at ht
    · rcases ht with ht | ht
      · exact Effect.write_discoverable_timeout.inj ht
      · simp at ht
  · unfold get_properties
    rw [hadr, if_neg (not_lt.mpr haddr), hto]
    refine ⟨_, rfl, ?_, ?_⟩
    · simp only [List.mem_append, List.mem_cons, List.mem_singleton, true_or, or_true]
    · intro v hv
      simp only [List.mem_append, List.mem_cons, List.mem_singleton] at hv
      rcases hv with (hv | hv) | hv
      · simp at hv
      · split at hv <;> simp at hv
      · simp at hv
        exact hv
  · rw [hstop]
    exact hto
  · intro x
    exact ⟨hstop x, adapter_stop_out_no_timeout_write env x hd hp⟩

/-- C16, at the sample adapter with `T` = 300. -/
theorem set_discoverable_timeout_round_trip_witness :
    0 ≤ sample_env.check_address sample_adapter.address ∧
    cancel_helper_ok sample_env.cancel_discovery ∧
    cancel_helper_ok sample_env.cancel_periodic_discovery ∧
    (set_discoverable_timeout sample_env sample_call 300 sample_adapter).val
      = some (.method_return sample_call []) ∧
    (adapter_stop sample_env
      (set_discoverable_timeout sample_env sample_call 300 sample_adapter).adapter
      ).adapter.discov_timeout = 300 :=
  ⟨by decide, sample_cancel_helpers_ok.1, sample_cancel_helpers_ok.2,
    (set_discoverable_timeout_round_trip sample_env sample_call sample_call 300 sample_adapter
      (by decide) sample_cancel_helpers_ok.1 sample_cancel_helpers_ok.2).1,
    (set_discoverable_timeout_round_trip sample_env sample_call sample_call 300 sample_adapter
      (by decide) sample_cancel_helpers_ok.1 sample_cancel_helpers_ok.2).2.2.2.2.2.1⟩

/-! ## C17: the order of the teardown -/

/-- C17: the actions of `adapter_stop` are, in this order: (1) the removal of
the pending discoverable timer; (2) the resolution of the pending requests:
the bonding (reply to the requestor, removal of the pending device, release of
the watch, of the channel source and of the channel), the stored reply of the
discovery cancel, the discovery (`DiscoveryCompleted`, then
`cancel_discovery` when there is a requestor), the periodic discovery
(`cancel_periodic_discovery`); (3) the removal of the watches of the two
requestors; (7) the signal PropertyChanged("Mode", "off"), which is among the
actions exactly once. The clearing of the lists (4) to (6) and the reset of
the flags (8) are seen in the state left. The two cancel helpers are handed an
adapter on which the timer handle, the bonding and the stored cancel request
are cleared and on which nothing of (3) to (8) has happened: every resolution
comes before every reset. The helpers, of another file, change the
found-device list and the discovery type only and their actions are HCI
actions. -/
theorem adapter_stop_teardown_order (env : Env) (a : adapter)
    (hd : cancel_helper_ok env.cancel_discovery)
    (hp : cancel_helper_ok env.cancel_periodic_discovery) :
    (∃ fd dt, (adapter_stop env a).out =
      (if a.discov_timeout_id ≠ 0 then [Effect.g_source_remove a.discov_timeout_id] else []) ++
      (match a.bonding with
       | some b =>
         [Effect.send (.authentication_return b.msg HCI_OE_USER_ENDED_CONNECTION)] ++
         (remove_pending_device env b a).out ++
         [Effect.g_dbus_remove_watch b.listener_id] ++
         (if b.io_id ≠ 0 then [Effect.g_source_remove b.io_id] else []) ++
         [Effect.g_io_channel_close b.chan]
       | none => []) ++
      (match a.discovery_cancel with
       | some m => [Effect.send (.method_return m [])]
       | none => []) ++
      (if a.discov_active ≠ 0 then
        [Effect.emit_signal a.path ADAPTER_INTERFACE "DiscoveryCompleted" []] ++
        (if a.discov_requestor.isSome then
          (env.cancel_discovery
            { a with discov_timeout_id := 0, devices := devices_after_stop env a,
                     bonding := none, discovery_cancel := none }).out
         else [])
       else []) ++
      (if a.pdiscov_active ≠ 0 ∧ a.pdiscov_requestor.isSome then
        (env.cancel_periodic_discovery
          { a with discov_timeout_id := 0, devices := devices_after_stop env a,
                   bonding := none, discovery_cancel := none,
                   found_devices := fd, discov_type := dt }).out
       else []) ++
      (if a.discov_requestor.isSome then [Effect.g_dbus_remove_watch a.discov_listener]
       else []) ++
      (if a.pdiscov_requestor.isSome then [Effect.g_dbus_remove_watch a.pdiscov_listener]
       else []) ++
      [mode_off_signal a.path]) ∧
    (adapter_stop env a).out.count (mode_off_signal a.path) = 1 ∧
    (adapter_stop env a).adapter.discov_requestor = none ∧
    (adapter_stop env a).adapter.pdiscov_requestor = none ∧
    (adapter_stop env a).adapter.found_devices = [] ∧
    (adapter_stop env a).adapter.oor_devices = [] ∧
    (adapter_stop env a).adapter.auth_reqs = [] ∧
    (adapter_stop env a).adapter.active_conn = [] ∧
    (adapter_stop env a).adapter.up = 0 ∧
    (adapter_stop env a).adapter.scan_mode = SCAN_DISABLED ∧
    (adapter_stop env a).adapter.mode = MODE_OFF ∧
    (adapter_stop env a).adapter.discov_active = 0 ∧
    (adapter_stop env a).adapter.pdiscov_active = 0 ∧
    (adapter_stop env a).adapter.pinq_idle = 0 ∧
    (adapter_stop env a).adapter.discov_type = DISCOVER_TYPE_NONE := by
  refine ⟨?_, adapter_stop_mode_off_once env a hd hp, ?_⟩
  · obtain ⟨fd, dt, ho⟩ := adapter_stop_out env a hd hp
    refine ⟨fd, dt, ?_⟩
    rw [ho]
    have hb : (reply_pending_bonding env a).out =
        (match a.bonding with
         | some b =>
           [Effect.send (.authentication_return b.msg HCI_OE_USER_ENDED_CONNECTION)] ++
           (remove_pending_device env b a).out ++
           [Effect.g_dbus_remove_watch b.listener_id] ++
           (if b.io_id ≠ 0 then [Effect.g_source_remove b.io_id] else []) ++
           [Effect.g_io_channel_close b.chan]
         | none => []) := by
      unfold reply_pending_bonding
      cases a.bonding with
      | none => rfl
      | some b => rfl
    rw [hb]
    rfl
  · rw [(adapter_stop_exact env a hd hp).2]
    exact ⟨rfl, rfl, rfl, rfl, rfl, rfl, rfl, rfl, rfl, rfl, rfl, rfl, rfl⟩

/-- C17, at the adapter with a timer, a stored cancel request and both
discoveries active: the actions in order. -/
theorem adapter_stop_teardown_order_witness :
    cancel_helper_ok sample_env.cancel_discovery ∧
    cancel_helper_ok sample_env.cancel_periodic_discovery ∧
    (adapter_stop sample_env sample_busy).out.count (mode_off_signal sample_busy.path) = 1 ∧
    (adapter_stop sample_env sample_busy).out =
      [.g_source_remove 13,
       .send (.method_return sample_call []),
       .emit_signal "/org/bluez/hci0" ADAPTER_INTERFACE "DiscoveryCompleted" [],
       .hci_open_dev 0, .hci_close_dev,
       .hci_open_dev 0, .hci_close_dev,
       .g_dbus_remove_watch 12,
       .g_dbus_remove_watch 14,
       mode_off_signal "/org/bluez/hci0"] :=
  ⟨sample_cancel_helpers_ok.1, sample_cancel_helpers_ok.2,
    (adapter_stop_teardown_order sample_env sample_busy
      sample_cancel_helpers_ok.1 sample_cancel_helpers_ok.2).2.1,
    by decide⟩

/-! ## C24: the discoverable timer fires -/

theorem clear_inquiry_bit (s : Nat) (hs : s < 256) :
    (s % 256 &&& (0xff - SCAN_INQUIRY)) &&& SCAN_INQUIRY = 0 ∧
    (s % 256 &&& (0xff - SCAN_INQUIRY)) ||| SCAN_INQUIRY = s ||| SCAN_INQUIRY ∧
    (s % 256 &&& (0xff - SCAN_INQUIRY)) &&& SCAN_PAGE = s &&& SCAN_PAGE := by
  unfold SCAN_INQUIRY SCAN_PAGE
  interval_cases s <;> decide

/-- C24: when the discoverable timer fires and the command channel opens, the
one scan-enable value written to the controller is the adapter's `scan_mode`
(a byte) with the inquiry-scan bit cleared and every other bit, the page-scan
bit among them, as it is; when the write succeeds with status 0 the timer
handle is reset to 0, nothing else of the adapter changes and the handler
returns FALSE; when the channel cannot be opened (nothing is written then),
the write fails or the status is not 0, the handler returns TRUE and the
adapter, its timer handle included, is unchanged. -/
theorem discov_timeout_handler_clears_inquiry_scan (env : Env) (a : adapter)
    (hs : a.scan_mode < 256) :
    (0 ≤ env.hci_open_dev →
      ∃ v, Effect.hci_send_req OGF_HOST_CTL OCF_WRITE_SCAN_ENABLE (.bytes [v]) ∈
          (discov_timeout_handler env a).out ∧
        (∀ ogf ocf p, Effect.hci_send_req ogf ocf p ∈ (discov_timeout_handler env a).out →
          p = .bytes [v]) ∧
        v &&& SCAN_INQUIRY = 0 ∧
        v ||| SCAN_INQUIRY = a.scan_mode ||| SCAN_INQUIRY ∧
        v &&& SCAN_PAGE = a.scan_mode &&& SCAN_PAGE) ∧
    (0 ≤ env.hci_open_dev → 0 ≤ env.hci_send_req → env.status = 0 →
      (discov_timeout_handler env a).val = false ∧
      (discov_timeout_handler env a).adapter = { a with discov_timeout_id := 0 }) ∧
    (env.hci_open_dev < 0 →
      (discov_timeout_handler env a).val = true ∧
      (discov_timeout_handler env a).adapter = a ∧
      (discov_timeout_handler env a).out = [.hci_open_dev a.dev_id]) ∧
    (env.hci_send_req < 0 ∨ env.status ≠ 0 →
      (discov_timeout_handler env a).val = true ∧
      (discov_timeout_handler env a).adapter = a ∧
      (discov_timeout_handler env a).adapter.discov_timeout_id = a.discov_timeout_id) := by
  obtain ⟨b1, b2, b3⟩ := clear_inquiry_bit a.scan_mode hs
  refine ⟨?_, ?_, ?_, ?_⟩
  · intro ho
    refine ⟨a.scan_mode % 256 &&& (0xff - SCAN_INQUIRY), ?_, ?_, b1, b2, b3⟩
    · unfold discov_timeout_handler
      simp only [if_neg (not_lt.mpr ho)]
      split_ifs <;> simp
    · intro ogf ocf p hp
      unfold discov_timeout_handler adapter_remove_discov_timeout at hp
      simp only [if_neg (not_lt.mpr ho)] at hp
      split_ifs at hp <;> simp at hp <;> exact hp.2.2
  · intro ho hr hst
    unfold discov_timeout_handler adapter_remove_discov_timeout
    simp only [if_neg (not_lt.mpr ho), if_neg (not_lt.mpr hr), hst, ne_eq, not_true_eq_false,
      if_false]
    by_cases hid : a.discov_timeout_id = 0
    · rw [if_pos hid]
      refine ⟨by trivial, ?_⟩
      show a = { a with discov_timeout_id := 0 }
      rw [← hid]
    · rw [if_neg hid]
      exact ⟨by trivial, rfl⟩
  · intro ho
    unfold discov_timeout_handler
    simp only [if_pos ho]
    exact ⟨trivial, trivial, trivial⟩
  · intro h
    unfold discov_timeout_handler
    split_ifs with c1 c2 c3
    · exact ⟨rfl, rfl, rfl⟩
    · exact ⟨rfl, rfl, rfl⟩
    · exact ⟨rfl, rfl, rfl⟩
    · exfalso
      rcases h with h | h
      · exact c2 h
      · exact c3 h

/-- C24, at the sample adapter in mode Discoverable with its timer pending. -/
theorem discov_timeout_handler_clears_inquiry_scan_witness :
    sample_busy.scan_mode < 256 ∧
    (discov_timeout_handler sample_env sample_busy).val = false ∧
    (discov_timeout_handler sample_env sample_busy).adapter
      = { sample_busy with discov_timeout_id := 0 } ∧
    (discov_timeout_handler sample_env sample_busy).out =
      [.hci_open_dev 0, .hci_send_req OGF_HOST_CTL OCF_WRITE_SCAN_ENABLE (.bytes [SCAN_PAGE]),
       .set_limited_discoverable false, .g_source_remove 13, .hci_close_dev] :=
  ⟨by decide,
    ((discov_timeout_handler_clears_inquiry_scan sample_env sample_busy (by decide)).2.1
      (by decide) (by decide) rfl).1,
    ((discov_timeout_handler_clears_inquiry_scan sample_env sample_busy (by decide)).2.1
      (by decide) (by decide) rfl).2,
    by decide⟩

/-! ## C25: the interval of the discoverable timer -/

/-- What `set_discoverable_timeout` does with the timer: a pending timer is
removed first; a timer is started, once, exactly when `T` is not 0 and the
inquiry-scan bit of `scan_mode` is set, and the handle is then the one of that
timer, 0 otherwise; its interval is `1000 * T` reduced modulo 2^32, which is
`1000 * T` as long as `T` is at most 4294967. -/
theorem set_discoverable_timeout_timer (env : Env) (msg : DBusMessage) (T : Nat) (a : adapter) :
    (set_discoverable_timeout env msg T a).out =
      (if a.discov_timeout_id ≠ 0 then [Effect.g_source_remove a.discov_timeout_id] else []) ++
      (if T ≠ 0 ∧ a.scan_mode &&& SCAN_INQUIRY ≠ 0 then
        [Effect.g_timeout_add (T * 1000 % 2 ^ 32)] else []) ++
      [.write_discoverable_timeout T,
       .emit_property_changed msg.path ADAPTER_INTERFACE "DiscoverableTimeout" (.uint32 T)] ∧
    (set_discoverable_timeout env msg T a).adapter.discov_timeout_id =
      (if T ≠ 0 ∧ a.scan_mode &&& SCAN_INQUIRY ≠ 0 then env.g_timeout_add else 0) ∧
    (T ≤ 4294967 → T * 1000 % 2 ^ 32 = 1000 * T) := by
  refine ⟨?_, ?_, ?_⟩
  · unfold set_discoverable_timeout
    simp only
    split_ifs <;> rfl
  · unfold set_discoverable_timeout
    simp only
    split_ifs <;> first | rfl | simp_all
  · intro h
    rw [Nat.mod_eq_of_lt (by omega)]
    omega

/-- C25, evaluated at a timeout of 4294968 seconds on the sample adapter in
mode Discoverable: the call succeeds and the one timer it starts has an
interval of 704 milliseconds, not 4294968000: the product `timeout * 1000` is
computed in 32 bits. -/
theorem set_discoverable_timeout_interval_wraps :
    (4294968 : Nat) < 2 ^ 32 ∧
    sample_discoverable.scan_mode &&& SCAN_INQUIRY ≠ 0 ∧
    (set_discoverable_timeout sample_env sample_call 4294968 sample_discoverable).val
      = some (.method_return sample_call []) ∧
    (set_discoverable_timeout sample_env sample_call 4294968 sample_discoverable).out =
      [.g_timeout_add 704, .write_discoverable_timeout 4294968,
       .emit_property_changed "/org/bluez/hci0" ADAPTER_INTERFACE "DiscoverableTimeout"
         (.uint32 4294968)] ∧
    Effect.g_timeout_add (1000 * 4294968) ∉
      (set_discoverable_timeout sample_env sample_call 4294968 sample_discoverable).out := by
  decide

/-! ## C27: RequestMode when the agent cannot be asked -/

/-- C27, evaluated in Scenario A with an agent that cannot be asked
(`agent_confirm_mode_change` fails): `RequestMode("discoverable")` is answered
with `InvalidArguments`, the watch of the session is removed, and the session
list, empty before, holds the session; on the same adapter with `global_mode`
Off, `global_mode` is Connectable afterwards. -/
theorem request_mode_error_keeps_session :
    sample_scenario_a.sessions = [] ∧
    (request_mode 2 { sample_env with agent_confirm_mode_change := -1 } sample_mode_msg
      sample_scenario_a).map (fun r => (r.val, r.adapter.sessions, r.out))
      = some (some (invalid_args sample_mode_msg),
          [{ msg := sample_mode_msg, mode := MODE_DISCOVERABLE, id := 12 }],
          [.g_dbus_add_disconnect_watch ":1.42",
           .agent_confirm_mode_change sample_agent "discoverable"
             { msg := sample_mode_msg, mode := MODE_DISCOVERABLE, id := 12 },
           .g_dbus_remove_watch 12]) ∧
    (request_mode 2 { sample_env with agent_confirm_mode_change := -1 } sample_mode_msg
      { sample_scenario_a with global_mode := MODE_OFF }).map
        (fun r => (r.val, r.adapter.global_mode))
      = some (some (invalid_args sample_mode_msg), MODE_CONNECTABLE) := by
  decide

/-! ## C26: the in-progress guards -/

/-- C26, as stated, fails: with standard discovery only active,
`StartPeriodicDiscovery` on an up adapter is answered InProgress
"Discover in progress"; with periodic discovery only active,
`DiscoverDevices` is not rejected and returns the method return. -/
theorem start_periodic_rejected_during_discovery_counterexample :
    sample_discovering.up ≠ 0 ∧ sample_discovering.discov_active ≠ 0 ∧
    sample_discovering.pdiscov_active = 0 ∧
    (adapter_start_periodic sample_env sample_call sample_discovering).val
      = some (in_progress sample_call "Discover in progress") ∧
    (adapter_discover_devices sample_env sample_call
      { sample_adapter with pdiscov_active := 1 }).val
      = some (.method_return sample_call []) := by
  decide

/-- C26, amended: the in-progress guards read the flags the other way round.
For every up adapter and well-formed call, `StartPeriodicDiscovery` is
rejected with InProgress ("Discover in progress") exactly when standard
discovery or periodic discovery is active, whereas `DiscoverDevices` is
rejected with InProgress "Discover in progress" exactly when standard
discovery itself is active, so that starting standard discovery while only
periodic discovery is active passes that guard: with no bonding in flight the
reply is no InProgress error. -/
theorem in_progress_guards (env : Env) (msg : DBusMessage) (a : adapter) :
    (a.up ≠ 0 → msg.args = [] →
      ((adapter_start_periodic env msg a).val = some (in_progress msg "Discover in progress") ↔
        (a.discov_active ≠ 0 ∨ a.pdiscov_active ≠ 0))) ∧
    (a.up ≠ 0 → msg.args = [] →
      ((adapter_discover_devices env msg a).val
          = some (in_progress msg "Discover in progress") ↔
        a.discov_active ≠ 0)) ∧
    (a.up ≠ 0 → msg.args = [] → a.discov_active = 0 → a.pdiscov_active ≠ 0 →
      a.bonding = none →
      ∀ s, (adapter_discover_devices env msg a).val ≠ some (in_progress msg s)) := by
  have hb : ∀ x, (pending_remote_name_cancel env x).adapter.bonding = x.bonding := by
    intro x
    rcases pending_remote_name_cancel_frame env x with h | h <;> rw [h]
  have n1 : ERROR_INTERFACE ++ ".NoSuchAdapter" ≠ ERROR_INTERFACE ++ ".InProgress" := by decide
  have n2 : ERROR_INTERFACE ++ ".Failed" ≠ ERROR_INTERFACE ++ ".InProgress" := by decide
  refine ⟨?_, ?_, ?_⟩
  · intro hup hargs
    unfold adapter_start_periodic
    simp only [hup, hargs, if_false, ne_eq, not_true_eq_false, and_false]
    constructor
    · intro h
      by_contra hc
      rw [if_neg hc] at h
      revert h
      split_ifs <;> simp [in_progress, no_such_adapter, failed_strerror, n1, n2]
    · intro h
      rw [if_pos h]
  · intro hup hargs
    unfold adapter_discover_devices
    simp only [hup, hargs, if_false, ne_eq, not_true_eq_false]
    constructor
    · intro h
      by_contra hc
      rw [if_neg (fun x => x hc)] at h
      revert h
      split_ifs <;> simp [in_progress, no_such_adapter, failed_strerror, n1, n2]
    · intro h
      rw [if_pos h]
  · intro hup hargs hd _ hbond s
    unfold adapter_discover_devices
    simp only [hup, hargs, hd, if_false, ne_eq, not_true_eq_false, hb, hbond, Option.isSome_none,
      Bool.false_eq_true]
    split_ifs <;> simp [in_progress, no_such_adapter, failed_strerror, n1, n2]

/-! ## C28: requests rejected with "Bonding in progress" -/

/-- C28, as stated, fails: on an adapter with a bonding in flight and a found
device whose name request is pending, `create_bonding` and `DiscoverDevices`
are answered InProgress "Bonding in progress", yet the name request was
cancelled with an HCI command and the found-devices cache is empty
afterwards. -/
theorem rejected_request_clears_found_devices_counterexample :
    sample_bonding_resolving.found_devices ≠ [] ∧
    (create_bonding sample_env sample_pair_msg "00:11:22:33:44:55" "/agent"
      IO_CAPABILITY_DISPLAYYESNO sample_bonding_resolving).val
      = some (in_progress sample_pair_msg "Bonding in progress") ∧
    (create_bonding sample_env sample_pair_msg "00:11:22:33:44:55" "/agent"
      IO_CAPABILITY_DISPLAYYESNO sample_bonding_resolving).adapter.found_devices = [] ∧
    (create_bonding sample_env sample_pair_msg "00:11:22:33:44:55" "/agent"
      IO_CAPABILITY_DISPLAYYESNO sample_bonding_resolving).out
      = [.hci_open_dev 0, .hci_read_remote_name_cancel 0x112233445566, .hci_close_dev] ∧
    (adapter_discover_devices sample_env sample_call sample_bonding_resolving).val
      = some (in_progress sample_call "Bonding in progress") ∧
    (adapter_discover_devices sample_env sample_call sample_bonding_resolving).adapter.found_devices
      = [] ∧
    (adapter_discover_devices sample_env sample_call sample_bonding_resolving).out
      = [.hci_open_dev 0, .hci_read_remote_name_cancel 0x112233445566, .hci_close_dev] := by
  decide

theorem pending_remote_name_cancel_idle (env : Env) (a : adapter)
    (h : name_request_pending a = false) :
    pending_remote_name_cancel env a = ⟨0, a, []⟩ := by
  unfold name_request_pending at h
  unfold pending_remote_name_cancel
  simp only
  split
  · rfl
  · rename_i dev hd
    rw [hd] at h
    cases h

/-- C28, amended: a `create_bonding` call and a `DiscoverDevices` call
answered "Bonding in progress" have run `pending_remote_name_cancel` before
the check: they leave every field of the adapter other than the found-devices
cache as it was, the cache being emptied or left; the only actions are those
of the name cancel (`hci_open_dev`, `hci_read_remote_name_cancel`,
`hci_close_dev`); and when no found device has its name request pending the
whole adapter state is exactly as it was and nothing is done. -/
theorem bonding_in_progress_frame (env : Env) (msg : DBusMessage) (address agent_path : String)
    (capability : Nat) (a : adapter) :
    ((create_bonding env msg address agent_path capability a).val
        = some (in_progress msg "Bonding in progress") →
      ((create_bonding env msg address agent_path capability a).adapter = a ∨
        (create_bonding env msg address agent_path capability a).adapter
          = { a with found_devices := [] }) ∧
      (∀ e, e ∈ (create_bonding env msg address agent_path capability a).out →
        e = .hci_open_dev a.dev_id ∨ e = .hci_close_dev ∨
        ∃ b, e = .hci_read_remote_name_cancel b) ∧
      (name_request_pending a = false →
        (create_bonding env msg address agent_path capability a).adapter = a ∧
        (create_bonding env msg address agent_path capability a).out = [])) ∧
    ((adapter_discover_devices env msg a).val = some (in_progress msg "Bonding in progress") →
      ((adapter_discover_devices env msg a).adapter = a ∨
        (adapter_discover_devices env msg a).adapter = { a with found_devices := [] }) ∧
      (∀ e, e ∈ (adapter_discover_devices env msg a).out →
        e = .hci_open_dev a.dev_id ∨ e = .hci_close_dev ∨
        ∃ b, e = .hci_read_remote_name_cancel b) ∧
      (name_request_pending a = false →
        (adapter_discover_devices env msg a).adapter = a ∧
        (adapter_discover_devices env msg a).out = [])) := by
  have n1 : ERROR_INTERFACE ++ ".NoSuchAdapter" ≠ ERROR_INTERFACE ++ ".InProgress" := by decide
  have n2 : ERROR_INTERFACE ++ ".Failed" ≠ ERROR_INTERFACE ++ ".InProgress" := by decide
  have n3 : ERROR_INTERFACE ++ ".AlreadyExists" ≠ ERROR_INTERFACE ++ ".InProgress" := by decide
  have n4 : ERROR_INTERFACE ++ ".ConnectionAttemptFailed" ≠ ERROR_INTERFACE ++ ".InProgress" := by
    decide
  have n5 : ERROR_INTERFACE ++ ".NotReady" ≠ ERROR_INTERFACE ++ ".InProgress" := by decide
  have n6 : ERROR_INTERFACE ++ ".InvalidArguments" ≠ ERROR_INTERFACE ++ ".InProgress" := by
    decide
  have fin : ∀ r : Ret (Option Reply),
      r.adapter = (pending_remote_name_cancel env a).adapter →
      r.out = (pending_remote_name_cancel env a).out →
      (r.adapter = a ∨ r.adapter = { a with found_devices := [] }) ∧
      (∀ e, e ∈ r.out →
        e = .hci_open_dev a.dev_id ∨ e = .hci_close_dev ∨
        ∃ b, e = .hci_read_remote_name_cancel b) ∧
      (name_request_pending a = false → r.adapter = a ∧ r.out = []) := by
    intro r ha ho
    rw [ha, ho]
    refine ⟨pending_remote_name_cancel_frame env a, ?_, ?_⟩
    · intro e he
      exact pending_remote_name_cancel_out env a e he
    · intro hp
      rw [pending_remote_name_cancel_idle env a hp]
      exact ⟨rfl, rfl⟩
  refine ⟨?_, ?_⟩
  · intro h
    apply fin
    all_goals
      revert h
      unfold create_bonding
      simp only
      split_ifs
      all_goals first
        | (intro _; rfl)
        | (intro h; exfalso; simp [in_progress, n3, n4] at h; done)
        | (split <;> (intro h; exfalso; simp at h))
  · intro h
    apply fin
    all_goals
      revert h
      unfold adapter_discover_devices
      simp only
      split_ifs
      all_goals first
        | (intro _; rfl)
        | (intro h; exfalso
           simp [in_progress, adapter_not_ready, invalid_args, no_such_adapter, failed_strerror,
             n1, n2, n5, n6] at h)

/-! ## The bonding I/O callback -/

theorem create_bonding_conn_complete_failed_exact (env : Env) (io : Int)
    (b : bonding_request_info) (a : adapter) (out : List Effect) :
    (create_bonding_conn_complete_failed env io b a out).val = false ∧
    (create_bonding_conn_complete_failed env io b a out).adapter
      = { a with devices := devices_without_pending env b a, bonding := none } ∧
    (create_bonding_conn_complete_failed env io b a out).out
      = out ++ [.g_io_channel_close io] ++ (remove_pending_device env b a).out ++
        [.g_dbus_remove_watch b.listener_id] := by
  refine ⟨rfl, ?_, rfl⟩
  show { (remove_pending_device env b a).adapter with bonding := none } = _
  rw [(remove_pending_device_exact env b a).1]

theorem bonding_settled_ite (c : Prop) [Decidable c] (x y : Ret Bool)
    (hx : bonding_settled x) (hy : bonding_settled y) :
    bonding_settled (if c then x else y) := by
  split_ifs
  · exact hx
  · exact hy

theorem bonding_settled_failed (env : Env) (io : Int) (b : bonding_request_info) (a : adapter)
    (out : List Effect) : bonding_settled (create_bonding_conn_complete_failed env io b a out) := by
  obtain ⟨h1, h2, -⟩ := create_bonding_conn_complete_failed_exact env io b a out
  unfold bonding_settled
  rw [h2]
  exact ⟨h1, Or.inl rfl⟩

theorem bonding_settled_bonding (env : Env) (io : Int) (cond : Nat) (b : bonding_request_info)
    (a : adapter) : bonding_settled (create_bonding_conn_complete_bonding env io cond b a) := by
  unfold create_bonding_conn_complete_bonding
  repeat' first
    | apply bonding_settled_ite
    | exact bonding_settled_failed env io b a _
    | exact ⟨rfl, Or.inl rfl⟩
    | exact ⟨rfl, Or.inr ⟨_, rfl, rfl⟩⟩

/-- C29: for every adapter state and every I/O condition,
`create_bonding_conn_complete` returns FALSE and leaves the adapter either
with no bonding record or with a bonding record whose `auth_active` is 1;
entered with no bonding record it leaves the adapter state unchanged (it
closes the channel and does nothing else). -/
theorem create_bonding_conn_complete_bonding_after (env : Env) (io : Int) (cond : Nat)
    (a : adapter) :
    (create_bonding_conn_complete env io cond a).val = false ∧
    ((create_bonding_conn_complete env io cond a).adapter.bonding = none ∨
      ∃ b, (create_bonding_conn_complete env io cond a).adapter.bonding = some b ∧
        b.auth_active = 1) ∧
    (a.bonding = none →
      (create_bonding_conn_complete env io cond a).adapter = a ∧
      (create_bonding_conn_complete env io cond a).out = [.g_io_channel_close io]) := by
  unfold create_bonding_conn_complete
  cases hbo : a.bonding with
  | none => exact ⟨rfl, Or.inl hbo, fun _ => ⟨rfl, rfl⟩⟩
  | some b =>
    refine ⟨(bonding_settled_bonding env io cond b a).1,
      (bonding_settled_bonding env io cond b a).2, ?_⟩
    intro h
    cases h
theorem create_bonding_conn_complete_some (env : Env) (io : Int) (cond : Nat) (a : adapter)
    (b : bonding_request_info) (hb : a.bonding = some b) :
    create_bonding_conn_complete env io cond a
      = create_bonding_conn_complete_bonding env io cond b a := by
  unfold create_bonding_conn_complete
  rw [hb]

/-- C23: in the bonding I/O callback with a bonding in flight, an I/O hangup
or error (a condition with the hangup or the error bit and without the
invalid-descriptor bit), or a socket error that is read and is not 0, is
answered with `ConnectionAttemptFailed` when `auth_active` is 0 and with the
authentication reply when `auth_active` is not 0, whose status is the
bonding's `hci_status` if that is not 0 and the authentication-failure status
otherwise; the reply is the first action, followed by the closing of the
channel, the removal of the pending device and the release of the requestor's
watch; the device of the bonding is removed from the device list if it is
temporary, no other field changes, and no bonding record remains. -/
theorem create_bonding_conn_complete_io_error (env : Env) (io : Int) (cond : Nat) (a : adapter)
    (b : bonding_request_info) (hb : a.bonding = some b) (hnval : cond &&& G_IO_NVAL = 0)
    (herr : cond &&& (G_IO_HUP ||| G_IO_ERR) ≠ 0 ∨
      (0 ≤ env.cbc_getsockopt_error ∧ env.cbc_so_error ≠ 0)) :
    (∃ reply,
      (create_bonding_conn_complete env io cond a).out =
        [.send reply, .g_io_channel_close io] ++ (remove_pending_device env b a).out ++
        [.g_dbus_remove_watch b.listener_id] ∧
      (b.auth_active = 0 →
        ∃ text, reply = .error b.msg (ERROR_INTERFACE ++ ".ConnectionAttemptFailed") text) ∧
      (b.auth_active ≠ 0 →
        reply = .authentication_return b.msg
          (if b.hci_status ≠ 0 then b.hci_status else HCI_AUTHENTICATION_FAILURE))) ∧
    (create_bonding_conn_complete env io cond a).val = false ∧
    (create_bonding_conn_complete env io cond a).adapter.bonding = none ∧
    (create_bonding_conn_complete env io cond a).adapter.devices =
      (match adapter_find_device a (env.ba2str b.bdaddr) with
       | none => a.devices
       | some i =>
         match a.devices.get? i with
         | none => a.devices
         | some d => if d.temporary then a.devices.eraseIdx i else a.devices) ∧
    (create_bonding_conn_complete env io cond a).adapter =
      { a with devices := (create_bonding_conn_complete env io cond a).adapter.devices,
               bonding := none } := by
  have key : ∃ outr, create_bonding_conn_complete env io cond a
        = create_bonding_conn_complete_failed env io b a outr ∧
      (outr = (if b.auth_active = 0 then error_connection_attempt_failed b.msg ENETDOWN
          else reply_authentication_failure b) ∨
        outr = (if b.auth_active ≠ 0 then reply_authentication_failure b
          else error_connection_attempt_failed b.msg env.cbc_so_error)) := by
    rw [create_bonding_conn_complete_some env io cond a b hb]
    unfold create_bonding_conn_complete_bonding
    rw [if_neg (fun h => h hnval)]
    by_cases c : cond &&& (G_IO_HUP ||| G_IO_ERR) ≠ 0
    · rw [if_pos c]
      exact ⟨_, rfl, Or.inl rfl⟩
    · rw [if_neg c]
      rcases herr with h | ⟨h1, h2⟩
      · exact absurd h c
      · rw [if_neg (not_lt.mpr h1), if_pos h2]
        exact ⟨_, rfl, Or.inr rfl⟩
  obtain ⟨outr, hk, hout⟩ := key
  obtain ⟨e1, e2, e3⟩ := create_bonding_conn_complete_failed_exact env io b a outr
  rw [hk, e2, e3]
  refine ⟨?_, e1, rfl, rfl, rfl⟩
  have hform : ∃ reply, outr = [.send reply] ∧
      (b.auth_active = 0 →
        ∃ text, reply = .error b.msg (ERROR_INTERFACE ++ ".ConnectionAttemptFailed") text) ∧
      (b.auth_active ≠ 0 →
        reply = .authentication_return b.msg
          (if b.hci_status ≠ 0 then b.hci_status else HCI_AUTHENTICATION_FAILURE)) := by
    by_cases ha : b.auth_active = 0
    · rcases hout with h | h
      · rw [if_pos ha] at h
        exact ⟨_, h, fun _ => ⟨_, rfl⟩, fun hn => absurd ha hn⟩
      · rw [if_neg (fun hn => hn ha)] at h
        exact ⟨_, h, fun _ => ⟨_, rfl⟩, fun hn => absurd ha hn⟩
    · rcases hout with h | h
      · rw [if_neg ha] at h
        exact ⟨_, h, fun h0 => absurd h0 ha, fun _ => rfl⟩
      · rw [if_pos ha] at h
        exact ⟨_, h, fun h0 => absurd h0 ha, fun _ => rfl⟩
  obtain ⟨reply, hr, h0, h1⟩ := hform
  refine ⟨reply, ?_, h0, h1⟩
  rw [hr]
  rfl

/-- C23, at the adapter left by `create_bonding`, on a hangup. -/
theorem create_bonding_conn_complete_io_error_witness :
    sample_pairing.bonding.isSome = true ∧
    G_IO_HUP &&& G_IO_NVAL = 0 ∧
    G_IO_HUP &&& (G_IO_HUP ||| G_IO_ERR) ≠ 0 ∧
    (create_bonding_conn_complete sample_env_pairing 4 G_IO_HUP sample_pairing).val = false ∧
    (create_bonding_conn_complete sample_env_pairing 4 G_IO_HUP sample_pairing).adapter.bonding
      = none ∧
    (create_bonding_conn_complete sample_env_pairing 4 G_IO_HUP sample_pairing).adapter.devices
      = [] ∧
    (create_bonding_conn_complete sample_env_pairing 4 G_IO_HUP sample_pairing).out.head?
      = some (.send (.error sample_pair_msg (ERROR_INTERFACE ++ ".ConnectionAttemptFailed")
          (.strerror ENETDOWN))) :=
  ⟨by decide, by decide, by decide,
    (create_bonding_conn_complete_io_error sample_env_pairing 4 G_IO_HUP sample_pairing
      { msg := sample_pair_msg, bdaddr := 0x001122334455, chan := 4, io_id := 11,
        listener_id := 12, hci_status := 0, cancel := 0, auth_active := 0 }
      (by decide) (by decide) (Or.inl (by decide))).2.1,
    (create_bonding_conn_complete_io_error sample_env_pairing 4 G_IO_HUP sample_pairing
      { msg := sample_pair_msg, bdaddr := 0x001122334455, chan := 4, io_id := 11,
        listener_id := 12, hci_status := 0, cancel := 0, auth_active := 0 }
      (by decide) (by decide) (Or.inl (by decide))).2.2.1,
    by decide, by decide⟩

/-! ## C21: the bonding requestor disconnects -/

theorem auth_req_cmp_eq_zero (x : pending_auth_info) (dba : bdaddr_t) :
    (auth_req_cmp x (some dba) == 0) = true ↔ x.bdaddr = dba := by
  unfold auth_req_cmp bacmp
  simp only [beq_iff_eq]
  split_ifs with h1 h2
  · simp [h1]
  · simp [h1]
  · simp [h1]

theorem store_auth_erase (dba : bdaddr_t) (new auth : pending_auth_info)
    (hnew : new.bdaddr = dba) (l : List pending_auth_info)
    (hfind : l.find? (fun x => auth_req_cmp x (some dba) == 0) = some auth) :
    (store_auth dba new l).find? (fun x => auth_req_cmp x (some dba) == 0) = some new ∧
    (store_auth dba new l).erase new = l.erase auth := by
  induction l with
  | nil => simp at hfind
  | cons x xs ih =>
    unfold store_auth
    have hn : (auth_req_cmp new (some dba) == 0) = true :=
      (auth_req_cmp_eq_zero new dba).mpr hnew
    by_cases hx : (auth_req_cmp x (some dba) == 0) = true
    · rw [if_pos hx]
      simp only [List.find?_cons, hx, Option.some.injEq] at hfind
      subst hfind
      refine ⟨?_, ?_⟩
      · simp only [List.find?_cons, hn]
      · rw [List.erase_cons_head, List.erase_cons_head]
    · rw [if_neg hx]
      have hx1 : (auth_req_cmp x (some dba) == 0) = false := Bool.eq_false_iff.mpr hx
      simp only [List.find?_cons, hx1] at hfind
      obtain ⟨h1, h2⟩ := ih hfind
      have hxn : x ≠ new := by
        intro h
        subst h
        exact hx hn
      have hxa : x ≠ auth := by
        intro h
        subst h
        have := List.find?_some hfind
        exact hx this
      refine ⟨?_, ?_⟩
      · simp only [List.find?_cons, hx1]
        exact h1
      · rw [List.erase_cons_tail (by simpa using hxn), List.erase_cons_tail (by simpa using hxa),
          h2]

theorem cancel_auth_request_bdaddr (env : Env) (auth : pending_auth_info) (dev_id : Nat) :
    (cancel_auth_request env auth dev_id).1.bdaddr = auth.bdaddr ∧
    (cancel_auth_request env auth dev_id).1.agent = auth.agent ∧
    (cancel_auth_request env auth dev_id).2.filter Effect.is_hci_send_cmd =
      (if auth.replied = false ∧ 0 ≤ env.hci_open_dev then negative_reply auth else []) := by
  by_cases hrep : auth.replied = true
  · have k : cancel_auth_request env auth dev_id = (auth, []) := by
      unfold cancel_auth_request
      rw [if_pos hrep]
    rw [k, if_neg (fun h => by rw [hrep] at h; exact Bool.noConfusion h.1)]
    exact ⟨rfl, rfl, rfl⟩
  · have hrf : auth.replied = false := by
      cases h : auth.replied
      · rfl
      · exact absurd h hrep
    by_cases ho : env.hci_open_dev < 0
    · have k : cancel_auth_request env auth dev_id = (auth, [.hci_open_dev dev_id]) := by
        unfold cancel_auth_request
        rw [if_neg hrep, if_pos ho]
      rw [k, if_neg (fun h => not_le.mpr ho h.2)]
      exact ⟨rfl, rfl, rfl⟩
    · have k : cancel_auth_request env auth dev_id =
          ({ auth with replied := true },
            [.hci_open_dev dev_id] ++ negative_reply auth ++ [.hci_close_dev]) := by
        unfold cancel_auth_request negative_reply
        rw [if_neg hrep, if_neg ho]
      rw [k, if_pos ⟨hrf, not_lt.mp ho⟩]
      refine ⟨rfl, rfl, ?_⟩
      unfold negative_reply
      cases auth.type <;> rfl

theorem create_bond_req_exit_auth_exact (env : Env) (b : bonding_request_info) (a : adapter) :
    (adapter_find_auth_request a b.bdaddr = none →
      create_bond_req_exit_auth env b a = (a, [])) ∧
    (∀ auth, adapter_find_auth_request a b.bdaddr = some auth →
      (create_bond_req_exit_auth env b a).1 = { a with auth_reqs := a.auth_reqs.erase auth } ∧
      (create_bond_req_exit_auth env b a).2.filter Effect.is_hci_send_cmd =
        (if auth.replied = false ∧ 0 ≤ env.hci_open_dev then negative_reply auth else [])) := by
  refine ⟨?_, ?_⟩
  · intro h
    unfold create_bond_req_exit_auth
    rw [h]
  · intro auth h
    unfold create_bond_req_exit_auth
    rw [h]
    simp only
    obtain ⟨c1, c2, c3⟩ := cancel_auth_request_bdaddr env auth a.dev_id
    have hfind : a.auth_reqs.find? (fun x => auth_req_cmp x (some b.bdaddr) == 0) = some auth := h
    have hp := List.find?_some hfind
    have hab : auth.bdaddr = b.bdaddr := (auth_req_cmp_eq_zero auth b.bdaddr).mp hp
    obtain ⟨s1, s2⟩ := store_auth_erase b.bdaddr (cancel_auth_request env auth a.dev_id).1 auth
      (c1.trans hab) a.auth_reqs hfind
    refine ⟨?_, ?_⟩
    · unfold adapter_remove_auth_request g_slist_find_custom
      simp only [s1, s2]
    · rw [List.filter_append, c3]
      have : List.filter Effect.is_hci_send_cmd
          (match (cancel_auth_request env auth a.dev_id).1.agent with
          | some ag => [Effect.agent_cancel ag]
          | none => []) = [] := by
        split <;> rfl
      rw [this, List.append_nil]

theorem remove_bonding_out_auth (env : Env) (address : String) (a : adapter)
    (l : List pending_auth_info) :
    (remove_bonding env none address { a with auth_reqs := l }).out
      = (remove_bonding env none address a).out := by
  unfold remove_bonding
  simp only [ite_self]
  rfl

theorem adapter_remove_device_out_auth (env : Env) (a : adapter) (i : Nat)
    (l : List pending_auth_info) :
    (adapter_remove_device env { a with auth_reqs := l } i).out
      = (adapter_remove_device env a i).out := by
  unfold adapter_remove_device
  show (match a.devices.get? i with
    | none => _
    | some d => _ : Ret Unit).out = _
  cases a.devices.get? i with
  | none => rfl
  | some d =>
    simp only
    rw [remove_bonding_out_auth]

theorem remove_pending_device_out_auth (env : Env) (b : bonding_request_info) (a : adapter)
    (l : List pending_auth_info) :
    (remove_pending_device env b { a with auth_reqs := l }).out
      = (remove_pending_device env b a).out := by
  unfold remove_pending_device
  simp only
  show (match adapter_find_device a (env.ba2str b.bdaddr) with
    | none => _
    | some device => _ : Ret Unit).out = _
  cases adapter_find_device a (env.ba2str b.bdaddr) with
  | none => rfl
  | some i =>
    simp only
    show (match a.devices.get? i with
      | none => _
      | some d => _ : Ret Unit).out = _
    cases a.devices.get? i with
    | none => rfl
    | some d =>
      simp only
      split_ifs
      · exact adapter_remove_device_out_auth env a i l
      · rfl

theorem filter_erase_other (dba : bdaddr_t) (auth : pending_auth_info) (h : auth.bdaddr = dba)
    (l : List pending_auth_info) :
    (l.erase auth).filter (fun x => decide (x.bdaddr ≠ dba))
      = l.filter (fun x => decide (x.bdaddr ≠ dba)) := by
  induction l with
  | nil => rfl
  | cons x xs ih =>
    by_cases hx : x = auth
    · subst hx
      rw [List.erase_cons_head, List.filter_cons_of_neg (by simp [h])]
    · rw [List.erase_cons_tail (by simpa using hx), List.filter_cons, List.filter_cons, ih]

theorem teardown_not_send_cmd (l : List Effect) (h : l.all Effect.is_bonding_teardown = true) :
    l.filter Effect.is_hci_send_cmd = [] := by
  rw [List.filter_eq_nil_iff]
  intro e he
  have := List.all_eq_true.mp h e he
  cases e <;> simp_all [Effect.is_bonding_teardown, Effect.is_hci_send_cmd]

/-- C21, as stated, fails: on an adapter with a bonding in flight and a
PIN-code request of the bonding's address that was not replied, with an HCI
device that cannot be opened, `create_bond_req_exit` sends no negative reply;
the entry is removed all the same. -/
theorem create_bond_req_exit_no_reply_counterexample :
    (adapter_find_auth_request sample_bonding_auth 0xAABBCCDDEEFF).map (fun x => x.replied)
      = some false ∧
    (create_bond_req_exit { sample_env with hci_open_dev := -1 } sample_bonding_auth).map
        (fun r => (r.out, r.adapter.auth_reqs))
      = some ([.hci_open_dev 0, .g_io_channel_close 4, .g_source_remove 11],
          [{ type := .AUTH_TYPE_PINCODE, bdaddr := 0x112233445566, replied := false,
             agent := none }]) := by
  decide
/-- C21, amended: for every adapter with a bonding in flight, when the bonding
requestor disconnects (`create_bond_req_exit`), the first pending-auth entry
for the bonding address, if there is one, is removed from the pending-auth
list while the entries for other addresses are unchanged, and it receives its
type-specific negative reply exactly when it was not yet replied and the HCI
device can be opened (no other negative reply is sent); the target device is
removed from the device list if it is in the list and temporary and the list
is unchanged otherwise; the channel is closed, the bonding I/O watch is
removed, no other field of the adapter changes and the adapter has no bonding
record afterwards. -/
theorem create_bond_req_exit_cleanup (env : Env) (a : adapter) (b : bonding_request_info)
    (hb : a.bonding = some b) :
    ∃ r, create_bond_req_exit env a = some r ∧
      r.adapter.bonding = none ∧
      r.adapter.devices =
        (match adapter_find_device a (env.ba2str b.bdaddr) with
         | none => a.devices
         | some i =>
           match a.devices.get? i with
           | none => a.devices
           | some d => if d.temporary then a.devices.eraseIdx i else a.devices) ∧
      Effect.g_io_channel_close b.chan ∈ r.out ∧
      (b.io_id ≠ 0 → Effect.g_source_remove b.io_id ∈ r.out) ∧
      (adapter_find_auth_request a b.bdaddr = none →
        r.adapter.auth_reqs = a.auth_reqs ∧ r.out.filter Effect.is_hci_send_cmd = []) ∧
      (∀ auth, adapter_find_auth_request a b.bdaddr = some auth →
        r.adapter.auth_reqs = a.auth_reqs.erase auth ∧
        r.adapter.auth_reqs.filter (fun x => decide (x.bdaddr ≠ b.bdaddr))
          = a.auth_reqs.filter (fun x => decide (x.bdaddr ≠ b.bdaddr)) ∧
        r.out.filter Effect.is_hci_send_cmd =
          (if auth.replied = false ∧ 0 ≤ env.hci_open_dev then negative_reply auth else [])) ∧
      r.adapter = { a with auth_reqs := r.adapter.auth_reqs, devices := r.adapter.devices,
                           bonding := none } := by
  obtain ⟨hnone, hsome⟩ := create_bond_req_exit_auth_exact env b a
  have hshape : ∃ l, (create_bond_req_exit_auth env b a).1 = { a with auth_reqs := l } := by
    cases hf : adapter_find_auth_request a b.bdaddr with
    | none =>
      rw [hnone hf]
      exact ⟨a.auth_reqs, rfl⟩
    | some auth => exact ⟨_, (hsome auth hf).1⟩
  obtain ⟨l, hl⟩ := hshape
  have hkey : create_bond_req_exit env a = some
      ⟨(), { a with auth_reqs := l, devices := devices_without_pending env b a, bonding := none },
        (create_bond_req_exit_auth env b a).2 ++ (remove_pending_device env b a).out ++
        [.g_io_channel_close b.chan] ++
        (if b.io_id ≠ 0 then [Effect.g_source_remove b.io_id] else [])⟩ := by
    unfold create_bond_req_exit
    rw [hb]
    simp only
    rw [hl, (remove_pending_device_exact env b { a with auth_reqs := l }).1,
      remove_pending_device_out_auth]
    rfl
  have hrpd : (remove_pending_device env b a).out.filter Effect.is_hci_send_cmd = [] :=
    teardown_not_send_cmd _ (remove_pending_device_exact env b a).2
  have hfilter : ((create_bond_req_exit_auth env b a).2 ++ (remove_pending_device env b a).out ++
        [Effect.g_io_channel_close b.chan] ++
        (if b.io_id ≠ 0 then [Effect.g_source_remove b.io_id] else [])).filter
          Effect.is_hci_send_cmd
      = (create_bond_req_exit_auth env b a).2.filter Effect.is_hci_send_cmd := by
    rw [List.filter_append, List.filter_append, List.filter_append, hrpd]
    have h1 : List.filter Effect.is_hci_send_cmd [Effect.g_io_channel_close b.chan] = [] := rfl
    have h2 : List.filter Effect.is_hci_send_cmd
        (if b.io_id ≠ 0 then [Effect.g_source_remove b.io_id] else []) = [] := by
      split_ifs <;> rfl
    rw [h1, h2, List.append_nil, List.append_nil, List.append_nil]
  refine ⟨_, hkey, rfl, ?_, ?_, ?_, ?_, ?_, rfl⟩
  · show devices_without_pending env b a = _
    rfl
  · simp only [List.mem_append, List.mem_singleton, true_or, or_true]
  · intro hio
    simp only [List.mem_append, if_pos hio, List.mem_singleton, or_true]
  · intro hf
    have e1 := hnone hf
    rw [e1] at hl
    refine ⟨?_, ?_⟩
    · show l = a.auth_reqs
      exact (congrArg adapter.auth_reqs hl).symm
    · show List.filter _ _ = []
      rw [hfilter, e1]
      rfl
  · intro auth hf
    obtain ⟨e1, e2⟩ := hsome auth hf
    rw [e1] at hl
    have hle : l = a.auth_reqs.erase auth := (congrArg adapter.auth_reqs hl).symm
    have hfind : a.auth_reqs.find? (fun x => auth_req_cmp x (some b.bdaddr) == 0) = some auth :=
      hf
    have hp := List.find?_some hfind
    have hab : auth.bdaddr = b.bdaddr := (auth_req_cmp_eq_zero auth b.bdaddr).mp hp
    refine ⟨hle, ?_, ?_⟩
    · show List.filter _ l = _
      rw [hle]
      exact filter_erase_other b.bdaddr auth hab a.auth_reqs
    · show List.filter _ _ = _
      rw [hfilter, e2]

/-- C21 amended, at the adapter with two pending authentication requests. -/
theorem create_bond_req_exit_cleanup_witness :
    sample_bonding_auth.bonding = some sample_bonding ∧
    ∃ r, create_bond_req_exit sample_env sample_bonding_auth = some r ∧
      r.adapter.bonding = none ∧
      r.adapter.auth_reqs =
        [{ type := .AUTH_TYPE_PINCODE, bdaddr := 0x112233445566, replied := false,
           agent := none }] ∧
      r.out.filter Effect.is_hci_send_cmd =
        [.hci_send_cmd OGF_LINK_CTL OCF_PIN_CODE_NEG_REPLY (.bdaddr 0xAABBCCDDEEFF)] := by
  refine ⟨rfl, ?_⟩
  obtain ⟨r, h1, h2, -, -, -, -, h7, -⟩ :=
    create_bond_req_exit_cleanup sample_env sample_bonding_auth sample_bonding rfl
  obtain ⟨h8, -, h9⟩ := h7
    { type := .AUTH_TYPE_PINCODE, bdaddr := 0xAABBCCDDEEFF, replied := false, agent := none }
    (by decide)
  exact ⟨r, h1, h2, h8, h9⟩

/-! ## The Mediapad key tables -/

/-- What `translate_key` does with a non-media scancode (0 to 0x7f): above
0x63 it reads no table; otherwise it reads the non-media table in the row of
the mode at column `key - 0x54`, which is negative below 0x54. -/
theorem translate_key_cell_non_media (mode key : Int) (h1 : 0 ≤ key) (h2 : key ≤ 0x7f) :
    translate_key_cell mode key =
      (if key > 0x63 then mp_cell.unknown
       else mp_cell.keymap (if mode ≠ 0 then 1 else 0) (key - 0x54)) := by
  unfold translate_key_cell
  have hlow : ¬ ((key % 256).toNat > 0x82) := by
    rw [Int.emod_eq_of_lt h1 (by omega)]
    omega
  simp only [if_neg hlow]

/-- A non-media scancode from 0x01 to 0x53 makes `translate_key` read the
non-media table at a negative column, whatever the tables hold. -/
theorem translate_key_below_table (k : mp_keymaps) (mode key : Int) (h1 : 1 ≤ key)
    (h2 : key < 0x54) :
    translate_key_cell mode key = .keymap (if mode ≠ 0 then 1 else 0) (key - 0x54) ∧
    key - 0x54 < 0 ∧
    translate_key k mode key = none := by
  have hc := translate_key_cell_non_media mode key (by omega) (by omega)
  rw [if_neg (by omega)] at hc
  refine ⟨hc, by omega, ?_⟩
  unfold translate_key table_read
  rw [hc]
  simp only
  split
  · rfl
  · rw [if_neg (by omega)]

/-- C30, evaluated at the non-media scancode 0x10 (a byte `buf[4]` of 0x10,
so `buf[4] & 0x7f` is 0x10) in mode 0: `translate_key` reads the non-media
table at row 0, column -68, outside the table. -/
theorem translate_key_reads_outside_table :
    (0x10 : Int) % 128 = 0x10 ∧
    translate_key_cell 0 0x10 = .keymap 0 (-68) ∧
    translate_key mp_keymaps_init 0 0x10 = none := by
  decide

/-- C22, evaluated at `BindKey(0x63, 0, 30)` on the initial tables: the call
leaves the tables as they are, and `translate_key(0, 0x63)`, which reads
column 15 of the non-media table, still returns `KEY_DOT`, not 30; the same
call for scancode 0x62 binds the key. -/
theorem bind_key_skips_scancode_0x63 :
    mp_dbus_bind_key mp_keymaps_init [.uint32 0x63, .uint32 0, .uint32 30]
      = some mp_keymaps_init ∧
    translate_key_cell 0 0x63 = .keymap 0 15 ∧
    (mp_dbus_bind_key mp_keymaps_init [.uint32 0x63, .uint32 0, .uint32 30]).bind
        (fun k => translate_key k 0 0x63) = some KEY_DOT ∧
    KEY_DOT ≠ 30 ∧
    (mp_dbus_bind_key mp_keymaps_init [.uint32 0x62, .uint32 0, .uint32 30]).bind
        (fun k => translate_key k 0 0x62) = some 30 := by
  decide

theorem table_write_read (t : List (List Nat)) (row col v : Nat) (t1 : List (List Nat))
    (h : table_write t row col v = some t1) :
    table_read t1 row (col : Int) = some (v % 256) := by
  unfold table_write at h
  unfold table_read
  cases hr : t.get? row with
  | none =>
    rw [hr] at h
    cases h
  | some r =>
    simp only [hr] at h
    split_ifs at h with hc
    simp only [Option.some.injEq] at h
    subst h
    have hrow : row < t.length := by
      rcases List.get?_eq_some.mp hr with ⟨hlt, -⟩
      exact hlt
    simp [hrow, hc]

theorem table_write_some (t : List (List Nat)) (row col v n : Nat) (hrow : row < t.length)
    (hlen : ∀ r, r ∈ t → r.length = n) (hcol : col < n) :
    ∃ t1, table_write t row col v = some t1 := by
  unfold table_write
  have hg : t.get? row = some (t.get ⟨row, hrow⟩) := List.get?_eq_get hrow
  rw [hg]
  simp only
  have hl : (t.get ⟨row, hrow⟩).length = n := hlen _ (List.get_mem t row hrow)
  rw [if_pos (by omega)]
  exact ⟨_, rfl⟩

theorem media_column_some (s c : Nat) (h : media_column s = some c) :
    0x82 < s ∧ s < 256 ∧ c < 8 := by
  unfold media_column at h
  split_ifs at h with h1 h2 h3 h4 h5 h6 h7 h8
  all_goals
    simp only [Option.some.injEq] at h
    subst h
    first
      | (rw [h1]; decide)
      | (rw [h2]; decide)
      | (rw [h3]; decide)
      | (rw [h4]; decide)
      | (rw [h5]; decide)
      | (rw [h6]; decide)
      | (rw [h7]; decide)
      | (rw [h8]; decide)

/-- What holds of the round trip: on tables of the dimensions of the C
arrays, for a non-media scancode from 0x54 to 0x62 or one of the eight media
scancodes, and a key value below 256, `BindKey(scancode, mode, key)` succeeds
and `translate_key(mode, scancode)` then returns the key. -/
theorem bind_key_round_trip (k : mp_keymaps) (hk : mp_keymaps_wf k) (scancode mode key : Nat)
    (hs : (0x54 ≤ scancode ∧ scancode < 0x63) ∨ (media_column scancode).isSome = true)
    (hkey : key < 256) :
    ∃ k1, mp_dbus_bind_key k [.uint32 scancode, .uint32 mode, .uint32 key] = some k1 ∧
      translate_key k1 (mode : Int) (scancode : Int) = some key := by
  obtain ⟨w1, w2, w3, w4⟩ := hk
  have hrow : (if mode ≠ 0 then 1 else 0 : Nat) < 2 := by split_ifs <;> omega
  have hrowi : (if (mode : Int) ≠ 0 then 1 else 0 : Nat) = (if mode ≠ 0 then 1 else 0 : Nat) := by
    by_cases hm : mode = 0
    · subst hm
      rfl
    · rw [if_pos hm, if_pos (by exact_mod_cast hm)]
  rcases hs with ⟨h1, h2⟩ | hm
  · obtain ⟨t1, ht1⟩ := table_write_some k.mp_keymap (if mode ≠ 0 then 1 else 0)
      (scancode - 0x54) key 16 (by rw [w1]; exact hrow) w2 (by omega)
    have hcol : (scancode + 2 ^ 32 - 0x54) % 2 ^ 32 = scancode - 0x54 := by omega
    refine ⟨{ k with mp_keymap := t1 }, ?_, ?_⟩
    · unfold mp_dbus_bind_key
      simp only [if_neg (show ¬ scancode > 0x82 by omega), if_pos h2, hcol, ht1, Option.map_some']
    · unfold translate_key
      rw [translate_key_cell_non_media _ _ (by omega) (by omega), if_neg (by omega)]
      simp only [hrowi]
      have hc : ((scancode : Int) - 0x54) = ((scancode - 0x54 : Nat) : Int) := by omega
      rw [hc, table_write_read _ _ _ _ _ ht1, Nat.mod_eq_of_lt hkey]
  · cases hc : media_column scancode with
    | none => rw [hc] at hm; cases hm
    | some c =>
      obtain ⟨c1, c2, c3⟩ := media_column_some scancode c hc
      obtain ⟨t1, ht1⟩ := table_write_some k.mp_keymap_m (if mode ≠ 0 then 1 else 0)
        c key 8 (by rw [w3]; exact hrow) w4 c3
      refine ⟨{ k with mp_keymap_m := t1 }, ?_, ?_⟩
      · unfold mp_dbus_bind_key
        simp only [if_pos c1, hc, ht1, Option.map_some', if_neg (show ¬ scancode < 0x63 by omega)]
      · unfold translate_key translate_key_cell
        have hlow : ((scancode : Int) % 256).toNat = scancode := by omega
        simp only [hlow, if_pos c1, hc, hrowi]
        exact (table_write_read _ _ _ _ _ ht1).trans (by rw [Nat.mod_eq_of_lt hkey])

end BlueZ
